import Mathlib

/-!
# Argument-marshalling glue of `ext_network.ext_hhvm.cpp`

A shallow embedding of the generated entry points `fg_X` / `fg1_X` of
`src/hphp/runtime/ext/ext_network.ext_hhvm.cpp`.

Every entry point is a function on a small machine state: the argument slots
below the activation record, the local `rv`, the return slot `ar->m_r`, and the
chronological list of the calls the glue makes into the runtime (in-place
casts, the native `fh_X`, the arity signals, the release of the locals, the
store into the return slot), the pointer it returns and a mark telling whether
the cold helper was entered.  The runtime functions the glue calls are not part
of the file; they are parameters (`Runtime`).
-/

namespace HPHP

/-! ## Data model -/

/-- Modelled from the spec: the type tags of the tagged-value representation
(`DataType`, declared in the runtime headers): uninit, null, boolean, integer,
double, the two string kinds, array, object, reference. -/
inductive DataType
  | KindOfUninit
  | KindOfNull
  | KindOfBoolean
  | KindOfInt64
  | KindOfDouble
  | KindOfStaticString
  | KindOfString
  | KindOfArray
  | KindOfObject
  | KindOfRef
  deriving DecidableEq

export DataType (KindOfUninit KindOfNull KindOfBoolean KindOfInt64 KindOfDouble
  KindOfStaticString KindOfString KindOfArray KindOfObject KindOfRef)

/-- Modelled from the spec: the macro `IS_STRING_TYPE` (runtime headers); both
string kinds count as a string. -/
def IS_STRING_TYPE (t : DataType) : Bool :=
  t == KindOfStaticString || t == KindOfString

/-- A tagged value: the payload `m_data.num` (a 64-bit integer, or a pointer
read as one) and the type tag `m_type`. -/
structure TypedValue where
  m_data : Int
  m_type : DataType
  deriving DecidableEq

/-- Modelled from the spec: `uninit_null()` (runtime headers) yields the
uninitialized-null value. -/
def uninit_null : TypedValue := ⟨0, KindOfUninit⟩

/-- The C conversion `(int)x` of a 64-bit payload: the low 32 bits, read as a
signed integer. -/
def toInt32 (x : Int) : Int := (x + 2 ^ 31) % 2 ^ 32 - 2 ^ 31

/-- The C conversion `(bool)x` of an integer payload. -/
def toBool (x : Int) : Bool := x != 0

/-- The functions bound by the file, by PHP name. -/
inductive Fn
  | gethostname | gethostbyaddr | gethostbyname | gethostbynamel
  | getprotobyname | getprotobynumber | getservbyname | getservbyport
  | inet_ntop | inet_pton | ip2long | long2ip
  | dns_check_record | checkdnsrr | dns_get_record | dns_get_mx | getmxrr
  | socket_get_status | socket_set_blocking | socket_set_timeout
  | header | http_response_code | headers_list | get_http_request_size
  | headers_sent | header_register_callback | header_remove
  | setcookie | setrawcookie
  | define_syslog_variables | openlog | closelog | syslog
  deriving DecidableEq

/-- The PHP name of a bound function: the `X` of `fg_X`. -/
def Fn.name : Fn → String
  | .gethostname => "gethostname"
  | .gethostbyaddr => "gethostbyaddr"
  | .gethostbyname => "gethostbyname"
  | .gethostbynamel => "gethostbynamel"
  | .getprotobyname => "getprotobyname"
  | .getprotobynumber => "getprotobynumber"
  | .getservbyname => "getservbyname"
  | .getservbyport => "getservbyport"
  | .inet_ntop => "inet_ntop"
  | .inet_pton => "inet_pton"
  | .ip2long => "ip2long"
  | .long2ip => "long2ip"
  | .dns_check_record => "dns_check_record"
  | .checkdnsrr => "checkdnsrr"
  | .dns_get_record => "dns_get_record"
  | .dns_get_mx => "dns_get_mx"
  | .getmxrr => "getmxrr"
  | .socket_get_status => "socket_get_status"
  | .socket_set_blocking => "socket_set_blocking"
  | .socket_set_timeout => "socket_set_timeout"
  | .header => "header"
  | .http_response_code => "http_response_code"
  | .headers_list => "headers_list"
  | .get_http_request_size => "get_http_request_size"
  | .headers_sent => "headers_sent"
  | .header_register_callback => "header_register_callback"
  | .header_remove => "header_remove"
  | .setcookie => "setcookie"
  | .setrawcookie => "setrawcookie"
  | .define_syslog_variables => "define_syslog_variables"
  | .openlog => "openlog"
  | .closelog => "closelog"
  | .syslog => "syslog"

/-- An actual argument handed to a native function `fh_X`. -/
inductive Arg
  /-- The payload of the caller's slot i by pointer: `&args[-i].m_data`,
  with the contents of the slot at the time of the call. -/
  | data (i : Nat) (v : TypedValue)
  /-- The global null string by pointer: `(Value*)(&null_string)`. -/
  | null_string
  /-- The caller's slot i itself: `(args-i)`, with its contents at the time of
  the call. -/
  | slot (i : Nat) (v : TypedValue)
  /-- The per-call local `defValk` by pointer: `(TypedValue*)(&defValk)`, with
  its contents. -/
  | defVal (k : Nat) (v : TypedValue)
  /-- An `int` passed by value. -/
  | int (n : Int)
  /-- A `long` passed by value. -/
  | long (n : Int)
  /-- A `bool` passed by value. -/
  | bool (b : Bool)
  deriving DecidableEq

/-- The four in-place casts of the runtime. -/
inductive CastKind
  | String | Int64 | Boolean | Object
  deriving DecidableEq

/-- A pointer the glue can return. -/
inductive Ptr
  | m_r
  | rv
  deriving DecidableEq

/-- One call from the glue into the runtime, or the store into the return
slot. -/
inductive Event
  /-- The in-place cast `tvCastTo<k>InPlace(args-i)`. -/
  | cast (k : CastKind) (i : Nat)
  /-- The native call `fh_X(actuals)`. -/
  | call (f : Fn) (actuals : List Arg)
  /-- The signal `throw_toomany_arguments_nr(fn, num, level)`. -/
  | toomany (fn : String) (num level : Nat)
  /-- The signal `throw_wrong_arguments_nr(fn, count, cmin, cmax, level)`. -/
  | wrong (fn : String) (count cmin cmax level : Nat)
  /-- The release `frame_free_locals_no_this_inl(ar, numLocals)`. -/
  | free_locals (numLocals : Nat)
  /-- The store `memcpy(&ar->m_r, &rv, sizeof(TypedValue))` of the value tv. -/
  | store (tv : TypedValue)
  deriving DecidableEq

/-- The runtime the glue is linked against: the in-place casts, as functions
on the contents of one slot, and the native functions, as functions of their
actual arguments, grouped by the way they hand back their result. -/
structure Runtime where
  /-- The contents `tvCastToStringInPlace` leaves in a slot. -/
  castString : TypedValue → TypedValue
  /-- The contents `tvCastToInt64InPlace` leaves in a slot. -/
  castInt64 : TypedValue → TypedValue
  /-- The contents `tvCastToBooleanInPlace` leaves in a slot. -/
  castBoolean : TypedValue → TypedValue
  /-- The contents `tvCastToObjectInPlace` leaves in a slot. -/
  castObject : TypedValue → TypedValue
  /-- The tagged value a native function stores through `TypedValue* _rv`. -/
  fh_variant : Fn → List Arg → TypedValue
  /-- The payload a native function stores through `Value* _rv`. -/
  fh_value : Fn → List Arg → Int
  /-- The result of a native function returning `bool`. -/
  fh_bool : Fn → List Arg → Bool
  /-- The result of a native function returning `int`. -/
  fh_int : Fn → List Arg → Int

/-- The activation record as the glue sees it: the argument count
(`ar->numArgs()`, a count, hence a natural number), the argument slots
(`args i` is `args[-i]`, the slot `i+1` places below the record) and the
return slot `m_r`. -/
structure ActRec where
  numArgs : Nat
  args : Nat → TypedValue
  m_r : TypedValue

/-- The state of one run of an entry point. -/
structure Machine where
  /-- The argument slots, `args i` being `args[-i]`. -/
  args : Nat → TypedValue
  /-- The local `rv` of `fg_X`. -/
  rv : TypedValue
  /-- The return slot `ar->m_r`. -/
  m_r : TypedValue
  /-- What the glue has done so far, oldest first. -/
  trace : List Event
  /-- The pointer returned by the entry point, once it has returned. -/
  returned : Option Ptr
  /-- Whether the cold helper `fg1_X` has been entered (the slow path). -/
  slow : Bool

/-- The state on entry of `fg_X`: `TypedValue rv;` is not initialised, its
contents rv are arbitrary. -/
def Machine.enter (ar : ActRec) (rv : TypedValue) : Machine :=
  ⟨ar.args, rv, ar.m_r, [], none, false⟩

/-! ## The runtime calls of the glue -/

def tvCastToStringInPlace (R : Runtime) (i : Nat) (m : Machine) : Machine :=
  { m with args := Function.update m.args i (R.castString (m.args i)),
           trace := m.trace ++ [Event.cast CastKind.String i] }

def tvCastToInt64InPlace (R : Runtime) (i : Nat) (m : Machine) : Machine :=
  { m with args := Function.update m.args i (R.castInt64 (m.args i)),
           trace := m.trace ++ [Event.cast CastKind.Int64 i] }

def tvCastToBooleanInPlace (R : Runtime) (i : Nat) (m : Machine) : Machine :=
  { m with args := Function.update m.args i (R.castBoolean (m.args i)),
           trace := m.trace ++ [Event.cast CastKind.Boolean i] }

def tvCastToObjectInPlace (R : Runtime) (i : Nat) (m : Machine) : Machine :=
  { m with args := Function.update m.args i (R.castObject (m.args i)),
           trace := m.trace ++ [Event.cast CastKind.Object i] }

/-- The statement
`if (!IS_STRING_TYPE((args-i)->m_type)) { tvCastToStringInPlace(args-i); }`. -/
def unless_string (R : Runtime) (i : Nat) (m : Machine) : Machine :=
  if ¬ IS_STRING_TYPE (m.args i).m_type then tvCastToStringInPlace R i m else m

/-- The statement
`if ((args-i)->m_type != KindOfInt64) { tvCastToInt64InPlace(args-i); }`. -/
def unless_int64 (R : Runtime) (i : Nat) (m : Machine) : Machine :=
  if (m.args i).m_type ≠ KindOfInt64 then tvCastToInt64InPlace R i m else m

/-- The statement
`if ((args-i)->m_type != KindOfBoolean) { tvCastToBooleanInPlace(args-i); }`. -/
def unless_boolean (R : Runtime) (i : Nat) (m : Machine) : Machine :=
  if (m.args i).m_type ≠ KindOfBoolean then tvCastToBooleanInPlace R i m else m

/-- The statement
`if ((args-i)->m_type != KindOfObject) { tvCastToObjectInPlace(args-i); }`. -/
def unless_object (R : Runtime) (i : Nat) (m : Machine) : Machine :=
  if (m.args i).m_type ≠ KindOfObject then tvCastToObjectInPlace R i m else m

/-- Modelled from the spec: `throw_toomany_arguments_nr` (runtime) signals the
error and comes back to the glue, which then produces the null result. -/
def throw_toomany_arguments_nr (fn : String) (num level : Nat) (m : Machine) : Machine :=
  { m with trace := m.trace ++ [Event.toomany fn num level] }

/-- Modelled from the spec: `throw_wrong_arguments_nr` (runtime) signals the
error and comes back to the glue, which then produces the null result. -/
def throw_wrong_arguments_nr (fn : String) (count cmin cmax level : Nat) (m : Machine) :
    Machine :=
  { m with trace := m.trace ++ [Event.wrong fn count cmin cmax level] }

def frame_free_locals_no_this_inl (numLocals : Nat) (m : Machine) : Machine :=
  { m with trace := m.trace ++ [Event.free_locals numLocals] }

/-- The entry of a cold helper `fg1_X`: the run is on the slow path. -/
def cold (m : Machine) : Machine :=
  { m with slow := true }

/-- The statement `memcpy(&ar->m_r, &rv, sizeof(TypedValue));`. -/
def memcpy_m_r (m : Machine) : Machine :=
  { m with m_r := m.rv, trace := m.trace ++ [Event.store m.rv] }

/-- The statement `return &ar->m_r;`. -/
def return_m_r (m : Machine) : Machine :=
  { m with returned := some Ptr.m_r }

/-- The assignment `rv.m_type = t`. -/
def set_rv_type (t : DataType) (m : Machine) : Machine :=
  { m with rv := { m.rv with m_type := t } }

/-- The assignment `rv.m_data.num = n`. -/
def set_rv_num (n : Int) (m : Machine) : Machine :=
  { m with rv := { m.rv with m_data := n } }

/-- The statement `if (rv.m_type == KindOfUninit) rv.m_type = KindOfNull;`. -/
def rv_uninit_to_null (m : Machine) : Machine :=
  if m.rv.m_type = KindOfUninit then set_rv_type KindOfNull m else m

/-- The statement `if (rv.m_data.num == 0LL) rv.m_type = KindOfNull;`. -/
def rv_zero_to_null (m : Machine) : Machine :=
  if m.rv.m_data = 0 then set_rv_type KindOfNull m else m

/-- The actual `&args[-i].m_data`. -/
def Machine.data (m : Machine) (i : Nat) : Arg := Arg.data i (m.args i)

/-- The actual `(args-i)`. -/
def Machine.slot (m : Machine) (i : Nat) : Arg := Arg.slot i (m.args i)

/-- The actual `(int)(args[-i].m_data.num)`. -/
def Machine.int (m : Machine) (i : Nat) : Arg := Arg.int (toInt32 (m.args i).m_data)

/-- The actual `(long)(args[-i].m_data.num)`. -/
def Machine.long (m : Machine) (i : Nat) : Arg := Arg.long (m.args i).m_data

/-- The actual `(bool)(args[-i].m_data.num)`. -/
def Machine.bool (m : Machine) (i : Nat) : Arg := Arg.bool (toBool (m.args i).m_data)

/-- The actual `(TypedValue*)(&defValk)` after `VRefParamValue defValk = uninit_null();`. -/
def defVal (k : Nat) : Arg := Arg.defVal k uninit_null

/-- A native call `fh_X(&rv, actuals)` whose result is stored through
`TypedValue* _rv`. -/
def call_variant (R : Runtime) (f : Fn) (actuals : List Arg) (m : Machine) : Machine :=
  { m with rv := R.fh_variant f actuals, trace := m.trace ++ [Event.call f actuals] }

/-- A native call `fh_X(&rv.m_data, actuals)` whose result is stored through
`Value* _rv`. -/
def call_value (R : Runtime) (f : Fn) (actuals : List Arg) (m : Machine) : Machine :=
  { m with rv := { m.rv with m_data := R.fh_value f actuals },
           trace := m.trace ++ [Event.call f actuals] }

/-- The statement `rv.m_data.num = (fh_X(actuals)) ? 1LL : 0LL;`. -/
def call_bool (R : Runtime) (f : Fn) (actuals : List Arg) (m : Machine) : Machine :=
  { m with rv := { m.rv with m_data := if R.fh_bool f actuals then 1 else 0 },
           trace := m.trace ++ [Event.call f actuals] }

/-- The statement `rv.m_data.num = (int64_t)fh_X(actuals);`: the `int` result
sign-extended. -/
def call_int (R : Runtime) (f : Fn) (actuals : List Arg) (m : Machine) : Machine :=
  { m with rv := { m.rv with m_data := toInt32 (R.fh_int f actuals) },
           trace := m.trace ++ [Event.call f actuals] }

/-- A native call `fh_X(actuals)` returning `void`. -/
def call_void (f : Fn) (actuals : List Arg) (m : Machine) : Machine :=
  { m with trace := m.trace ++ [Event.call f actuals] }

/-- The tail of every branch: release the locals, store `rv` into the return
slot, return the return slot. -/
def finish (numLocals : Nat) (m : Machine) : Machine :=
  return_m_r (memcpy_m_r (frame_free_locals_no_this_inl numLocals m))

/-- The statements after the arity signal: `rv.m_data.num = 0LL;
rv.m_type = KindOfNull;` and the tail. -/
def null_result (numLocals : Nat) (m : Machine) : Machine :=
  finish numLocals (set_rv_type KindOfNull (set_rv_num 0 m))

/-! ## The entry points, in the order of the file -/

set_option linter.unusedVariables false

def fg_gethostname (R : Runtime) (ar : ActRec) (rv : TypedValue) : Machine :=
  let m := Machine.enter ar rv
  let count := ar.numArgs
  if count = 0 then
    let m := call_variant R .gethostname [] m
    let m := rv_uninit_to_null m
    finish 0 m
  else
    let m := throw_toomany_arguments_nr "gethostname" 0 1 m
    null_result 0 m

def fg1_gethostbyaddr (R : Runtime) (count : Nat) (m : Machine) : Machine :=
  let m := cold m
  let m := tvCastToStringInPlace R 0 m
  let m := call_variant R .gethostbyaddr [m.data 0] m
  rv_uninit_to_null m

def fg_gethostbyaddr (R : Runtime) (ar : ActRec) (rv : TypedValue) : Machine :=
  let m := Machine.enter ar rv
  let count := ar.numArgs
  if count = 1 then
    if IS_STRING_TYPE (m.args 0).m_type then
      let m := call_variant R .gethostbyaddr [m.data 0] m
      let m := rv_uninit_to_null m
      finish 1 m
    else
      let m := fg1_gethostbyaddr R count m
      finish 1 m
  else
    let m := throw_wrong_arguments_nr "gethostbyaddr" count 1 1 1 m
    null_result 1 m

def fg1_gethostbyname (R : Runtime) (count : Nat) (m : Machine) : Machine :=
  let m := cold m
  let m := set_rv_type KindOfString m
  let m := tvCastToStringInPlace R 0 m
  let m := call_value R .gethostbyname [m.data 0] m
  rv_zero_to_null m

def fg_gethostbyname (R : Runtime) (ar : ActRec) (rv : TypedValue) : Machine :=
  let m := Machine.enter ar rv
  let count := ar.numArgs
  if count = 1 then
    if IS_STRING_TYPE (m.args 0).m_type then
      let m := set_rv_type KindOfString m
      let m := call_value R .gethostbyname [m.data 0] m
      let m := rv_zero_to_null m
      finish 1 m
    else
      let m := fg1_gethostbyname R count m
      finish 1 m
  else
    let m := throw_wrong_arguments_nr "gethostbyname" count 1 1 1 m
    null_result 1 m

def fg1_gethostbynamel (R : Runtime) (count : Nat) (m : Machine) : Machine :=
  let m := cold m
  let m := tvCastToStringInPlace R 0 m
  let m := call_variant R .gethostbynamel [m.data 0] m
  rv_uninit_to_null m

def fg_gethostbynamel (R : Runtime) (ar : ActRec) (rv : TypedValue) : Machine :=
  let m := Machine.enter ar rv
  let count := ar.numArgs
  if count = 1 then
    if IS_STRING_TYPE (m.args 0).m_type then
      let m := call_variant R .gethostbynamel [m.data 0] m
      let m := rv_uninit_to_null m
      finish 1 m
    else
      let m := fg1_gethostbynamel R count m
      finish 1 m
  else
    let m := throw_wrong_arguments_nr "gethostbynamel" count 1 1 1 m
    null_result 1 m

def fg1_getprotobyname (R : Runtime) (count : Nat) (m : Machine) : Machine :=
  let m := cold m
  let m := tvCastToStringInPlace R 0 m
  let m := call_variant R .getprotobyname [m.data 0] m
  rv_uninit_to_null m

def fg_getprotobyname (R : Runtime) (ar : ActRec) (rv : TypedValue) : Machine :=
  let m := Machine.enter ar rv
  let count := ar.numArgs
  if count = 1 then
    if IS_STRING_TYPE (m.args 0).m_type then
      let m := call_variant R .getprotobyname [m.data 0] m
      let m := rv_uninit_to_null m
      finish 1 m
    else
      let m := fg1_getprotobyname R count m
      finish 1 m
  else
    let m := throw_wrong_arguments_nr "getprotobyname" count 1 1 1 m
    null_result 1 m

def fg1_getprotobynumber (R : Runtime) (count : Nat) (m : Machine) : Machine :=
  let m := cold m
  let m := tvCastToInt64InPlace R 0 m
  let m := call_variant R .getprotobynumber [m.int 0] m
  rv_uninit_to_null m

def fg_getprotobynumber (R : Runtime) (ar : ActRec) (rv : TypedValue) : Machine :=
  let m := Machine.enter ar rv
  let count := ar.numArgs
  if count = 1 then
    if (m.args 0).m_type = KindOfInt64 then
      let m := call_variant R .getprotobynumber [m.int 0] m
      let m := rv_uninit_to_null m
      finish 1 m
    else
      let m := fg1_getprotobynumber R count m
      finish 1 m
  else
    let m := throw_wrong_arguments_nr "getprotobynumber" count 1 1 1 m
    null_result 1 m

def fg1_getservbyname (R : Runtime) (count : Nat) (m : Machine) : Machine :=
  let m := cold m
  let m := unless_string R 1 m
  let m := unless_string R 0 m
  let m := call_variant R .getservbyname [m.data 0, m.data 1] m
  rv_uninit_to_null m

def fg_getservbyname (R : Runtime) (ar : ActRec) (rv : TypedValue) : Machine :=
  let m := Machine.enter ar rv
  let count := ar.numArgs
  if count = 2 then
    if IS_STRING_TYPE (m.args 1).m_type ∧ IS_STRING_TYPE (m.args 0).m_type then
      let m := call_variant R .getservbyname [m.data 0, m.data 1] m
      let m := rv_uninit_to_null m
      finish 2 m
    else
      let m := fg1_getservbyname R count m
      finish 2 m
  else
    let m := throw_wrong_arguments_nr "getservbyname" count 2 2 1 m
    null_result 2 m

def fg1_getservbyport (R : Runtime) (count : Nat) (m : Machine) : Machine :=
  let m := cold m
  let m := unless_string R 1 m
  let m := unless_int64 R 0 m
  let m := call_variant R .getservbyport [m.int 0, m.data 1] m
  rv_uninit_to_null m

def fg_getservbyport (R : Runtime) (ar : ActRec) (rv : TypedValue) : Machine :=
  let m := Machine.enter ar rv
  let count := ar.numArgs
  if count = 2 then
    if IS_STRING_TYPE (m.args 1).m_type ∧ (m.args 0).m_type = KindOfInt64 then
      let m := call_variant R .getservbyport [m.int 0, m.data 1] m
      let m := rv_uninit_to_null m
      finish 2 m
    else
      let m := fg1_getservbyport R count m
      finish 2 m
  else
    let m := throw_wrong_arguments_nr "getservbyport" count 2 2 1 m
    null_result 2 m

def fg1_inet_ntop (R : Runtime) (count : Nat) (m : Machine) : Machine :=
  let m := cold m
  let m := tvCastToStringInPlace R 0 m
  let m := call_variant R .inet_ntop [m.data 0] m
  rv_uninit_to_null m

def fg_inet_ntop (R : Runtime) (ar : ActRec) (rv : TypedValue) : Machine :=
  let m := Machine.enter ar rv
  let count := ar.numArgs
  if count = 1 then
    if IS_STRING_TYPE (m.args 0).m_type then
      let m := call_variant R .inet_ntop [m.data 0] m
      let m := rv_uninit_to_null m
      finish 1 m
    else
      let m := fg1_inet_ntop R count m
      finish 1 m
  else
    let m := throw_wrong_arguments_nr "inet_ntop" count 1 1 1 m
    null_result 1 m

def fg1_inet_pton (R : Runtime) (count : Nat) (m : Machine) : Machine :=
  let m := cold m
  let m := tvCastToStringInPlace R 0 m
  let m := call_variant R .inet_pton [m.data 0] m
  rv_uninit_to_null m

def fg_inet_pton (R : Runtime) (ar : ActRec) (rv : TypedValue) : Machine :=
  let m := Machine.enter ar rv
  let count := ar.numArgs
  if count = 1 then
    if IS_STRING_TYPE (m.args 0).m_type then
      let m := call_variant R .inet_pton [m.data 0] m
      let m := rv_uninit_to_null m
      finish 1 m
    else
      let m := fg1_inet_pton R count m
      finish 1 m
  else
    let m := throw_wrong_arguments_nr "inet_pton" count 1 1 1 m
    null_result 1 m

def fg1_ip2long (R : Runtime) (count : Nat) (m : Machine) : Machine :=
  let m := cold m
  let m := tvCastToStringInPlace R 0 m
  let m := call_variant R .ip2long [m.data 0] m
  rv_uninit_to_null m

def fg_ip2long (R : Runtime) (ar : ActRec) (rv : TypedValue) : Machine :=
  let m := Machine.enter ar rv
  let count := ar.numArgs
  if count = 1 then
    if IS_STRING_TYPE (m.args 0).m_type then
      let m := call_variant R .ip2long [m.data 0] m
      let m := rv_uninit_to_null m
      finish 1 m
    else
      let m := fg1_ip2long R count m
      finish 1 m
  else
    let m := throw_wrong_arguments_nr "ip2long" count 1 1 1 m
    null_result 1 m

def fg1_long2ip (R : Runtime) (count : Nat) (m : Machine) : Machine :=
  let m := cold m
  let m := set_rv_type KindOfString m
  let m := tvCastToInt64InPlace R 0 m
  let m := call_value R .long2ip [m.int 0] m
  rv_zero_to_null m

def fg_long2ip (R : Runtime) (ar : ActRec) (rv : TypedValue) : Machine :=
  let m := Machine.enter ar rv
  let count := ar.numArgs
  if count = 1 then
    if (m.args 0).m_type = KindOfInt64 then
      let m := set_rv_type KindOfString m
      let m := call_value R .long2ip [m.int 0] m
      let m := rv_zero_to_null m
      finish 1 m
    else
      let m := fg1_long2ip R count m
      finish 1 m
  else
    let m := throw_wrong_arguments_nr "long2ip" count 1 1 1 m
    null_result 1 m

def fg1_dns_check_record (R : Runtime) (count : Nat) (m : Machine) : Machine :=
  let m := cold m
  let m := set_rv_type KindOfBoolean m
  let s1 := unless_string R 1
  let m := match count with
    | 1 => m
    | _ => s1 m
  let m := unless_string R 0 m
  call_bool R .dns_check_record
    [m.data 0, if count > 1 then m.data 1 else Arg.null_string] m

def fg_dns_check_record (R : Runtime) (ar : ActRec) (rv : TypedValue) : Machine :=
  let m := Machine.enter ar rv
  let count := ar.numArgs
  if count ≥ 1 ∧ count ≤ 2 then
    if (count ≤ 1 ∨ IS_STRING_TYPE (m.args 1).m_type) ∧ IS_STRING_TYPE (m.args 0).m_type then
      let m := set_rv_type KindOfBoolean m
      let m := call_bool R .dns_check_record
        [m.data 0, if count > 1 then m.data 1 else Arg.null_string] m
      finish 2 m
    else
      let m := fg1_dns_check_record R count m
      finish 2 m
  else
    let m := throw_wrong_arguments_nr "dns_check_record" count 1 2 1 m
    null_result 2 m

def fg1_checkdnsrr (R : Runtime) (count : Nat) (m : Machine) : Machine :=
  let m := cold m
  let m := set_rv_type KindOfBoolean m
  let s1 := unless_string R 1
  let m := match count with
    | 1 => m
    | _ => s1 m
  let m := unless_string R 0 m
  call_bool R .checkdnsrr
    [m.data 0, if count > 1 then m.data 1 else Arg.null_string] m

def fg_checkdnsrr (R : Runtime) (ar : ActRec) (rv : TypedValue) : Machine :=
  let m := Machine.enter ar rv
  let count := ar.numArgs
  if count ≥ 1 ∧ count ≤ 2 then
    if (count ≤ 1 ∨ IS_STRING_TYPE (m.args 1).m_type) ∧ IS_STRING_TYPE (m.args 0).m_type then
      let m := set_rv_type KindOfBoolean m
      let m := call_bool R .checkdnsrr
        [m.data 0, if count > 1 then m.data 1 else Arg.null_string] m
      finish 2 m
    else
      let m := fg1_checkdnsrr R count m
      finish 2 m
  else
    let m := throw_wrong_arguments_nr "checkdnsrr" count 1 2 1 m
    null_result 2 m

def fg1_dns_get_record (R : Runtime) (count : Nat) (m : Machine) : Machine :=
  let m := cold m
  let s1 := unless_int64 R 1
  let m := match count with
    | 1 => m
    | 2 => s1 m
    | 3 => s1 m
    | _ => s1 m
  let m := unless_string R 0 m
  let m := call_variant R .dns_get_record
    [m.data 0, if count > 1 then m.int 1 else Arg.int (-1),
     if count > 2 then m.slot 2 else defVal 2,
     if count > 3 then m.slot 3 else defVal 3] m
  rv_uninit_to_null m

def fg_dns_get_record (R : Runtime) (ar : ActRec) (rv : TypedValue) : Machine :=
  let m := Machine.enter ar rv
  let count := ar.numArgs
  if count ≥ 1 ∧ count ≤ 4 then
    if (count ≤ 1 ∨ (m.args 1).m_type = KindOfInt64) ∧ IS_STRING_TYPE (m.args 0).m_type then
      let m := call_variant R .dns_get_record
        [m.data 0, if count > 1 then m.int 1 else Arg.int (-1),
         if count > 2 then m.slot 2 else defVal 2,
         if count > 3 then m.slot 3 else defVal 3] m
      let m := rv_uninit_to_null m
      finish 4 m
    else
      let m := fg1_dns_get_record R count m
      finish 4 m
  else
    let m := throw_wrong_arguments_nr "dns_get_record" count 1 4 1 m
    null_result 4 m

def fg1_dns_get_mx (R : Runtime) (count : Nat) (m : Machine) : Machine :=
  let m := cold m
  let m := set_rv_type KindOfBoolean m
  let m := tvCastToStringInPlace R 0 m
  call_bool R .dns_get_mx
    [m.data 0, m.slot 1, if count > 2 then m.slot 2 else defVal 2] m

def fg_dns_get_mx (R : Runtime) (ar : ActRec) (rv : TypedValue) : Machine :=
  let m := Machine.enter ar rv
  let count := ar.numArgs
  if count ≥ 2 ∧ count ≤ 3 then
    if IS_STRING_TYPE (m.args 0).m_type then
      let m := set_rv_type KindOfBoolean m
      let m := call_bool R .dns_get_mx
        [m.data 0, m.slot 1, if count > 2 then m.slot 2 else defVal 2] m
      finish 3 m
    else
      let m := fg1_dns_get_mx R count m
      finish 3 m
  else
    let m := throw_wrong_arguments_nr "dns_get_mx" count 2 3 1 m
    null_result 3 m

def fg1_getmxrr (R : Runtime) (count : Nat) (m : Machine) : Machine :=
  let m := cold m
  let m := set_rv_type KindOfBoolean m
  let m := tvCastToStringInPlace R 0 m
  call_bool R .getmxrr
    [m.data 0, m.slot 1, if count > 2 then m.slot 2 else defVal 2] m

def fg_getmxrr (R : Runtime) (ar : ActRec) (rv : TypedValue) : Machine :=
  let m := Machine.enter ar rv
  let count := ar.numArgs
  if count ≥ 2 ∧ count ≤ 3 then
    if IS_STRING_TYPE (m.args 0).m_type then
      let m := set_rv_type KindOfBoolean m
      let m := call_bool R .getmxrr
        [m.data 0, m.slot 1, if count > 2 then m.slot 2 else defVal 2] m
      finish 3 m
    else
      let m := fg1_getmxrr R count m
      finish 3 m
  else
    let m := throw_wrong_arguments_nr "getmxrr" count 2 3 1 m
    null_result 3 m

def fg1_socket_get_status (R : Runtime) (count : Nat) (m : Machine) : Machine :=
  let m := cold m
  let m := tvCastToObjectInPlace R 0 m
  let m := call_variant R .socket_get_status [m.data 0] m
  rv_uninit_to_null m

def fg_socket_get_status (R : Runtime) (ar : ActRec) (rv : TypedValue) : Machine :=
  let m := Machine.enter ar rv
  let count := ar.numArgs
  if count = 1 then
    if (m.args 0).m_type = KindOfObject then
      let m := call_variant R .socket_get_status [m.data 0] m
      let m := rv_uninit_to_null m
      finish 1 m
    else
      let m := fg1_socket_get_status R count m
      finish 1 m
  else
    let m := throw_wrong_arguments_nr "socket_get_status" count 1 1 1 m
    null_result 1 m

def fg1_socket_set_blocking (R : Runtime) (count : Nat) (m : Machine) : Machine :=
  let m := cold m
  let m := set_rv_type KindOfBoolean m
  let m := unless_int64 R 1 m
  let m := unless_object R 0 m
  call_bool R .socket_set_blocking [m.data 0, m.int 1] m

def fg_socket_set_blocking (R : Runtime) (ar : ActRec) (rv : TypedValue) : Machine :=
  let m := Machine.enter ar rv
  let count := ar.numArgs
  if count = 2 then
    if (m.args 1).m_type = KindOfInt64 ∧ (m.args 0).m_type = KindOfObject then
      let m := set_rv_type KindOfBoolean m
      let m := call_bool R .socket_set_blocking [m.data 0, m.int 1] m
      finish 2 m
    else
      let m := fg1_socket_set_blocking R count m
      finish 2 m
  else
    let m := throw_wrong_arguments_nr "socket_set_blocking" count 2 2 1 m
    null_result 2 m

def fg1_socket_set_timeout (R : Runtime) (count : Nat) (m : Machine) : Machine :=
  let m := cold m
  let m := set_rv_type KindOfBoolean m
  let s2 := unless_int64 R 2
  let m := match count with
    | 2 => m
    | _ => s2 m
  let m := unless_int64 R 1 m
  let m := unless_object R 0 m
  call_bool R .socket_set_timeout
    [m.data 0, m.int 1, if count > 2 then m.int 2 else Arg.int 0] m

def fg_socket_set_timeout (R : Runtime) (ar : ActRec) (rv : TypedValue) : Machine :=
  let m := Machine.enter ar rv
  let count := ar.numArgs
  if count ≥ 2 ∧ count ≤ 3 then
    if (count ≤ 2 ∨ (m.args 2).m_type = KindOfInt64) ∧ (m.args 1).m_type = KindOfInt64
        ∧ (m.args 0).m_type = KindOfObject then
      let m := set_rv_type KindOfBoolean m
      let m := call_bool R .socket_set_timeout
        [m.data 0, m.int 1, if count > 2 then m.int 2 else Arg.int 0] m
      finish 3 m
    else
      let m := fg1_socket_set_timeout R count m
      finish 3 m
  else
    let m := throw_wrong_arguments_nr "socket_set_timeout" count 2 3 1 m
    null_result 3 m

def fg1_header (R : Runtime) (count : Nat) (m : Machine) : Machine :=
  let m := cold m
  let m := set_rv_num 0 m
  let m := set_rv_type KindOfNull m
  let s2 := unless_int64 R 2
  let s1 := unless_boolean R 1
  let m := match count with
    | 1 => m
    | 2 => s1 m
    | _ => s1 (s2 m)
  let m := unless_string R 0 m
  call_void .header
    [m.data 0, if count > 1 then m.bool 1 else Arg.bool true,
     if count > 2 then m.int 2 else Arg.int 0] m

def fg_header (R : Runtime) (ar : ActRec) (rv : TypedValue) : Machine :=
  let m := Machine.enter ar rv
  let count := ar.numArgs
  if count ≥ 1 ∧ count ≤ 3 then
    if (count ≤ 2 ∨ (m.args 2).m_type = KindOfInt64)
        ∧ (count ≤ 1 ∨ (m.args 1).m_type = KindOfBoolean)
        ∧ IS_STRING_TYPE (m.args 0).m_type then
      let m := set_rv_num 0 m
      let m := set_rv_type KindOfNull m
      let m := call_void .header
        [m.data 0, if count > 1 then m.bool 1 else Arg.bool true,
         if count > 2 then m.int 2 else Arg.int 0] m
      finish 3 m
    else
      let m := fg1_header R count m
      finish 3 m
  else
    let m := throw_wrong_arguments_nr "header" count 1 3 1 m
    null_result 3 m

def fg1_http_response_code (R : Runtime) (count : Nat) (m : Machine) : Machine :=
  let m := cold m
  let m := tvCastToInt64InPlace R 0 m
  let m := call_variant R .http_response_code
    [if count > 0 then m.int 0 else Arg.int 0] m
  rv_uninit_to_null m

def fg_http_response_code (R : Runtime) (ar : ActRec) (rv : TypedValue) : Machine :=
  let m := Machine.enter ar rv
  let count := ar.numArgs
  if count ≤ 1 then
    if count ≤ 0 ∨ (m.args 0).m_type = KindOfInt64 then
      let m := call_variant R .http_response_code
        [if count > 0 then m.int 0 else Arg.int 0] m
      let m := rv_uninit_to_null m
      finish 1 m
    else
      let m := fg1_http_response_code R count m
      finish 1 m
  else
    let m := throw_toomany_arguments_nr "http_response_code" 1 1 m
    null_result 1 m

def fg_headers_list (R : Runtime) (ar : ActRec) (rv : TypedValue) : Machine :=
  let m := Machine.enter ar rv
  let count := ar.numArgs
  if count = 0 then
    let m := set_rv_type KindOfArray m
    let m := call_value R .headers_list [] m
    let m := rv_zero_to_null m
    finish 0 m
  else
    let m := throw_toomany_arguments_nr "headers_list" 0 1 m
    null_result 0 m

def fg_get_http_request_size (R : Runtime) (ar : ActRec) (rv : TypedValue) : Machine :=
  let m := Machine.enter ar rv
  let count := ar.numArgs
  if count = 0 then
    let m := set_rv_type KindOfInt64 m
    let m := call_int R .get_http_request_size [] m
    finish 0 m
  else
    let m := throw_toomany_arguments_nr "get_http_request_size" 0 1 m
    null_result 0 m

def fg_headers_sent (R : Runtime) (ar : ActRec) (rv : TypedValue) : Machine :=
  let m := Machine.enter ar rv
  let count := ar.numArgs
  if count ≤ 2 then
    let m := set_rv_type KindOfBoolean m
    let m := call_bool R .headers_sent
      [if count > 0 then m.slot 0 else defVal 0,
       if count > 1 then m.slot 1 else defVal 1] m
    finish 2 m
  else
    let m := throw_toomany_arguments_nr "headers_sent" 2 1 m
    null_result 2 m

def fg_header_register_callback (R : Runtime) (ar : ActRec) (rv : TypedValue) : Machine :=
  let m := Machine.enter ar rv
  let count := ar.numArgs
  if count = 1 then
    let m := set_rv_type KindOfBoolean m
    let m := call_bool R .header_register_callback [m.slot 0] m
    finish 1 m
  else
    let m := throw_wrong_arguments_nr "header_register_callback" count 1 1 1 m
    null_result 1 m

def fg1_header_remove (R : Runtime) (count : Nat) (m : Machine) : Machine :=
  let m := cold m
  let m := set_rv_num 0 m
  let m := set_rv_type KindOfNull m
  let m := tvCastToStringInPlace R 0 m
  call_void .header_remove [if count > 0 then m.data 0 else Arg.null_string] m

def fg_header_remove (R : Runtime) (ar : ActRec) (rv : TypedValue) : Machine :=
  let m := Machine.enter ar rv
  let count := ar.numArgs
  if count ≤ 1 then
    if count ≤ 0 ∨ IS_STRING_TYPE (m.args 0).m_type then
      let m := set_rv_num 0 m
      let m := set_rv_type KindOfNull m
      let m := call_void .header_remove [if count > 0 then m.data 0 else Arg.null_string] m
      finish 1 m
    else
      let m := fg1_header_remove R count m
      finish 1 m
  else
    let m := throw_toomany_arguments_nr "header_remove" 1 1 m
    null_result 1 m

def fg1_setcookie (R : Runtime) (count : Nat) (m : Machine) : Machine :=
  let m := cold m
  let m := set_rv_type KindOfBoolean m
  let s6 := unless_boolean R 6
  let s5 := unless_boolean R 5
  let s4 := unless_string R 4
  let s3 := unless_string R 3
  let s2 := unless_int64 R 2
  let s1 := unless_string R 1
  let m := match count with
    | 1 => m
    | 2 => s1 m
    | 3 => s1 (s2 m)
    | 4 => s1 (s2 (s3 m))
    | 5 => s1 (s2 (s3 (s4 m)))
    | 6 => s1 (s2 (s3 (s4 (s5 m))))
    | _ => s1 (s2 (s3 (s4 (s5 (s6 m)))))
  let m := unless_string R 0 m
  call_bool R .setcookie
    [m.data 0,
     if count > 1 then m.data 1 else Arg.null_string,
     if count > 2 then m.long 2 else Arg.long 0,
     if count > 3 then m.data 3 else Arg.null_string,
     if count > 4 then m.data 4 else Arg.null_string,
     if count > 5 then m.bool 5 else Arg.bool false,
     if count > 6 then m.bool 6 else Arg.bool false] m

def fg_setcookie (R : Runtime) (ar : ActRec) (rv : TypedValue) : Machine :=
  let m := Machine.enter ar rv
  let count := ar.numArgs
  if count ≥ 1 ∧ count ≤ 7 then
    if (count ≤ 6 ∨ (m.args 6).m_type = KindOfBoolean)
        ∧ (count ≤ 5 ∨ (m.args 5).m_type = KindOfBoolean)
        ∧ (count ≤ 4 ∨ IS_STRING_TYPE (m.args 4).m_type)
        ∧ (count ≤ 3 ∨ IS_STRING_TYPE (m.args 3).m_type)
        ∧ (count ≤ 2 ∨ (m.args 2).m_type = KindOfInt64)
        ∧ (count ≤ 1 ∨ IS_STRING_TYPE (m.args 1).m_type)
        ∧ IS_STRING_TYPE (m.args 0).m_type then
      let m := set_rv_type KindOfBoolean m
      let m := call_bool R .setcookie
        [m.data 0,
         if count > 1 then m.data 1 else Arg.null_string,
         if count > 2 then m.long 2 else Arg.long 0,
         if count > 3 then m.data 3 else Arg.null_string,
         if count > 4 then m.data 4 else Arg.null_string,
         if count > 5 then m.bool 5 else Arg.bool false,
         if count > 6 then m.bool 6 else Arg.bool false] m
      finish 7 m
    else
      let m := fg1_setcookie R count m
      finish 7 m
  else
    let m := throw_wrong_arguments_nr "setcookie" count 1 7 1 m
    null_result 7 m

def fg1_setrawcookie (R : Runtime) (count : Nat) (m : Machine) : Machine :=
  let m := cold m
  let m := set_rv_type KindOfBoolean m
  let s6 := unless_boolean R 6
  let s5 := unless_boolean R 5
  let s4 := unless_string R 4
  let s3 := unless_string R 3
  let s2 := unless_int64 R 2
  let s1 := unless_string R 1
  let m := match count with
    | 1 => m
    | 2 => s1 m
    | 3 => s1 (s2 m)
    | 4 => s1 (s2 (s3 m))
    | 5 => s1 (s2 (s3 (s4 m)))
    | 6 => s1 (s2 (s3 (s4 (s5 m))))
    | _ => s1 (s2 (s3 (s4 (s5 (s6 m)))))
  let m := unless_string R 0 m
  call_bool R .setrawcookie
    [m.data 0,
     if count > 1 then m.data 1 else Arg.null_string,
     if count > 2 then m.long 2 else Arg.long 0,
     if count > 3 then m.data 3 else Arg.null_string,
     if count > 4 then m.data 4 else Arg.null_string,
     if count > 5 then m.bool 5 else Arg.bool false,
     if count > 6 then m.bool 6 else Arg.bool false] m

def fg_setrawcookie (R : Runtime) (ar : ActRec) (rv : TypedValue) : Machine :=
  let m := Machine.enter ar rv
  let count := ar.numArgs
  if count ≥ 1 ∧ count ≤ 7 then
    if (count ≤ 6 ∨ (m.args 6).m_type = KindOfBoolean)
        ∧ (count ≤ 5 ∨ (m.args 5).m_type = KindOfBoolean)
        ∧ (count ≤ 4 ∨ IS_STRING_TYPE (m.args 4).m_type)
        ∧ (count ≤ 3 ∨ IS_STRING_TYPE (m.args 3).m_type)
        ∧ (count ≤ 2 ∨ (m.args 2).m_type = KindOfInt64)
        ∧ (count ≤ 1 ∨ IS_STRING_TYPE (m.args 1).m_type)
        ∧ IS_STRING_TYPE (m.args 0).m_type then
      let m := set_rv_type KindOfBoolean m
      let m := call_bool R .setrawcookie
        [m.data 0,
         if count > 1 then m.data 1 else Arg.null_string,
         if count > 2 then m.long 2 else Arg.long 0,
         if count > 3 then m.data 3 else Arg.null_string,
         if count > 4 then m.data 4 else Arg.null_string,
         if count > 5 then m.bool 5 else Arg.bool false,
         if count > 6 then m.bool 6 else Arg.bool false] m
      finish 7 m
    else
      let m := fg1_setrawcookie R count m
      finish 7 m
  else
    let m := throw_wrong_arguments_nr "setrawcookie" count 1 7 1 m
    null_result 7 m

def fg_define_syslog_variables (R : Runtime) (ar : ActRec) (rv : TypedValue) : Machine :=
  let m := Machine.enter ar rv
  let count := ar.numArgs
  if count = 0 then
    let m := set_rv_num 0 m
    let m := set_rv_type KindOfNull m
    let m := call_void .define_syslog_variables [] m
    finish 0 m
  else
    let m := throw_toomany_arguments_nr "define_syslog_variables" 0 1 m
    null_result 0 m

def fg1_openlog (R : Runtime) (count : Nat) (m : Machine) : Machine :=
  let m := cold m
  let m := set_rv_type KindOfBoolean m
  let m := unless_int64 R 2 m
  let m := unless_int64 R 1 m
  let m := unless_string R 0 m
  call_bool R .openlog [m.data 0, m.int 1, m.int 2] m

def fg_openlog (R : Runtime) (ar : ActRec) (rv : TypedValue) : Machine :=
  let m := Machine.enter ar rv
  let count := ar.numArgs
  if count = 3 then
    if (m.args 2).m_type = KindOfInt64 ∧ (m.args 1).m_type = KindOfInt64
        ∧ IS_STRING_TYPE (m.args 0).m_type then
      let m := set_rv_type KindOfBoolean m
      let m := call_bool R .openlog [m.data 0, m.int 1, m.int 2] m
      finish 3 m
    else
      let m := fg1_openlog R count m
      finish 3 m
  else
    let m := throw_wrong_arguments_nr "openlog" count 3 3 1 m
    null_result 3 m

def fg_closelog (R : Runtime) (ar : ActRec) (rv : TypedValue) : Machine :=
  let m := Machine.enter ar rv
  let count := ar.numArgs
  if count = 0 then
    let m := set_rv_type KindOfBoolean m
    let m := call_bool R .closelog [] m
    finish 0 m
  else
    let m := throw_toomany_arguments_nr "closelog" 0 1 m
    null_result 0 m

def fg1_syslog (R : Runtime) (count : Nat) (m : Machine) : Machine :=
  let m := cold m
  let m := set_rv_type KindOfBoolean m
  let m := unless_string R 1 m
  let m := unless_int64 R 0 m
  call_bool R .syslog [m.int 0, m.data 1] m

def fg_syslog (R : Runtime) (ar : ActRec) (rv : TypedValue) : Machine :=
  let m := Machine.enter ar rv
  let count := ar.numArgs
  if count = 2 then
    if IS_STRING_TYPE (m.args 1).m_type ∧ (m.args 0).m_type = KindOfInt64 then
      let m := set_rv_type KindOfBoolean m
      let m := call_bool R .syslog [m.int 0, m.data 1] m
      finish 2 m
    else
      let m := fg1_syslog R count m
      finish 2 m
  else
    let m := throw_wrong_arguments_nr "syslog" count 2 2 1 m
    null_result 2 m

/-- The entry point bound to each function. -/
def fg : Fn → Runtime → ActRec → TypedValue → Machine
  | .gethostname => fg_gethostname
  | .gethostbyaddr => fg_gethostbyaddr
  | .gethostbyname => fg_gethostbyname
  | .gethostbynamel => fg_gethostbynamel
  | .getprotobyname => fg_getprotobyname
  | .getprotobynumber => fg_getprotobynumber
  | .getservbyname => fg_getservbyname
  | .getservbyport => fg_getservbyport
  | .inet_ntop => fg_inet_ntop
  | .inet_pton => fg_inet_pton
  | .ip2long => fg_ip2long
  | .long2ip => fg_long2ip
  | .dns_check_record => fg_dns_check_record
  | .checkdnsrr => fg_checkdnsrr
  | .dns_get_record => fg_dns_get_record
  | .dns_get_mx => fg_dns_get_mx
  | .getmxrr => fg_getmxrr
  | .socket_get_status => fg_socket_get_status
  | .socket_set_blocking => fg_socket_set_blocking
  | .socket_set_timeout => fg_socket_set_timeout
  | .header => fg_header
  | .http_response_code => fg_http_response_code
  | .headers_list => fg_headers_list
  | .get_http_request_size => fg_get_http_request_size
  | .headers_sent => fg_headers_sent
  | .header_register_callback => fg_header_register_callback
  | .header_remove => fg_header_remove
  | .setcookie => fg_setcookie
  | .setrawcookie => fg_setrawcookie
  | .define_syslog_variables => fg_define_syslog_variables
  | .openlog => fg_openlog
  | .closelog => fg_closelog
  | .syslog => fg_syslog

/-! ## Vocabulary of the claims -/

/-- The declared least argument count of each bound function. -/
def Fn.minArgs : Fn → Nat
  | .gethostname | .headers_list | .get_http_request_size
  | .define_syslog_variables | .closelog => 0
  | .http_response_code | .header_remove => 0
  | .headers_sent => 0
  | .gethostbyaddr | .gethostbyname | .gethostbynamel | .getprotobyname
  | .getprotobynumber | .inet_ntop | .inet_pton | .ip2long | .long2ip
  | .socket_get_status | .header_register_callback => 1
  | .dns_check_record | .checkdnsrr => 1
  | .header => 1
  | .dns_get_record => 1
  | .setcookie | .setrawcookie => 1
  | .getservbyname | .getservbyport | .socket_set_blocking | .syslog => 2
  | .dns_get_mx | .getmxrr | .socket_set_timeout => 2
  | .openlog => 3

/-- The declared greatest argument count of each bound function. -/
def Fn.maxArgs : Fn → Nat
  | .gethostname | .headers_list | .get_http_request_size
  | .define_syslog_variables | .closelog => 0
  | .http_response_code | .header_remove => 1
  | .headers_sent => 2
  | .gethostbyaddr | .gethostbyname | .gethostbynamel | .getprotobyname
  | .getprotobynumber | .inet_ntop | .inet_pton | .ip2long | .long2ip
  | .socket_get_status | .header_register_callback => 1
  | .dns_check_record | .checkdnsrr => 2
  | .header => 3
  | .dns_get_record => 4
  | .setcookie | .setrawcookie => 7
  | .getservbyname | .getservbyport | .socket_set_blocking | .syslog => 2
  | .dns_get_mx | .getmxrr | .socket_set_timeout => 3
  | .openlog => 3

/-- The argument count lies in the declared range of the function. -/
def Fn.inRange (f : Fn) (count : Nat) : Prop :=
  f.minArgs ≤ count ∧ count ≤ f.maxArgs

instance (f : Fn) (count : Nat) : Decidable (f.inRange count) :=
  inferInstanceAs (Decidable (_ ∧ _))

/-- The event is an arity signal. -/
def Event.isArity : Event → Bool
  | .toomany _ _ _ => true
  | .wrong _ _ _ _ _ => true
  | _ => false

/-- The event is a call of a native function. -/
def Event.isCall : Event → Bool
  | .call _ _ => true
  | _ => false

/-- The event is an in-place cast of an argument slot. -/
def Event.isCast : Event → Bool
  | .cast _ _ => true
  | _ => false

/-- The null tagged value: tag `KindOfNull`, payload 0. -/
def null_tv : TypedValue := ⟨0, KindOfNull⟩

/-- The contents of a slot once the glue has coerced it for a parameter of the
given kind: untouched when the tag already matches, cast otherwise. -/
def coerce (R : Runtime) : CastKind → TypedValue → TypedValue
  | .String, v => if IS_STRING_TYPE v.m_type then v else R.castString v
  | .Int64, v => if v.m_type = KindOfInt64 then v else R.castInt64 v
  | .Boolean, v => if v.m_type = KindOfBoolean then v else R.castBoolean v
  | .Object, v => if v.m_type = KindOfObject then v else R.castObject v

/-- The arity signal of each function: `throw_toomany_arguments_nr` with the
greatest count for the functions whose least count is 0,
`throw_wrong_arguments_nr` with the supplied count and both bounds for the
others; the level is 1 throughout. -/
def arityEvent (f : Fn) (count : Nat) : Event :=
  if f.minArgs = 0 then Event.toomany f.name f.maxArgs 1
  else Event.wrong f.name count f.minArgs f.maxArgs 1

/-- The native calls of a trace, in order. -/
def calls (t : List Event) : List Event := t.filter Event.isCall

/-! ## The signature table and the closed form of a run

The comment ahead of each `fh_X` gives the native signature; the default of an
optional parameter is the alternative of its `(count > i) ? ... : ...` in the
call.  `glue` is the final state of an entry point written out from that
table; `fg_eq_glue` below proves that every `fg_X` computes it. -/

/-- The native parameter types of the signatures. -/
inductive ParamTy
  | String | int | long | bool | Object | VRefParamValue | Variant
  deriving DecidableEq

/-- The in-place cast the glue uses for a parameter type, if any. -/
def ParamTy.castKind : ParamTy → Option CastKind
  | .String => some .String
  | .int => some .Int64
  | .long => some .Int64
  | .bool => some .Boolean
  | .Object => some .Object
  | .VRefParamValue => none
  | .Variant => none

/-- The tags a cast kind leaves alone: the test of the glue ahead of the
cast. -/
def CastKind.accepts : CastKind → DataType → Bool
  | .String, t => IS_STRING_TYPE t
  | .Int64, t => t = KindOfInt64
  | .Boolean, t => t = KindOfBoolean
  | .Object, t => t = KindOfObject

/-- A native parameter: its type and, when it is optional, the actual passed
for it when the argument is omitted. -/
structure Param where
  ty : ParamTy
  dflt : Option Arg

/-- A required parameter. -/
def req (ty : ParamTy) : Param := ⟨ty, none⟩

/-- An optional parameter with its default. -/
def opt (ty : ParamTy) (d : Arg) : Param := ⟨ty, some d⟩

/-- The parameters of `f_setcookie` and `f_setrawcookie`. -/
def cookieParams : List Param :=
  [req .String, opt .String .null_string, opt .long (.long 0), opt .String .null_string,
   opt .String .null_string, opt .bool (.bool false), opt .bool (.bool false)]

/-- The parameters of each native function. -/
def Fn.params : Fn → List Param
  | .gethostname => []
  | .gethostbyaddr => [req .String]
  | .gethostbyname => [req .String]
  | .gethostbynamel => [req .String]
  | .getprotobyname => [req .String]
  | .getprotobynumber => [req .int]
  | .getservbyname => [req .String, req .String]
  | .getservbyport => [req .int, req .String]
  | .inet_ntop => [req .String]
  | .inet_pton => [req .String]
  | .ip2long => [req .String]
  | .long2ip => [req .int]
  | .dns_check_record => [req .String, opt .String .null_string]
  | .checkdnsrr => [req .String, opt .String .null_string]
  | .dns_get_record => [req .String, opt .int (.int (-1)), opt .VRefParamValue (defVal 2),
      opt .VRefParamValue (defVal 3)]
  | .dns_get_mx => [req .String, req .VRefParamValue, opt .VRefParamValue (defVal 2)]
  | .getmxrr => [req .String, req .VRefParamValue, opt .VRefParamValue (defVal 2)]
  | .socket_get_status => [req .Object]
  | .socket_set_blocking => [req .Object, req .int]
  | .socket_set_timeout => [req .Object, req .int, opt .int (.int 0)]
  | .header => [req .String, opt .bool (.bool true), opt .int (.int 0)]
  | .http_response_code => [opt .int (.int 0)]
  | .headers_list => []
  | .get_http_request_size => []
  | .headers_sent => [opt .VRefParamValue (defVal 0), opt .VRefParamValue (defVal 1)]
  | .header_register_callback => [req .Variant]
  | .header_remove => [opt .String .null_string]
  | .setcookie => cookieParams
  | .setrawcookie => cookieParams
  | .define_syslog_variables => []
  | .openlog => [req .String, req .int, req .int]
  | .closelog => []
  | .syslog => [req .int, req .String]

/-- The native return types of the signatures. -/
inductive RetTy
  | Variant | String | Array | bool | int | void
  deriving DecidableEq

/-- The return type of each native function. -/
def Fn.ret : Fn → RetTy
  | .gethostname | .gethostbyaddr | .gethostbynamel | .getprotobyname | .getprotobynumber
  | .getservbyname | .getservbyport | .inet_ntop | .inet_pton | .ip2long | .dns_get_record
  | .socket_get_status | .http_response_code => .Variant
  | .gethostbyname | .long2ip => .String
  | .headers_list => .Array
  | .dns_check_record | .checkdnsrr | .dns_get_mx | .getmxrr | .socket_set_blocking
  | .socket_set_timeout | .headers_sent | .header_register_callback | .setcookie
  | .setrawcookie | .openlog | .closelog | .syslog => .bool
  | .get_http_request_size => .int
  | .header | .header_remove | .define_syslog_variables => .void

/-- The actual made from slot i, holding v, for a parameter of the type. -/
def ParamTy.actual (ty : ParamTy) (i : Nat) (v : TypedValue) : Arg :=
  match ty with
  | .String => Arg.data i v
  | .Object => Arg.data i v
  | .int => Arg.int (toInt32 v.m_data)
  | .long => Arg.long v.m_data
  | .bool => Arg.bool (toBool v.m_data)
  | .VRefParamValue => Arg.slot i v
  | .Variant => Arg.slot i v

/-- The glue touches the slot of parameter i in a call with count arguments:
the parameter is required, or the argument is supplied. -/
def Param.present (p : Param) (i count : Nat) : Bool :=
  p.dflt.isNone || decide (count > i)

/-- The argument slots after the coercions, for the parameters from position
i on. -/
def coerceFrom (R : Runtime) (count : Nat) :
    Nat → List Param → (Nat → TypedValue) → (Nat → TypedValue)
  | _, [], a => a
  | i, p :: ps, a =>
    let a := coerceFrom R count (i + 1) ps a
    match p.ty.castKind with
    | some k => if p.present i count then Function.update a i (coerce R k (a i)) else a
    | none => a

/-- The casts of a run, in order, for the parameters from position i on: last
parameter first. -/
def castsFrom (count : Nat) (a : Nat → TypedValue) : Nat → List Param → List Event
  | _, [] => []
  | i, p :: ps =>
    castsFrom count a (i + 1) ps ++
    match p.ty.castKind with
    | some k =>
      if p.present i count then
        if k.accepts (a i).m_type then [] else [Event.cast k i]
      else []
    | none => []

/-- The actuals of the native call, for the parameters from position i on. -/
def actualsFrom (count : Nat) (a : Nat → TypedValue) : Nat → List Param → List Arg
  | _, [] => []
  | i, p :: ps =>
    (match p.dflt with
     | none => p.ty.actual i (a i)
     | some d => if count > i then p.ty.actual i (a i) else d)
      :: actualsFrom count a (i + 1) ps

/-- The tagged value the glue makes of the native result. -/
def wrap (R : Runtime) (f : Fn) (actuals : List Arg) : RetTy → TypedValue
  | .Variant =>
    if (R.fh_variant f actuals).m_type = KindOfUninit
    then ⟨(R.fh_variant f actuals).m_data, KindOfNull⟩ else R.fh_variant f actuals
  | .String =>
    if R.fh_value f actuals = 0 then ⟨R.fh_value f actuals, KindOfNull⟩
    else ⟨R.fh_value f actuals, KindOfString⟩
  | .Array =>
    if R.fh_value f actuals = 0 then ⟨R.fh_value f actuals, KindOfNull⟩
    else ⟨R.fh_value f actuals, KindOfArray⟩
  | .bool => ⟨if R.fh_bool f actuals then 1 else 0, KindOfBoolean⟩
  | .int => ⟨toInt32 (R.fh_int f actuals), KindOfInt64⟩
  | .void => ⟨0, KindOfNull⟩

/-- The actuals of the native call of a run with an in-range count. -/
def Fn.actuals (f : Fn) (R : Runtime) (ar : ActRec) : List Arg :=
  actualsFrom ar.numArgs (coerceFrom R ar.numArgs 0 f.params ar.args) 0 f.params

/-- The value a run with an in-range count stores into the return slot. -/
def Fn.result (f : Fn) (R : Runtime) (ar : ActRec) : TypedValue :=
  wrap R f (f.actuals R ar) f.ret

/-- The casts of a run with an in-range count. -/
def Fn.casts (f : Fn) (ar : ActRec) : List Event :=
  castsFrom ar.numArgs ar.args 0 f.params

/-- The final state of `fg_X` in closed form. -/
def glue (f : Fn) (R : Runtime) (ar : ActRec) : Machine :=
  if f.inRange ar.numArgs then
    ⟨coerceFrom R ar.numArgs 0 f.params ar.args, f.result R ar, f.result R ar,
      f.casts ar ++ [Event.call f (f.actuals R ar), Event.free_locals f.maxArgs,
        Event.store (f.result R ar)],
      some Ptr.m_r, !(f.casts ar).isEmpty⟩
  else
    ⟨ar.args, null_tv, null_tv,
      [arityEvent f ar.numArgs, Event.free_locals f.maxArgs, Event.store null_tv],
      some Ptr.m_r, false⟩

/-- The event is the signal `throw_toomany_arguments_nr`. -/
def Event.isTooMany : Event → Bool
  | .toomany _ _ _ => true
  | _ => false

/-- The bound functions whose native return type is `Variant`. -/
def variantFns : List Fn :=
  [.gethostname, .gethostbyaddr, .gethostbynamel, .getprotobyname, .getprotobynumber,
   .getservbyname, .getservbyport, .inet_ntop, .inet_pton, .ip2long, .dns_get_record,
   .socket_get_status, .http_response_code]

/-- The actual `setcookie` and `setrawcookie` make of the supplied argument at
each position, once coerced: name, value, expire, path, domain, secure,
httponly. -/
def cookieSupplied (R : Runtime) (a : Nat → TypedValue) : Nat → Arg
  | 0 => Arg.data 0 (coerce R .String (a 0))
  | 1 => Arg.data 1 (coerce R .String (a 1))
  | 2 => Arg.long (coerce R .Int64 (a 2)).m_data
  | 3 => Arg.data 3 (coerce R .String (a 3))
  | 4 => Arg.data 4 (coerce R .String (a 4))
  | 5 => Arg.bool (toBool (coerce R .Boolean (a 5)).m_data)
  | _ => Arg.bool (toBool (coerce R .Boolean (a 6)).m_data)

/-- The default of each optional parameter of `setcookie` and `setrawcookie`:
value, path and domain the null string, expire 0, secure and httponly
false. -/
def cookieDefault : Nat → Arg
  | 1 => Arg.null_string
  | 2 => Arg.long 0
  | 3 => Arg.null_string
  | 4 => Arg.null_string
  | _ => Arg.bool false

/-- The bound functions whose native return type is `bool`. -/
def boolFns : List Fn :=
  [.dns_check_record, .checkdnsrr, .dns_get_mx, .getmxrr, .socket_set_blocking,
   .socket_set_timeout, .headers_sent, .header_register_callback, .setcookie,
   .setrawcookie, .openlog, .closelog, .syslog]

/-- The bound functions whose native return type is `void`. -/
def voidFns : List Fn := [.header, .header_remove, .define_syslog_variables]

/-- The bound functions whose least argument count is 0. -/
def minZeroFns : List Fn :=
  [.gethostname, .http_response_code, .headers_list, .get_http_request_size,
   .headers_sent, .header_remove, .define_syslog_variables, .closelog]

/-- The tag the glue gives a non-null result of a function returning `String`
or `Array` through `Value* _rv`. -/
def valueTag : Fn → Option DataType
  | .gethostbyname => some KindOfString
  | .long2ip => some KindOfString
  | .headers_list => some KindOfArray
  | _ => none

/-- The arity signals of a trace, in order. -/
def signals (t : List Event) : List Event := t.filter Event.isArity

/-- The casts of a trace, in order. -/
def castsOf (t : List Event) : List Event := t.filter Event.isCast

/-- The event is a release of the locals. -/
def Event.isFree : Event → Bool
  | .free_locals _ => true
  | _ => false

/-- The event is a store into the return slot. -/
def Event.isStore : Event → Bool
  | .store _ => true
  | _ => false

/-- The cast kind of parameter i of a function, when the parameter is a
`String`, `int`, `long`, `bool` or `Object`. -/
def Fn.typedAt (f : Fn) (i : Nat) : Option CastKind :=
  (f.params[i]?).bind (fun p => p.ty.castKind)

/-- The in-place cast of each kind, as a function on the contents of a slot. -/
def Runtime.cast (R : Runtime) : CastKind → TypedValue → TypedValue
  | .String => R.castString
  | .Int64 => R.castInt64
  | .Boolean => R.castBoolean
  | .Object => R.castObject

/-- Every in-place cast is the identity on a slot that already has its target
tag. -/
def Runtime.castsFixTarget (R : Runtime) : Prop :=
  ∀ (k : CastKind) (v : TypedValue), k.accepts v.m_type = true → R.cast k v = v

/-- The cold helper of each function that has one. -/
def fg1 : Fn → Option (Runtime → Nat → Machine → Machine)
  | .gethostname => none
  | .gethostbyaddr => some fg1_gethostbyaddr
  | .gethostbyname => some fg1_gethostbyname
  | .gethostbynamel => some fg1_gethostbynamel
  | .getprotobyname => some fg1_getprotobyname
  | .getprotobynumber => some fg1_getprotobynumber
  | .getservbyname => some fg1_getservbyname
  | .getservbyport => some fg1_getservbyport
  | .inet_ntop => some fg1_inet_ntop
  | .inet_pton => some fg1_inet_pton
  | .ip2long => some fg1_ip2long
  | .long2ip => some fg1_long2ip
  | .dns_check_record => some fg1_dns_check_record
  | .checkdnsrr => some fg1_checkdnsrr
  | .dns_get_record => some fg1_dns_get_record
  | .dns_get_mx => some fg1_dns_get_mx
  | .getmxrr => some fg1_getmxrr
  | .socket_get_status => some fg1_socket_get_status
  | .socket_set_blocking => some fg1_socket_set_blocking
  | .socket_set_timeout => some fg1_socket_set_timeout
  | .header => some fg1_header
  | .http_response_code => some fg1_http_response_code
  | .headers_list => none
  | .get_http_request_size => none
  | .headers_sent => none
  | .header_register_callback => none
  | .header_remove => some fg1_header_remove
  | .setcookie => some fg1_setcookie
  | .setrawcookie => some fg1_setrawcookie
  | .define_syslog_variables => none
  | .openlog => some fg1_openlog
  | .closelog => none
  | .syslog => some fg1_syslog

/-- The slot a cast event is applied to. -/
def Event.castIndex : Event → Nat
  | .cast _ i => i
  | _ => 0

/-- The slot of the caller an actual points to, if any. -/
def Arg.slotIndex : Arg → Option Nat
  | .data i _ => some i
  | .slot i _ => some i
  | _ => none

/-- The parameters declared `int`, as function and position: number, port,
proper_address, type, mode, seconds, microseconds, http_response_code,
response_code, option, facility, priority. -/
def intParams : List (Fn × Nat) :=
  [(.getprotobynumber, 0), (.getservbyport, 0), (.long2ip, 0), (.dns_get_record, 1),
   (.socket_set_blocking, 1), (.socket_set_timeout, 1), (.socket_set_timeout, 2),
   (.header, 2), (.http_response_code, 0), (.openlog, 1), (.openlog, 2), (.syslog, 0)]

/-- The parameters declared `long`: expire of `setcookie` and `setrawcookie`. -/
def longParams : List (Fn × Nat) := [(.setcookie, 2), (.setrawcookie, 2)]

/-- The by-reference and `Variant` parameters, as function and position: file
and line, callback, mxhosts and weights (twice), authns and addtl. -/
def refParams : List (Fn × Nat) :=
  [(.headers_sent, 0), (.headers_sent, 1), (.header_register_callback, 0),
   (.dns_get_mx, 1), (.dns_get_mx, 2), (.getmxrr, 1), (.getmxrr, 2),
   (.dns_get_record, 2), (.dns_get_record, 3)]

/-- The alias pairs: each function with the function it duplicates. -/
def aliasPairs : List (Fn × Fn) :=
  [(.checkdnsrr, .dns_check_record), (.getmxrr, .dns_get_mx), (.setrawcookie, .setcookie)]

/-- An event of a run of f read as an event of a run of g: the native call and
the name in the arity signal are those of g, everything else is kept. -/
def Event.rename (f g : Fn) : Event → Event
  | .call f' actuals => .call (if f' = f then g else f') actuals
  | .toomany fn num level => .toomany (if fn = f.name then g.name else fn) num level
  | .wrong fn count cmin cmax level =>
    .wrong (if fn = f.name then g.name else fn) count cmin cmax level
  | e => e

/-- The reading of the spec of a narrowed integer: the payload reduced modulo 2^32
and read as a signed 32-bit integer. The source narrows with `(int)`, which is
`toInt32`. -/
def low32signed (x : Int) : Int :=
  if x % 2 ^ 32 < 2 ^ 31 then x % 2 ^ 32 else x % 2 ^ 32 - 2 ^ 32

/-! ## The accesses to the argument slots

The entry points once more, statement by statement as above, with every access
to an argument slot recorded in program order: the tag tests of the conditions
(the operators `&&` and `||` evaluate their right operand only when the left one
does not decide), the in-place casts, the payloads read and the pointers handed
to the native function. -/

/-- An access of the glue to an argument slot of the caller. -/
inductive Access
  /-- The tag of slot i is read: `(args-i)->m_type`. -/
  | tag (i : Nat)
  /-- Slot i is cast in place: `tvCastTo<k>InPlace(args-i)`. -/
  | cast (i : Nat)
  /-- The payload of slot i is read: `args[-i].m_data.num`. -/
  | payload (i : Nat)
  /-- A pointer into slot i is handed to the native function: `&args[-i].m_data`
  or `(args-i)`. -/
  | pass (i : Nat)
  deriving DecidableEq

/-- The slot an access goes to. -/
def Access.index : Access → Nat
  | .tag i => i
  | .cast i => i
  | .payload i => i
  | .pass i => i

/-- The outcome of a condition of the glue, with the accesses made to evaluate
it, in order. -/
structure Test where
  holds : Bool
  reads : List Access

/-- The condition `count <= n`: no slot is accessed. -/
def count_le (count n : Nat) : Test := ⟨decide (count ≤ n), []⟩

/-- The condition `a || b`: b is evaluated only when a does not hold. -/
def Test.or_else (a b : Test) : Test :=
  if a.holds then a else ⟨b.holds, a.reads ++ b.reads⟩

/-- The condition `a && b`: b is evaluated only when a holds. -/
def Test.and_then (a b : Test) : Test :=
  if a.holds then ⟨b.holds, a.reads ++ b.reads⟩ else a

/-- An actual argument with the accesses made to build it. -/
structure Actual where
  arg : Arg
  reads : List Access

/-- A constant actual, such as a default: no slot is accessed. -/
def quiet (a : Arg) : Actual := ⟨a, []⟩

/-- A run of the glue with the accesses to the argument slots it has made so
far, oldest first. -/
structure Logged where
  m : Machine
  log : List Access

namespace Logged

/-- The state on entry of `fg_X`: nothing has been accessed. -/
def enter (ar : ActRec) (rv : TypedValue) : Logged := ⟨Machine.enter ar rv, []⟩

/-- A statement that accesses no argument slot. -/
def step (g : Machine → Machine) (p : Logged) : Logged := ⟨g p.m, p.log⟩

/-- The accesses of a condition that has been evaluated. -/
def note (l : List Access) (p : Logged) : Logged := ⟨p.m, p.log ++ l⟩

/-- The condition `IS_STRING_TYPE((args-i)->m_type)`. -/
def is_string (p : Logged) (i : Nat) : Test :=
  ⟨IS_STRING_TYPE (p.m.args i).m_type, [Access.tag i]⟩

/-- The condition `(args-i)->m_type == t`. -/
def is_kind (p : Logged) (i : Nat) (t : DataType) : Test :=
  ⟨decide ((p.m.args i).m_type = t), [Access.tag i]⟩

/-- The actual `&args[-i].m_data`. -/
def data (p : Logged) (i : Nat) : Actual := ⟨p.m.data i, [Access.pass i]⟩

/-- The actual `(args-i)`. -/
def slot (p : Logged) (i : Nat) : Actual := ⟨p.m.slot i, [Access.pass i]⟩

/-- The actual `(int)(args[-i].m_data.num)`. -/
def int (p : Logged) (i : Nat) : Actual := ⟨p.m.int i, [Access.payload i]⟩

/-- The actual `(long)(args[-i].m_data.num)`. -/
def long (p : Logged) (i : Nat) : Actual := ⟨p.m.long i, [Access.payload i]⟩

/-- The actual `(bool)(args[-i].m_data.num)`. -/
def bool (p : Logged) (i : Nat) : Actual := ⟨p.m.bool i, [Access.payload i]⟩

/-- A native call: the actuals are built, in the order of the parameters, and
handed over. -/
def call (c : List Arg → Machine → Machine) (actuals : List Actual) (p : Logged) : Logged :=
  ⟨c (actuals.map Actual.arg) p.m, p.log ++ (actuals.map Actual.reads).foldr (· ++ ·) []⟩

def tvCastToStringInPlace (R : Runtime) (i : Nat) (p : Logged) : Logged :=
  ⟨HPHP.tvCastToStringInPlace R i p.m, p.log ++ [Access.cast i]⟩

def tvCastToInt64InPlace (R : Runtime) (i : Nat) (p : Logged) : Logged :=
  ⟨HPHP.tvCastToInt64InPlace R i p.m, p.log ++ [Access.cast i]⟩

def tvCastToBooleanInPlace (R : Runtime) (i : Nat) (p : Logged) : Logged :=
  ⟨HPHP.tvCastToBooleanInPlace R i p.m, p.log ++ [Access.cast i]⟩

def tvCastToObjectInPlace (R : Runtime) (i : Nat) (p : Logged) : Logged :=
  ⟨HPHP.tvCastToObjectInPlace R i p.m, p.log ++ [Access.cast i]⟩

/-- The statement
`if (!IS_STRING_TYPE((args-i)->m_type)) { tvCastToStringInPlace(args-i); }`. -/
def unless_string (R : Runtime) (i : Nat) (p : Logged) : Logged :=
  let p := p.note [Access.tag i]
  if ¬ IS_STRING_TYPE (p.m.args i).m_type then tvCastToStringInPlace R i p else p

/-- The statement
`if ((args-i)->m_type != KindOfInt64) { tvCastToInt64InPlace(args-i); }`. -/
def unless_int64 (R : Runtime) (i : Nat) (p : Logged) : Logged :=
  let p := p.note [Access.tag i]
  if (p.m.args i).m_type ≠ KindOfInt64 then tvCastToInt64InPlace R i p else p

/-- The statement
`if ((args-i)->m_type != KindOfBoolean) { tvCastToBooleanInPlace(args-i); }`. -/
def unless_boolean (R : Runtime) (i : Nat) (p : Logged) : Logged :=
  let p := p.note [Access.tag i]
  if (p.m.args i).m_type ≠ KindOfBoolean then tvCastToBooleanInPlace R i p else p

/-- The statement
`if ((args-i)->m_type != KindOfObject) { tvCastToObjectInPlace(args-i); }`. -/
def unless_object (R : Runtime) (i : Nat) (p : Logged) : Logged :=
  let p := p.note [Access.tag i]
  if (p.m.args i).m_type ≠ KindOfObject then tvCastToObjectInPlace R i p else p

def fg_gethostname (R : Runtime) (ar : ActRec) (rv : TypedValue) : Logged :=
  let p := enter ar rv
  let count := ar.numArgs
  if count = 0 then
    let p := p.call (call_variant R .gethostname) []
    let p := p.step rv_uninit_to_null
    p.step (finish 0)
  else
    let p := p.step (throw_toomany_arguments_nr "gethostname" 0 1)
    p.step (null_result 0)

def fg1_gethostbyaddr (R : Runtime) (count : Nat) (p : Logged) : Logged :=
  let p := p.step cold
  let p := tvCastToStringInPlace R 0 p
  let p := p.call (call_variant R .gethostbyaddr) [p.data 0]
  p.step rv_uninit_to_null

def fg_gethostbyaddr (R : Runtime) (ar : ActRec) (rv : TypedValue) : Logged :=
  let p := enter ar rv
  let count := ar.numArgs
  if count = 1 then
    let t := p.is_string 0
    let p := p.note t.reads
    if t.holds then
      let p := p.call (call_variant R .gethostbyaddr) [p.data 0]
      let p := p.step rv_uninit_to_null
      p.step (finish 1)
    else
      let p := fg1_gethostbyaddr R count p
      p.step (finish 1)
  else
    let p := p.step (throw_wrong_arguments_nr "gethostbyaddr" count 1 1 1)
    p.step (null_result 1)

def fg1_gethostbyname (R : Runtime) (count : Nat) (p : Logged) : Logged :=
  let p := p.step cold
  let p := p.step (set_rv_type KindOfString)
  let p := tvCastToStringInPlace R 0 p
  let p := p.call (call_value R .gethostbyname) [p.data 0]
  p.step rv_zero_to_null

def fg_gethostbyname (R : Runtime) (ar : ActRec) (rv : TypedValue) : Logged :=
  let p := enter ar rv
  let count := ar.numArgs
  if count = 1 then
    let t := p.is_string 0
    let p := p.note t.reads
    if t.holds then
      let p := p.step (set_rv_type KindOfString)
      let p := p.call (call_value R .gethostbyname) [p.data 0]
      let p := p.step rv_zero_to_null
      p.step (finish 1)
    else
      let p := fg1_gethostbyname R count p
      p.step (finish 1)
  else
    let p := p.step (throw_wrong_arguments_nr "gethostbyname" count 1 1 1)
    p.step (null_result 1)

def fg1_gethostbynamel (R : Runtime) (count : Nat) (p : Logged) : Logged :=
  let p := p.step cold
  let p := tvCastToStringInPlace R 0 p
  let p := p.call (call_variant R .gethostbynamel) [p.data 0]
  p.step rv_uninit_to_null

def fg_gethostbynamel (R : Runtime) (ar : ActRec) (rv : TypedValue) : Logged :=
  let p := enter ar rv
  let count := ar.numArgs
  if count = 1 then
    let t := p.is_string 0
    let p := p.note t.reads
    if t.holds then
      let p := p.call (call_variant R .gethostbynamel) [p.data 0]
      let p := p.step rv_uninit_to_null
      p.step (finish 1)
    else
      let p := fg1_gethostbynamel R count p
      p.step (finish 1)
  else
    let p := p.step (throw_wrong_arguments_nr "gethostbynamel" count 1 1 1)
    p.step (null_result 1)

def fg1_getprotobyname (R : Runtime) (count : Nat) (p : Logged) : Logged :=
  let p := p.step cold
  let p := tvCastToStringInPlace R 0 p
  let p := p.call (call_variant R .getprotobyname) [p.data 0]
  p.step rv_uninit_to_null

def fg_getprotobyname (R : Runtime) (ar : ActRec) (rv : TypedValue) : Logged :=
  let p := enter ar rv
  let count := ar.numArgs
  if count = 1 then
    let t := p.is_string 0
    let p := p.note t.reads
    if t.holds then
      let p := p.call (call_variant R .getprotobyname) [p.data 0]
      let p := p.step rv_uninit_to_null
      p.step (finish 1)
    else
      let p := fg1_getprotobyname R count p
      p.step (finish 1)
  else
    let p := p.step (throw_wrong_arguments_nr "getprotobyname" count 1 1 1)
    p.step (null_result 1)

def fg1_getprotobynumber (R : Runtime) (count : Nat) (p : Logged) : Logged :=
  let p := p.step cold
  let p := tvCastToInt64InPlace R 0 p
  let p := p.call (call_variant R .getprotobynumber) [p.int 0]
  p.step rv_uninit_to_null

def fg_getprotobynumber (R : Runtime) (ar : ActRec) (rv : TypedValue) : Logged :=
  let p := enter ar rv
  let count := ar.numArgs
  if count = 1 then
    let t := p.is_kind 0 KindOfInt64
    let p := p.note t.reads
    if t.holds then
      let p := p.call (call_variant R .getprotobynumber) [p.int 0]
      let p := p.step rv_uninit_to_null
      p.step (finish 1)
    else
      let p := fg1_getprotobynumber R count p
      p.step (finish 1)
  else
    let p := p.step (throw_wrong_arguments_nr "getprotobynumber" count 1 1 1)
    p.step (null_result 1)

def fg1_getservbyname (R : Runtime) (count : Nat) (p : Logged) : Logged :=
  let p := p.step cold
  let p := unless_string R 1 p
  let p := unless_string R 0 p
  let p := p.call (call_variant R .getservbyname) [p.data 0, p.data 1]
  p.step rv_uninit_to_null

def fg_getservbyname (R : Runtime) (ar : ActRec) (rv : TypedValue) : Logged :=
  let p := enter ar rv
  let count := ar.numArgs
  if count = 2 then
    let t := p.is_string 1
      |>.and_then (p.is_string 0)
    let p := p.note t.reads
    if t.holds then
      let p := p.call (call_variant R .getservbyname) [p.data 0, p.data 1]
      let p := p.step rv_uninit_to_null
      p.step (finish 2)
    else
      let p := fg1_getservbyname R count p
      p.step (finish 2)
  else
    let p := p.step (throw_wrong_arguments_nr "getservbyname" count 2 2 1)
    p.step (null_result 2)

def fg1_getservbyport (R : Runtime) (count : Nat) (p : Logged) : Logged :=
  let p := p.step cold
  let p := unless_string R 1 p
  let p := unless_int64 R 0 p
  let p := p.call (call_variant R .getservbyport) [p.int 0, p.data 1]
  p.step rv_uninit_to_null

def fg_getservbyport (R : Runtime) (ar : ActRec) (rv : TypedValue) : Logged :=
  let p := enter ar rv
  let count := ar.numArgs
  if count = 2 then
    let t := p.is_string 1
      |>.and_then (p.is_kind 0 KindOfInt64)
    let p := p.note t.reads
    if t.holds then
      let p := p.call (call_variant R .getservbyport) [p.int 0, p.data 1]
      let p := p.step rv_uninit_to_null
      p.step (finish 2)
    else
      let p := fg1_getservbyport R count p
      p.step (finish 2)
  else
    let p := p.step (throw_wrong_arguments_nr "getservbyport" count 2 2 1)
    p.step (null_result 2)

def fg1_inet_ntop (R : Runtime) (count : Nat) (p : Logged) : Logged :=
  let p := p.step cold
  let p := tvCastToStringInPlace R 0 p
  let p := p.call (call_variant R .inet_ntop) [p.data 0]
  p.step rv_uninit_to_null

def fg_inet_ntop (R : Runtime) (ar : ActRec) (rv : TypedValue) : Logged :=
  let p := enter ar rv
  let count := ar.numArgs
  if count = 1 then
    let t := p.is_string 0
    let p := p.note t.reads
    if t.holds then
      let p := p.call (call_variant R .inet_ntop) [p.data 0]
      let p := p.step rv_uninit_to_null
      p.step (finish 1)
    else
      let p := fg1_inet_ntop R count p
      p.step (finish 1)
  else
    let p := p.step (throw_wrong_arguments_nr "inet_ntop" count 1 1 1)
    p.step (null_result 1)

def fg1_inet_pton (R : Runtime) (count : Nat) (p : Logged) : Logged :=
  let p := p.step cold
  let p := tvCastToStringInPlace R 0 p
  let p := p.call (call_variant R .inet_pton) [p.data 0]
  p.step rv_uninit_to_null

def fg_inet_pton (R : Runtime) (ar : ActRec) (rv : TypedValue) : Logged :=
  let p := enter ar rv
  let count := ar.numArgs
  if count = 1 then
    let t := p.is_string 0
    let p := p.note t.reads
    if t.holds then
      let p := p.call (call_variant R .inet_pton) [p.data 0]
      let p := p.step rv_uninit_to_null
      p.step (finish 1)
    else
      let p := fg1_inet_pton R count p
      p.step (finish 1)
  else
    let p := p.step (throw_wrong_arguments_nr "inet_pton" count 1 1 1)
    p.step (null_result 1)

def fg1_ip2long (R : Runtime) (count : Nat) (p : Logged) : Logged :=
  let p := p.step cold
  let p := tvCastToStringInPlace R 0 p
  let p := p.call (call_variant R .ip2long) [p.data 0]
  p.step rv_uninit_to_null

def fg_ip2long (R : Runtime) (ar : ActRec) (rv : TypedValue) : Logged :=
  let p := enter ar rv
  let count := ar.numArgs
  if count = 1 then
    let t := p.is_string 0
    let p := p.note t.reads
    if t.holds then
      let p := p.call (call_variant R .ip2long) [p.data 0]
      let p := p.step rv_uninit_to_null
      p.step (finish 1)
    else
      let p := fg1_ip2long R count p
      p.step (finish 1)
  else
    let p := p.step (throw_wrong_arguments_nr "ip2long" count 1 1 1)
    p.step (null_result 1)

def fg1_long2ip (R : Runtime) (count : Nat) (p : Logged) : Logged :=
  let p := p.step cold
  let p := p.step (set_rv_type KindOfString)
  let p := tvCastToInt64InPlace R 0 p
  let p := p.call (call_value R .long2ip) [p.int 0]
  p.step rv_zero_to_null

def fg_long2ip (R : Runtime) (ar : ActRec) (rv : TypedValue) : Logged :=
  let p := enter ar rv
  let count := ar.numArgs
  if count = 1 then
    let t := p.is_kind 0 KindOfInt64
    let p := p.note t.reads
    if t.holds then
      let p := p.step (set_rv_type KindOfString)
      let p := p.call (call_value R .long2ip) [p.int 0]
      let p := p.step rv_zero_to_null
      p.step (finish 1)
    else
      let p := fg1_long2ip R count p
      p.step (finish 1)
  else
    let p := p.step (throw_wrong_arguments_nr "long2ip" count 1 1 1)
    p.step (null_result 1)

def fg1_dns_check_record (R : Runtime) (count : Nat) (p : Logged) : Logged :=
  let p := p.step cold
  let p := p.step (set_rv_type KindOfBoolean)
  let s1 := unless_string R 1
  let p := match count with
    | 1 => p
    | _ => s1 p
  let p := unless_string R 0 p
  p.call (call_bool R .dns_check_record)
    [p.data 0, if count > 1 then p.data 1 else quiet Arg.null_string]

def fg_dns_check_record (R : Runtime) (ar : ActRec) (rv : TypedValue) : Logged :=
  let p := enter ar rv
  let count := ar.numArgs
  if count ≥ 1 ∧ count ≤ 2 then
    let t := (count_le count 1).or_else (p.is_string 1)
      |>.and_then (p.is_string 0)
    let p := p.note t.reads
    if t.holds then
      let p := p.step (set_rv_type KindOfBoolean)
      let p := p.call (call_bool R .dns_check_record)
        [p.data 0, if count > 1 then p.data 1 else quiet Arg.null_string]
      p.step (finish 2)
    else
      let p := fg1_dns_check_record R count p
      p.step (finish 2)
  else
    let p := p.step (throw_wrong_arguments_nr "dns_check_record" count 1 2 1)
    p.step (null_result 2)

def fg1_checkdnsrr (R : Runtime) (count : Nat) (p : Logged) : Logged :=
  let p := p.step cold
  let p := p.step (set_rv_type KindOfBoolean)
  let s1 := unless_string R 1
  let p := match count with
    | 1 => p
    | _ => s1 p
  let p := unless_string R 0 p
  p.call (call_bool R .checkdnsrr) [p.data 0, if count > 1 then p.data 1 else quiet Arg.null_string]

def fg_checkdnsrr (R : Runtime) (ar : ActRec) (rv : TypedValue) : Logged :=
  let p := enter ar rv
  let count := ar.numArgs
  if count ≥ 1 ∧ count ≤ 2 then
    let t := (count_le count 1).or_else (p.is_string 1)
      |>.and_then (p.is_string 0)
    let p := p.note t.reads
    if t.holds then
      let p := p.step (set_rv_type KindOfBoolean)
      let p := p.call (call_bool R .checkdnsrr)
        [p.data 0, if count > 1 then p.data 1 else quiet Arg.null_string]
      p.step (finish 2)
    else
      let p := fg1_checkdnsrr R count p
      p.step (finish 2)
  else
    let p := p.step (throw_wrong_arguments_nr "checkdnsrr" count 1 2 1)
    p.step (null_result 2)

def fg1_dns_get_record (R : Runtime) (count : Nat) (p : Logged) : Logged :=
  let p := p.step cold
  let s1 := unless_int64 R 1
  let p := match count with
    | 1 => p
    | 2 => s1 p
    | 3 => s1 p
    | _ => s1 p
  let p := unless_string R 0 p
  let p := p.call (call_variant R .dns_get_record)
    [p.data 0, if count > 1 then p.int 1 else quiet (Arg.int (-1)),
     if count > 2 then p.slot 2 else quiet (defVal 2),
     if count > 3 then p.slot 3 else quiet (defVal 3)]
  p.step rv_uninit_to_null

def fg_dns_get_record (R : Runtime) (ar : ActRec) (rv : TypedValue) : Logged :=
  let p := enter ar rv
  let count := ar.numArgs
  if count ≥ 1 ∧ count ≤ 4 then
    let t := (count_le count 1).or_else (p.is_kind 1 KindOfInt64)
      |>.and_then (p.is_string 0)
    let p := p.note t.reads
    if t.holds then
      let p := p.call (call_variant R .dns_get_record)
        [p.data 0, if count > 1 then p.int 1 else quiet (Arg.int (-1)),
         if count > 2 then p.slot 2 else quiet (defVal 2),
         if count > 3 then p.slot 3 else quiet (defVal 3)]
      let p := p.step rv_uninit_to_null
      p.step (finish 4)
    else
      let p := fg1_dns_get_record R count p
      p.step (finish 4)
  else
    let p := p.step (throw_wrong_arguments_nr "dns_get_record" count 1 4 1)
    p.step (null_result 4)

def fg1_dns_get_mx (R : Runtime) (count : Nat) (p : Logged) : Logged :=
  let p := p.step cold
  let p := p.step (set_rv_type KindOfBoolean)
  let p := tvCastToStringInPlace R 0 p
  p.call (call_bool R .dns_get_mx)
    [p.data 0, p.slot 1, if count > 2 then p.slot 2 else quiet (defVal 2)]

def fg_dns_get_mx (R : Runtime) (ar : ActRec) (rv : TypedValue) : Logged :=
  let p := enter ar rv
  let count := ar.numArgs
  if count ≥ 2 ∧ count ≤ 3 then
    let t := p.is_string 0
    let p := p.note t.reads
    if t.holds then
      let p := p.step (set_rv_type KindOfBoolean)
      let p := p.call (call_bool R .dns_get_mx)
        [p.data 0, p.slot 1, if count > 2 then p.slot 2 else quiet (defVal 2)]
      p.step (finish 3)
    else
      let p := fg1_dns_get_mx R count p
      p.step (finish 3)
  else
    let p := p.step (throw_wrong_arguments_nr "dns_get_mx" count 2 3 1)
    p.step (null_result 3)

def fg1_getmxrr (R : Runtime) (count : Nat) (p : Logged) : Logged :=
  let p := p.step cold
  let p := p.step (set_rv_type KindOfBoolean)
  let p := tvCastToStringInPlace R 0 p
  p.call (call_bool R .getmxrr)
    [p.data 0, p.slot 1, if count > 2 then p.slot 2 else quiet (defVal 2)]

def fg_getmxrr (R : Runtime) (ar : ActRec) (rv : TypedValue) : Logged :=
  let p := enter ar rv
  let count := ar.numArgs
  if count ≥ 2 ∧ count ≤ 3 then
    let t := p.is_string 0
    let p := p.note t.reads
    if t.holds then
      let p := p.step (set_rv_type KindOfBoolean)
      let p := p.call (call_bool R .getmxrr)
        [p.data 0, p.slot 1, if count > 2 then p.slot 2 else quiet (defVal 2)]
      p.step (finish 3)
    else
      let p := fg1_getmxrr R count p
      p.step (finish 3)
  else
    let p := p.step (throw_wrong_arguments_nr "getmxrr" count 2 3 1)
    p.step (null_result 3)

def fg1_socket_get_status (R : Runtime) (count : Nat) (p : Logged) : Logged :=
  let p := p.step cold
  let p := tvCastToObjectInPlace R 0 p
  let p := p.call (call_variant R .socket_get_status) [p.data 0]
  p.step rv_uninit_to_null

def fg_socket_get_status (R : Runtime) (ar : ActRec) (rv : TypedValue) : Logged :=
  let p := enter ar rv
  let count := ar.numArgs
  if count = 1 then
    let t := p.is_kind 0 KindOfObject
    let p := p.note t.reads
    if t.holds then
      let p := p.call (call_variant R .socket_get_status) [p.data 0]
      let p := p.step rv_uninit_to_null
      p.step (finish 1)
    else
      let p := fg1_socket_get_status R count p
      p.step (finish 1)
  else
    let p := p.step (throw_wrong_arguments_nr "socket_get_status" count 1 1 1)
    p.step (null_result 1)

def fg1_socket_set_blocking (R : Runtime) (count : Nat) (p : Logged) : Logged :=
  let p := p.step cold
  let p := p.step (set_rv_type KindOfBoolean)
  let p := unless_int64 R 1 p
  let p := unless_object R 0 p
  p.call (call_bool R .socket_set_blocking) [p.data 0, p.int 1]

def fg_socket_set_blocking (R : Runtime) (ar : ActRec) (rv : TypedValue) : Logged :=
  let p := enter ar rv
  let count := ar.numArgs
  if count = 2 then
    let t := p.is_kind 1 KindOfInt64
      |>.and_then (p.is_kind 0 KindOfObject)
    let p := p.note t.reads
    if t.holds then
      let p := p.step (set_rv_type KindOfBoolean)
      let p := p.call (call_bool R .socket_set_blocking) [p.data 0, p.int 1]
      p.step (finish 2)
    else
      let p := fg1_socket_set_blocking R count p
      p.step (finish 2)
  else
    let p := p.step (throw_wrong_arguments_nr "socket_set_blocking" count 2 2 1)
    p.step (null_result 2)

def fg1_socket_set_timeout (R : Runtime) (count : Nat) (p : Logged) : Logged :=
  let p := p.step cold
  let p := p.step (set_rv_type KindOfBoolean)
  let s2 := unless_int64 R 2
  let p := match count with
    | 2 => p
    | _ => s2 p
  let p := unless_int64 R 1 p
  let p := unless_object R 0 p
  p.call (call_bool R .socket_set_timeout)
    [p.data 0, p.int 1, if count > 2 then p.int 2 else quiet (Arg.int 0)]

def fg_socket_set_timeout (R : Runtime) (ar : ActRec) (rv : TypedValue) : Logged :=
  let p := enter ar rv
  let count := ar.numArgs
  if count ≥ 2 ∧ count ≤ 3 then
    let t := (count_le count 2).or_else (p.is_kind 2 KindOfInt64)
      |>.and_then (p.is_kind 1 KindOfInt64)
      |>.and_then (p.is_kind 0 KindOfObject)
    let p := p.note t.reads
    if t.holds then
      let p := p.step (set_rv_type KindOfBoolean)
      let p := p.call (call_bool R .socket_set_timeout)
        [p.data 0, p.int 1, if count > 2 then p.int 2 else quiet (Arg.int 0)]
      p.step (finish 3)
    else
      let p := fg1_socket_set_timeout R count p
      p.step (finish 3)
  else
    let p := p.step (throw_wrong_arguments_nr "socket_set_timeout" count 2 3 1)
    p.step (null_result 3)

def fg1_header (R : Runtime) (count : Nat) (p : Logged) : Logged :=
  let p := p.step cold
  let p := p.step (set_rv_num 0)
  let p := p.step (set_rv_type KindOfNull)
  let s2 := unless_int64 R 2
  let s1 := unless_boolean R 1
  let p := match count with
    | 1 => p
    | 2 => s1 p
    | _ => s1 (s2 p)
  let p := unless_string R 0 p
  p.call (call_void .header)
    [p.data 0, if count > 1 then p.bool 1 else quiet (Arg.bool true),
     if count > 2 then p.int 2 else quiet (Arg.int 0)]

def fg_header (R : Runtime) (ar : ActRec) (rv : TypedValue) : Logged :=
  let p := enter ar rv
  let count := ar.numArgs
  if count ≥ 1 ∧ count ≤ 3 then
    let t := (count_le count 2).or_else (p.is_kind 2 KindOfInt64)
      |>.and_then ((count_le count 1).or_else (p.is_kind 1 KindOfBoolean))
      |>.and_then (p.is_string 0)
    let p := p.note t.reads
    if t.holds then
      let p := p.step (set_rv_num 0)
      let p := p.step (set_rv_type KindOfNull)
      let p := p.call (call_void .header)
        [p.data 0, if count > 1 then p.bool 1 else quiet (Arg.bool true),
         if count > 2 then p.int 2 else quiet (Arg.int 0)]
      p.step (finish 3)
    else
      let p := fg1_header R count p
      p.step (finish 3)
  else
    let p := p.step (throw_wrong_arguments_nr "header" count 1 3 1)
    p.step (null_result 3)

def fg1_http_response_code (R : Runtime) (count : Nat) (p : Logged) : Logged :=
  let p := p.step cold
  let p := tvCastToInt64InPlace R 0 p
  let p := p.call (call_variant R .http_response_code)
    [if count > 0 then p.int 0 else quiet (Arg.int 0)]
  p.step rv_uninit_to_null

def fg_http_response_code (R : Runtime) (ar : ActRec) (rv : TypedValue) : Logged :=
  let p := enter ar rv
  let count := ar.numArgs
  if count ≤ 1 then
    let t := (count_le count 0).or_else (p.is_kind 0 KindOfInt64)
    let p := p.note t.reads
    if t.holds then
      let p := p.call (call_variant R .http_response_code)
        [if count > 0 then p.int 0 else quiet (Arg.int 0)]
      let p := p.step rv_uninit_to_null
      p.step (finish 1)
    else
      let p := fg1_http_response_code R count p
      p.step (finish 1)
  else
    let p := p.step (throw_toomany_arguments_nr "http_response_code" 1 1)
    p.step (null_result 1)

def fg_headers_list (R : Runtime) (ar : ActRec) (rv : TypedValue) : Logged :=
  let p := enter ar rv
  let count := ar.numArgs
  if count = 0 then
    let p := p.step (set_rv_type KindOfArray)
    let p := p.call (call_value R .headers_list) []
    let p := p.step rv_zero_to_null
    p.step (finish 0)
  else
    let p := p.step (throw_toomany_arguments_nr "headers_list" 0 1)
    p.step (null_result 0)

def fg_get_http_request_size (R : Runtime) (ar : ActRec) (rv : TypedValue) : Logged :=
  let p := enter ar rv
  let count := ar.numArgs
  if count = 0 then
    let p := p.step (set_rv_type KindOfInt64)
    let p := p.call (call_int R .get_http_request_size) []
    p.step (finish 0)
  else
    let p := p.step (throw_toomany_arguments_nr "get_http_request_size" 0 1)
    p.step (null_result 0)

def fg_headers_sent (R : Runtime) (ar : ActRec) (rv : TypedValue) : Logged :=
  let p := enter ar rv
  let count := ar.numArgs
  if count ≤ 2 then
    let p := p.step (set_rv_type KindOfBoolean)
    let p := p.call (call_bool R .headers_sent)
      [if count > 0 then p.slot 0 else quiet (defVal 0),
       if count > 1 then p.slot 1 else quiet (defVal 1)]
    p.step (finish 2)
  else
    let p := p.step (throw_toomany_arguments_nr "headers_sent" 2 1)
    p.step (null_result 2)

def fg_header_register_callback (R : Runtime) (ar : ActRec) (rv : TypedValue) : Logged :=
  let p := enter ar rv
  let count := ar.numArgs
  if count = 1 then
    let p := p.step (set_rv_type KindOfBoolean)
    let p := p.call (call_bool R .header_register_callback) [p.slot 0]
    p.step (finish 1)
  else
    let p := p.step (throw_wrong_arguments_nr "header_register_callback" count 1 1 1)
    p.step (null_result 1)

def fg1_header_remove (R : Runtime) (count : Nat) (p : Logged) : Logged :=
  let p := p.step cold
  let p := p.step (set_rv_num 0)
  let p := p.step (set_rv_type KindOfNull)
  let p := tvCastToStringInPlace R 0 p
  p.call (call_void .header_remove) [if count > 0 then p.data 0 else quiet Arg.null_string]

def fg_header_remove (R : Runtime) (ar : ActRec) (rv : TypedValue) : Logged :=
  let p := enter ar rv
  let count := ar.numArgs
  if count ≤ 1 then
    let t := (count_le count 0).or_else (p.is_string 0)
    let p := p.note t.reads
    if t.holds then
      let p := p.step (set_rv_num 0)
      let p := p.step (set_rv_type KindOfNull)
      let p := p.call (call_void .header_remove)
        [if count > 0 then p.data 0 else quiet Arg.null_string]
      p.step (finish 1)
    else
      let p := fg1_header_remove R count p
      p.step (finish 1)
  else
    let p := p.step (throw_toomany_arguments_nr "header_remove" 1 1)
    p.step (null_result 1)

def fg1_setcookie (R : Runtime) (count : Nat) (p : Logged) : Logged :=
  let p := p.step cold
  let p := p.step (set_rv_type KindOfBoolean)
  let s6 := unless_boolean R 6
  let s5 := unless_boolean R 5
  let s4 := unless_string R 4
  let s3 := unless_string R 3
  let s2 := unless_int64 R 2
  let s1 := unless_string R 1
  let p := match count with
    | 1 => p
    | 2 => s1 p
    | 3 => s1 (s2 p)
    | 4 => s1 (s2 (s3 p))
    | 5 => s1 (s2 (s3 (s4 p)))
    | 6 => s1 (s2 (s3 (s4 (s5 p))))
    | _ => s1 (s2 (s3 (s4 (s5 (s6 p)))))
  let p := unless_string R 0 p
  p.call (call_bool R .setcookie)
    [p.data 0, if count > 1 then p.data 1 else quiet Arg.null_string,
     if count > 2 then p.long 2 else quiet (Arg.long 0),
     if count > 3 then p.data 3 else quiet Arg.null_string,
     if count > 4 then p.data 4 else quiet Arg.null_string,
     if count > 5 then p.bool 5 else quiet (Arg.bool false),
     if count > 6 then p.bool 6 else quiet (Arg.bool false)]

def fg_setcookie (R : Runtime) (ar : ActRec) (rv : TypedValue) : Logged :=
  let p := enter ar rv
  let count := ar.numArgs
  if count ≥ 1 ∧ count ≤ 7 then
    let t := (count_le count 6).or_else (p.is_kind 6 KindOfBoolean)
      |>.and_then ((count_le count 5).or_else (p.is_kind 5 KindOfBoolean))
      |>.and_then ((count_le count 4).or_else (p.is_string 4))
      |>.and_then ((count_le count 3).or_else (p.is_string 3))
      |>.and_then ((count_le count 2).or_else (p.is_kind 2 KindOfInt64))
      |>.and_then ((count_le count 1).or_else (p.is_string 1))
      |>.and_then (p.is_string 0)
    let p := p.note t.reads
    if t.holds then
      let p := p.step (set_rv_type KindOfBoolean)
      let p := p.call (call_bool R .setcookie)
        [p.data 0, if count > 1 then p.data 1 else quiet Arg.null_string,
         if count > 2 then p.long 2 else quiet (Arg.long 0),
         if count > 3 then p.data 3 else quiet Arg.null_string,
         if count > 4 then p.data 4 else quiet Arg.null_string,
         if count > 5 then p.bool 5 else quiet (Arg.bool false),
         if count > 6 then p.bool 6 else quiet (Arg.bool false)]
      p.step (finish 7)
    else
      let p := fg1_setcookie R count p
      p.step (finish 7)
  else
    let p := p.step (throw_wrong_arguments_nr "setcookie" count 1 7 1)
    p.step (null_result 7)

def fg1_setrawcookie (R : Runtime) (count : Nat) (p : Logged) : Logged :=
  let p := p.step cold
  let p := p.step (set_rv_type KindOfBoolean)
  let s6 := unless_boolean R 6
  let s5 := unless_boolean R 5
  let s4 := unless_string R 4
  let s3 := unless_string R 3
  let s2 := unless_int64 R 2
  let s1 := unless_string R 1
  let p := match count with
    | 1 => p
    | 2 => s1 p
    | 3 => s1 (s2 p)
    | 4 => s1 (s2 (s3 p))
    | 5 => s1 (s2 (s3 (s4 p)))
    | 6 => s1 (s2 (s3 (s4 (s5 p))))
    | _ => s1 (s2 (s3 (s4 (s5 (s6 p)))))
  let p := unless_string R 0 p
  p.call (call_bool R .setrawcookie)
    [p.data 0, if count > 1 then p.data 1 else quiet Arg.null_string,
     if count > 2 then p.long 2 else quiet (Arg.long 0),
     if count > 3 then p.data 3 else quiet Arg.null_string,
     if count > 4 then p.data 4 else quiet Arg.null_string,
     if count > 5 then p.bool 5 else quiet (Arg.bool false),
     if count > 6 then p.bool 6 else quiet (Arg.bool false)]

def fg_setrawcookie (R : Runtime) (ar : ActRec) (rv : TypedValue) : Logged :=
  let p := enter ar rv
  let count := ar.numArgs
  if count ≥ 1 ∧ count ≤ 7 then
    let t := (count_le count 6).or_else (p.is_kind 6 KindOfBoolean)
      |>.and_then ((count_le count 5).or_else (p.is_kind 5 KindOfBoolean))
      |>.and_then ((count_le count 4).or_else (p.is_string 4))
      |>.and_then ((count_le count 3).or_else (p.is_string 3))
      |>.and_then ((count_le count 2).or_else (p.is_kind 2 KindOfInt64))
      |>.and_then ((count_le count 1).or_else (p.is_string 1))
      |>.and_then (p.is_string 0)
    let p := p.note t.reads
    if t.holds then
      let p := p.step (set_rv_type KindOfBoolean)
      let p := p.call (call_bool R .setrawcookie)
        [p.data 0, if count > 1 then p.data 1 else quiet Arg.null_string,
         if count > 2 then p.long 2 else quiet (Arg.long 0),
         if count > 3 then p.data 3 else quiet Arg.null_string,
         if count > 4 then p.data 4 else quiet Arg.null_string,
         if count > 5 then p.bool 5 else quiet (Arg.bool false),
         if count > 6 then p.bool 6 else quiet (Arg.bool false)]
      p.step (finish 7)
    else
      let p := fg1_setrawcookie R count p
      p.step (finish 7)
  else
    let p := p.step (throw_wrong_arguments_nr "setrawcookie" count 1 7 1)
    p.step (null_result 7)

def fg_define_syslog_variables (R : Runtime) (ar : ActRec) (rv : TypedValue) : Logged :=
  let p := enter ar rv
  let count := ar.numArgs
  if count = 0 then
    let p := p.step (set_rv_num 0)
    let p := p.step (set_rv_type KindOfNull)
    let p := p.call (call_void .define_syslog_variables) []
    p.step (finish 0)
  else
    let p := p.step (throw_toomany_arguments_nr "define_syslog_variables" 0 1)
    p.step (null_result 0)

def fg1_openlog (R : Runtime) (count : Nat) (p : Logged) : Logged :=
  let p := p.step cold
  let p := p.step (set_rv_type KindOfBoolean)
  let p := unless_int64 R 2 p
  let p := unless_int64 R 1 p
  let p := unless_string R 0 p
  p.call (call_bool R .openlog) [p.data 0, p.int 1, p.int 2]

def fg_openlog (R : Runtime) (ar : ActRec) (rv : TypedValue) : Logged :=
  let p := enter ar rv
  let count := ar.numArgs
  if count = 3 then
    let t := p.is_kind 2 KindOfInt64
      |>.and_then (p.is_kind 1 KindOfInt64)
      |>.and_then (p.is_string 0)
    let p := p.note t.reads
    if t.holds then
      let p := p.step (set_rv_type KindOfBoolean)
      let p := p.call (call_bool R .openlog) [p.data 0, p.int 1, p.int 2]
      p.step (finish 3)
    else
      let p := fg1_openlog R count p
      p.step (finish 3)
  else
    let p := p.step (throw_wrong_arguments_nr "openlog" count 3 3 1)
    p.step (null_result 3)

def fg_closelog (R : Runtime) (ar : ActRec) (rv : TypedValue) : Logged :=
  let p := enter ar rv
  let count := ar.numArgs
  if count = 0 then
    let p := p.step (set_rv_type KindOfBoolean)
    let p := p.call (call_bool R .closelog) []
    p.step (finish 0)
  else
    let p := p.step (throw_toomany_arguments_nr "closelog" 0 1)
    p.step (null_result 0)

def fg1_syslog (R : Runtime) (count : Nat) (p : Logged) : Logged :=
  let p := p.step cold
  let p := p.step (set_rv_type KindOfBoolean)
  let p := unless_string R 1 p
  let p := unless_int64 R 0 p
  p.call (call_bool R .syslog) [p.int 0, p.data 1]

def fg_syslog (R : Runtime) (ar : ActRec) (rv : TypedValue) : Logged :=
  let p := enter ar rv
  let count := ar.numArgs
  if count = 2 then
    let t := p.is_string 1
      |>.and_then (p.is_kind 0 KindOfInt64)
    let p := p.note t.reads
    if t.holds then
      let p := p.step (set_rv_type KindOfBoolean)
      let p := p.call (call_bool R .syslog) [p.int 0, p.data 1]
      p.step (finish 2)
    else
      let p := fg1_syslog R count p
      p.step (finish 2)
  else
    let p := p.step (throw_wrong_arguments_nr "syslog" count 2 2 1)
    p.step (null_result 2)

/-- The entry point bound to each function, with its accesses. -/
def fg : Fn → Runtime → ActRec → TypedValue → Logged
  | .gethostname => fg_gethostname
  | .gethostbyaddr => fg_gethostbyaddr
  | .gethostbyname => fg_gethostbyname
  | .gethostbynamel => fg_gethostbynamel
  | .getprotobyname => fg_getprotobyname
  | .getprotobynumber => fg_getprotobynumber
  | .getservbyname => fg_getservbyname
  | .getservbyport => fg_getservbyport
  | .inet_ntop => fg_inet_ntop
  | .inet_pton => fg_inet_pton
  | .ip2long => fg_ip2long
  | .long2ip => fg_long2ip
  | .dns_check_record => fg_dns_check_record
  | .checkdnsrr => fg_checkdnsrr
  | .dns_get_record => fg_dns_get_record
  | .dns_get_mx => fg_dns_get_mx
  | .getmxrr => fg_getmxrr
  | .socket_get_status => fg_socket_get_status
  | .socket_set_blocking => fg_socket_set_blocking
  | .socket_set_timeout => fg_socket_set_timeout
  | .header => fg_header
  | .http_response_code => fg_http_response_code
  | .headers_list => fg_headers_list
  | .get_http_request_size => fg_get_http_request_size
  | .headers_sent => fg_headers_sent
  | .header_register_callback => fg_header_register_callback
  | .header_remove => fg_header_remove
  | .setcookie => fg_setcookie
  | .setrawcookie => fg_setrawcookie
  | .define_syslog_variables => fg_define_syslog_variables
  | .openlog => fg_openlog
  | .closelog => fg_closelog
  | .syslog => fg_syslog

end Logged

/-- Every access of the list goes to a slot below n. -/
def accessesBelow (n : Nat) (l : List Access) : Prop := ∀ a ∈ l, a.index < n

/-- The slots cast among a list of accesses, in order. -/
def castSlots : List Access → List Nat
  | [] => []
  | .cast i :: l => i :: castSlots l
  | _ :: l => castSlots l

/-- The slots handed to the native function among a list of accesses, in order. -/
def passSlots : List Access → List Nat
  | [] => []
  | .pass i :: l => i :: passSlots l
  | _ :: l => passSlots l

/-! ## Concrete inputs -/

/-- A runtime whose casts set the target tag and keep the payload, and whose
native functions hand back an uninitialized value, a null pointer, true
and -1. -/
def sampleRuntime : Runtime :=
  ⟨fun v => ⟨v.m_data, KindOfString⟩, fun v => ⟨v.m_data, KindOfInt64⟩,
   fun v => ⟨v.m_data, KindOfBoolean⟩, fun v => ⟨v.m_data, KindOfObject⟩,
   fun _ _ => ⟨0, KindOfUninit⟩, fun _ _ => 0, fun _ _ => true, fun _ _ => -1⟩

/-- An activation record with n arguments, every slot holding the integer 5. -/
def sampleFrame (n : Nat) : ActRec := ⟨n, fun _ => ⟨5, KindOfInt64⟩, ⟨0, KindOfUninit⟩⟩

/-- A runtime like `sampleRuntime` whose casts leave a slot alone when it
already has the target tag. -/
def gentleRuntime : Runtime :=
  ⟨fun v => if IS_STRING_TYPE v.m_type then v else ⟨v.m_data, KindOfString⟩,
   fun v => if v.m_type = KindOfInt64 then v else ⟨v.m_data, KindOfInt64⟩,
   fun v => if v.m_type = KindOfBoolean then v else ⟨v.m_data, KindOfBoolean⟩,
   fun v => if v.m_type = KindOfObject then v else ⟨v.m_data, KindOfObject⟩,
   fun _ _ => ⟨0, KindOfUninit⟩, fun _ _ => 0, fun _ _ => true, fun _ _ => -1⟩

/-- An activation record with n arguments, every slot holding a string. -/
def stringFrame (n : Nat) : ActRec := ⟨n, fun _ => ⟨64, KindOfString⟩, ⟨0, KindOfUninit⟩⟩

/-- An activation record with n arguments, slot i holding the integer
2^32 + 1 + i. -/
def wideFrame (n : Nat) : ActRec :=
  ⟨n, fun i => ⟨2 ^ 32 + 1 + i, KindOfInt64⟩, ⟨0, KindOfUninit⟩⟩

/-! ## Lemmas on the runtime calls -/

section Primitives

variable (R : Runtime) (i : Nat) (m : Machine)

attribute [simp] cold tvCastToStringInPlace tvCastToInt64InPlace tvCastToBooleanInPlace
  tvCastToObjectInPlace throw_toomany_arguments_nr throw_wrong_arguments_nr
  frame_free_locals_no_this_inl memcpy_m_r return_m_r set_rv_type set_rv_num call_variant
  call_value call_bool call_int call_void finish null_result Machine.enter Machine.data
  Machine.slot Machine.int Machine.long Machine.bool

@[simp] theorem args_unless_string :
    (unless_string R i m).args = Function.update m.args i (coerce R .String (m.args i)) := by
  unfold unless_string coerce; split <;> simp_all

@[simp] theorem trace_unless_string :
    (unless_string R i m).trace
      = m.trace ++ (if IS_STRING_TYPE (m.args i).m_type then [] else [Event.cast .String i]) := by
  unfold unless_string; split <;> simp_all

@[simp] theorem rv_unless_string : (unless_string R i m).rv = m.rv := by
  unfold unless_string; split <;> simp_all

@[simp] theorem m_r_unless_string : (unless_string R i m).m_r = m.m_r := by
  unfold unless_string; split <;> simp_all

@[simp] theorem returned_unless_string : (unless_string R i m).returned = m.returned := by
  unfold unless_string; split <;> simp_all

@[simp] theorem slow_unless_string : (unless_string R i m).slow = m.slow := by
  unfold unless_string; split <;> simp_all

@[simp] theorem args_unless_int64 :
    (unless_int64 R i m).args = Function.update m.args i (coerce R .Int64 (m.args i)) := by
  unfold unless_int64 coerce; split <;> simp_all

@[simp] theorem trace_unless_int64 :
    (unless_int64 R i m).trace
      = m.trace ++ (if (m.args i).m_type = KindOfInt64 then [] else [Event.cast .Int64 i]) := by
  unfold unless_int64; split <;> simp_all

@[simp] theorem rv_unless_int64 : (unless_int64 R i m).rv = m.rv := by
  unfold unless_int64; split <;> simp_all

@[simp] theorem m_r_unless_int64 : (unless_int64 R i m).m_r = m.m_r := by
  unfold unless_int64; split <;> simp_all

@[simp] theorem returned_unless_int64 : (unless_int64 R i m).returned = m.returned := by
  unfold unless_int64; split <;> simp_all

@[simp] theorem slow_unless_int64 : (unless_int64 R i m).slow = m.slow := by
  unfold unless_int64; split <;> simp_all

@[simp] theorem args_unless_boolean :
    (unless_boolean R i m).args = Function.update m.args i (coerce R .Boolean (m.args i)) := by
  unfold unless_boolean coerce; split <;> simp_all

@[simp] theorem trace_unless_boolean :
    (unless_boolean R i m).trace
      = m.trace ++ (if (m.args i).m_type = KindOfBoolean then [] else [Event.cast .Boolean i]) := by
  unfold unless_boolean; split <;> simp_all

@[simp] theorem rv_unless_boolean : (unless_boolean R i m).rv = m.rv := by
  unfold unless_boolean; split <;> simp_all

@[simp] theorem m_r_unless_boolean : (unless_boolean R i m).m_r = m.m_r := by
  unfold unless_boolean; split <;> simp_all

@[simp] theorem returned_unless_boolean : (unless_boolean R i m).returned = m.returned := by
  unfold unless_boolean; split <;> simp_all

@[simp] theorem slow_unless_boolean : (unless_boolean R i m).slow = m.slow := by
  unfold unless_boolean; split <;> simp_all

@[simp] theorem args_unless_object :
    (unless_object R i m).args = Function.update m.args i (coerce R .Object (m.args i)) := by
  unfold unless_object coerce; split <;> simp_all

@[simp] theorem trace_unless_object :
    (unless_object R i m).trace
      = m.trace ++ (if (m.args i).m_type = KindOfObject then [] else [Event.cast .Object i]) := by
  unfold unless_object; split <;> simp_all

@[simp] theorem rv_unless_object : (unless_object R i m).rv = m.rv := by
  unfold unless_object; split <;> simp_all

@[simp] theorem m_r_unless_object : (unless_object R i m).m_r = m.m_r := by
  unfold unless_object; split <;> simp_all

@[simp] theorem returned_unless_object : (unless_object R i m).returned = m.returned := by
  unfold unless_object; split <;> simp_all

@[simp] theorem slow_unless_object : (unless_object R i m).slow = m.slow := by
  unfold unless_object; split <;> simp_all

@[simp] theorem args_rv_uninit_to_null : (rv_uninit_to_null m).args = m.args := by
  unfold rv_uninit_to_null; split <;> simp

@[simp] theorem trace_rv_uninit_to_null : (rv_uninit_to_null m).trace = m.trace := by
  unfold rv_uninit_to_null; split <;> simp

@[simp] theorem m_r_rv_uninit_to_null : (rv_uninit_to_null m).m_r = m.m_r := by
  unfold rv_uninit_to_null; split <;> simp

@[simp] theorem returned_rv_uninit_to_null :
    (rv_uninit_to_null m).returned = m.returned := by
  unfold rv_uninit_to_null; split <;> simp

@[simp] theorem slow_rv_uninit_to_null : (rv_uninit_to_null m).slow = m.slow := by
  unfold rv_uninit_to_null; split <;> simp

@[simp] theorem rv_rv_uninit_to_null :
    (rv_uninit_to_null m).rv
      = if m.rv.m_type = KindOfUninit then ⟨m.rv.m_data, KindOfNull⟩ else m.rv := by
  unfold rv_uninit_to_null; split <;> simp

@[simp] theorem args_rv_zero_to_null : (rv_zero_to_null m).args = m.args := by
  unfold rv_zero_to_null; split <;> simp

@[simp] theorem trace_rv_zero_to_null : (rv_zero_to_null m).trace = m.trace := by
  unfold rv_zero_to_null; split <;> simp

@[simp] theorem m_r_rv_zero_to_null : (rv_zero_to_null m).m_r = m.m_r := by
  unfold rv_zero_to_null; split <;> simp

@[simp] theorem returned_rv_zero_to_null : (rv_zero_to_null m).returned = m.returned := by
  unfold rv_zero_to_null; split <;> simp

@[simp] theorem slow_rv_zero_to_null : (rv_zero_to_null m).slow = m.slow := by
  unfold rv_zero_to_null; split <;> simp

@[simp] theorem rv_rv_zero_to_null :
    (rv_zero_to_null m).rv
      = if m.rv.m_data = 0 then ⟨m.rv.m_data, KindOfNull⟩ else m.rv := by
  unfold rv_zero_to_null; split <;> simp

end Primitives

attribute [irreducible] unless_string unless_int64 unless_boolean unless_object
  rv_uninit_to_null rv_zero_to_null

/-! ## Every entry point computes the closed form -/

/-- Outside the declared range every entry point signals the arity error,
releases the locals and stores the null value; it does nothing else. -/
theorem fg_out_of_range (f : Fn) (R : Runtime) (ar : ActRec) (rv : TypedValue)
    (h : ¬ f.inRange ar.numArgs) :
    fg f R ar rv = ⟨ar.args, null_tv, null_tv,
      [arityEvent f ar.numArgs, Event.free_locals f.maxArgs, Event.store null_tv],
      some Ptr.m_r, false⟩ := by
  cases f <;> simp only [Fn.inRange, Fn.minArgs, Fn.maxArgs] at h <;> unfold fg <;> dsimp only
  all_goals
    first
    | unfold fg_gethostname | unfold fg_gethostbyaddr | unfold fg_gethostbyname
    | unfold fg_gethostbynamel | unfold fg_getprotobyname | unfold fg_getprotobynumber
    | unfold fg_getservbyname | unfold fg_getservbyport | unfold fg_inet_ntop
    | unfold fg_inet_pton | unfold fg_ip2long | unfold fg_long2ip
    | unfold fg_dns_check_record | unfold fg_checkdnsrr | unfold fg_dns_get_record
    | unfold fg_dns_get_mx | unfold fg_getmxrr | unfold fg_socket_get_status
    | unfold fg_socket_set_blocking | unfold fg_socket_set_timeout | unfold fg_header
    | unfold fg_http_response_code | unfold fg_headers_list | unfold fg_get_http_request_size
    | unfold fg_headers_sent | unfold fg_header_register_callback | unfold fg_header_remove
    | unfold fg_setcookie | unfold fg_setrawcookie | unfold fg_define_syslog_variables
    | unfold fg_openlog | unfold fg_closelog | unfold fg_syslog
  all_goals
    dsimp only
    split
    · exfalso; omega
    · rfl

set_option maxHeartbeats 4000000 in
/-- Inside the declared range every entry point computes the closed form, on
the fast path and on the slow path. -/
theorem fg_in_range (f : Fn) (R : Runtime) (ar : ActRec) (rv : TypedValue)
    (h : f.inRange ar.numArgs) : fg f R ar rv = glue f R ar := by
  obtain ⟨c, a, r⟩ := ar
  cases f <;> simp only [Fn.inRange, Fn.minArgs, Fn.maxArgs] at h <;> obtain ⟨h1, h2⟩ := h <;>
    interval_cases c <;> unfold fg <;> dsimp only
  all_goals
    first
    | unfold fg_gethostname | unfold fg_gethostbyaddr fg1_gethostbyaddr
    | unfold fg_gethostbyname fg1_gethostbyname
    | unfold fg_gethostbynamel fg1_gethostbynamel
    | unfold fg_getprotobyname fg1_getprotobyname
    | unfold fg_getprotobynumber fg1_getprotobynumber
    | unfold fg_getservbyname fg1_getservbyname
    | unfold fg_getservbyport fg1_getservbyport
    | unfold fg_inet_ntop fg1_inet_ntop
    | unfold fg_inet_pton fg1_inet_pton
    | unfold fg_ip2long fg1_ip2long
    | unfold fg_long2ip fg1_long2ip
    | unfold fg_dns_check_record fg1_dns_check_record
    | unfold fg_checkdnsrr fg1_checkdnsrr
    | unfold fg_dns_get_record fg1_dns_get_record
    | unfold fg_dns_get_mx fg1_dns_get_mx
    | unfold fg_getmxrr fg1_getmxrr
    | unfold fg_socket_get_status fg1_socket_get_status
    | unfold fg_socket_set_blocking fg1_socket_set_blocking
    | unfold fg_socket_set_timeout fg1_socket_set_timeout
    | unfold fg_header fg1_header
    | unfold fg_http_response_code fg1_http_response_code
    | unfold fg_headers_list | unfold fg_get_http_request_size
    | unfold fg_headers_sent | unfold fg_header_register_callback
    | unfold fg_header_remove fg1_header_remove
    | unfold fg_setcookie fg1_setcookie
    | unfold fg_setrawcookie fg1_setrawcookie
    | unfold fg_define_syslog_variables
    | unfold fg_openlog fg1_openlog
    | unfold fg_closelog
    | unfold fg_syslog fg1_syslog
  all_goals
    simp [glue, Fn.inRange, Fn.minArgs, Fn.maxArgs, Fn.params, cookieParams, coerceFrom,
      castsFrom, actualsFrom, wrap, Fn.ret, req, opt, ParamTy.castKind, Param.present,
      CastKind.accepts, ParamTy.actual, Fn.actuals, Fn.result, Fn.casts, coerce]
  all_goals (split <;> rename_i hfast <;> simp_all)

/-- Every entry point computes the closed form; the contents of the local `rv`
on entry do not matter. -/
theorem fg_eq_glue (f : Fn) (R : Runtime) (ar : ActRec) (rv : TypedValue) :
    fg f R ar rv = glue f R ar := by
  by_cases h : f.inRange ar.numArgs
  · exact fg_in_range f R ar rv h
  · rw [fg_out_of_range f R ar rv h]; simp [glue, h]

/-! ## Consequences of the closed form -/

theorem glue_out (f : Fn) (R : Runtime) (ar : ActRec) (h : ¬ f.inRange ar.numArgs) :
    glue f R ar = ⟨ar.args, null_tv, null_tv,
      [arityEvent f ar.numArgs, Event.free_locals f.maxArgs, Event.store null_tv],
      some Ptr.m_r, false⟩ := by
  simp [glue, h]

theorem glue_in (f : Fn) (R : Runtime) (ar : ActRec) (h : f.inRange ar.numArgs) :
    glue f R ar = ⟨coerceFrom R ar.numArgs 0 f.params ar.args, f.result R ar, f.result R ar,
      f.casts ar ++ [Event.call f (f.actuals R ar), Event.free_locals f.maxArgs,
        Event.store (f.result R ar)],
      some Ptr.m_r, !(f.casts ar).isEmpty⟩ := by
  simp [glue, h]

theorem isArity_arityEvent (f : Fn) (count : Nat) : (arityEvent f count).isArity = true := by
  unfold arityEvent; split <;> rfl

/-- The casts of a run are casts. -/
theorem isCast_of_mem_castsFrom (count : Nat) (a : Nat → TypedValue) (ps : List Param) :
    ∀ (i : Nat) (e : Event), e ∈ castsFrom count a i ps → e.isCast = true := by
  induction ps with
  | nil => intro i e h; simp [castsFrom] at h
  | cons p ps ih =>
    intro i e h
    simp only [castsFrom, List.mem_append] at h
    rcases h with h | h
    · exact ih (i + 1) e h
    · split at h
      · split at h
        · split at h
          · simp at h
          · simp at h; subst h; rfl
        · simp at h
      · simp at h

theorem calls_castsFrom (count : Nat) (a : Nat → TypedValue) (i : Nat) (ps : List Param) :
    calls (castsFrom count a i ps) = [] := by
  unfold calls
  rw [List.filter_eq_nil_iff]
  intro e he
  have := isCast_of_mem_castsFrom count a ps i e he
  cases e <;> simp_all [Event.isCast, Event.isCall]

/-- The native calls of a run with an in-range count: one call, of the bound
function. -/
theorem calls_in_range (f : Fn) (R : Runtime) (ar : ActRec) (rv : TypedValue)
    (h : f.inRange ar.numArgs) :
    calls (fg f R ar rv).trace = [Event.call f (f.actuals R ar)] := by
  rw [fg_eq_glue, glue_in f R ar h]
  show calls (castsFrom _ _ _ _ ++ _) = _
  unfold calls
  rw [List.filter_append]
  have := calls_castsFrom ar.numArgs ar.args 0 f.params
  unfold calls at this
  rw [this]
  simp [Event.isCall]

theorem m_r_in_range (f : Fn) (R : Runtime) (ar : ActRec) (rv : TypedValue)
    (h : f.inRange ar.numArgs) : (fg f R ar rv).m_r = f.result R ar := by
  rw [fg_eq_glue, glue_in f R ar h]

/-- An arity signal is in the trace exactly when the count is out of range. -/
theorem raises_iff (f : Fn) (R : Runtime) (ar : ActRec) (rv : TypedValue) :
    (∃ e ∈ (fg f R ar rv).trace, e.isArity = true) ↔ ¬ f.inRange ar.numArgs := by
  rw [fg_eq_glue]
  by_cases h : f.inRange ar.numArgs
  · simp only [glue, h, if_true, not_true_eq_false, iff_false, not_exists, not_and]
    intro e he
    simp only [List.mem_append, List.mem_cons, List.mem_singleton, List.not_mem_nil,
      or_false] at he
    rcases he with he | he | he | he
    · have := isCast_of_mem_castsFrom _ _ _ _ _ he
      cases e <;> simp_all [Event.isCast, Event.isArity]
    all_goals subst he; simp [Event.isArity]
  · simp only [glue, h, if_false, not_false_eq_true, iff_true]
    exact ⟨arityEvent f ar.numArgs, by simp, isArity_arityEvent f ar.numArgs⟩

/-! ## The claims -/

/-- C1: for every bound function and every activation record, the glue raises
an arity error if and only if the supplied argument count lies outside the
declared range of the function (`Fn.minArgs`, `Fn.maxArgs`); for an in-range
count it raises nothing. -/
theorem arity_error_iff_out_of_range (f : Fn) (R : Runtime) (ar : ActRec) (rv : TypedValue) :
    (∃ e ∈ (fg f R ar rv).trace, e.isArity = true)
      ↔ ¬ (f.minArgs ≤ ar.numArgs ∧ ar.numArgs ≤ f.maxArgs) :=
  raises_iff f R ar rv

/-- C2: when the argument count is outside the declared range, the first
thing the glue does is signal the arity error; nothing after it is a signal, a
native call or a cast, the trace holds no native call and no cast at all, the
argument slots are left as they were and the cold helper is not entered. -/
theorem out_of_range_no_call_no_cast (f : Fn) (R : Runtime) (ar : ActRec) (rv : TypedValue)
    (h : ¬ f.inRange ar.numArgs) :
    (∃ e rest, (fg f R ar rv).trace = e :: rest ∧ e.isArity = true
        ∧ ∀ x ∈ rest, x.isArity = false ∧ x.isCall = false ∧ x.isCast = false)
      ∧ (∀ e ∈ (fg f R ar rv).trace, e.isCall = false ∧ e.isCast = false)
      ∧ (fg f R ar rv).args = ar.args
      ∧ (fg f R ar rv).slow = false := by
  rw [fg_eq_glue, glue_out f R ar h]
  refine ⟨⟨_, _, rfl, isArity_arityEvent f ar.numArgs, ?_⟩, ?_, rfl, rfl⟩
  · intro x hx
    simp only [List.mem_cons, List.mem_singleton, List.not_mem_nil, or_false] at hx
    rcases hx with hx | hx <;> subst hx <;> exact ⟨rfl, rfl, rfl⟩
  · intro e he
    simp only [List.mem_cons, List.mem_singleton, List.not_mem_nil, or_false] at he
    rcases he with he | he | he
    · subst he; unfold arityEvent; split <;> exact ⟨rfl, rfl⟩
    · subst he; exact ⟨rfl, rfl⟩
    · subst he; exact ⟨rfl, rfl⟩

/-- Witness of C2: `setcookie` called with 8 arguments. -/
theorem out_of_range_no_call_no_cast_witness :
    ¬ Fn.setcookie.inRange (sampleFrame 8).numArgs
      ∧ ((∃ e rest, (fg .setcookie sampleRuntime (sampleFrame 8) uninit_null).trace = e :: rest
            ∧ e.isArity = true
            ∧ ∀ x ∈ rest, x.isArity = false ∧ x.isCall = false ∧ x.isCast = false)
        ∧ (∀ e ∈ (fg .setcookie sampleRuntime (sampleFrame 8) uninit_null).trace,
            e.isCall = false ∧ e.isCast = false)
        ∧ (fg .setcookie sampleRuntime (sampleFrame 8) uninit_null).args = (sampleFrame 8).args
        ∧ (fg .setcookie sampleRuntime (sampleFrame 8) uninit_null).slow = false) :=
  ⟨by decide, out_of_range_no_call_no_cast .setcookie sampleRuntime (sampleFrame 8) uninit_null
    (by decide)⟩

/-- C3: when the argument count is outside the declared range, the value
written to the return slot is the null tagged value (tag `KindOfNull`,
payload 0), whatever the native return type of the function; the store is the
last thing the glue does. -/
theorem out_of_range_returns_null (f : Fn) (R : Runtime) (ar : ActRec) (rv : TypedValue)
    (h : ¬ f.inRange ar.numArgs) :
    (fg f R ar rv).m_r = ⟨0, KindOfNull⟩
      ∧ (fg f R ar rv).trace.getLast? = some (Event.store ⟨0, KindOfNull⟩) := by
  rw [fg_eq_glue, glue_out f R ar h]
  exact ⟨rfl, rfl⟩

/-- Witness of C3: `openlog` called with 2 arguments. -/
theorem out_of_range_returns_null_witness :
    ¬ Fn.openlog.inRange (sampleFrame 2).numArgs
      ∧ ((fg .openlog sampleRuntime (sampleFrame 2) uninit_null).m_r = ⟨0, KindOfNull⟩
        ∧ (fg .openlog sampleRuntime (sampleFrame 2) uninit_null).trace.getLast?
            = some (Event.store ⟨0, KindOfNull⟩)) :=
  ⟨by decide, out_of_range_returns_null .openlog sampleRuntime (sampleFrame 2) uninit_null
    (by decide)⟩

/-- C4: when the argument count is inside the declared range, whatever the
type tags of the arguments, the native calls of the run are exactly one call,
of the native function bound to the entry point. -/
theorem in_range_calls_native_once (f : Fn) (R : Runtime) (ar : ActRec) (rv : TypedValue)
    (h : f.inRange ar.numArgs) :
    ∃ actuals, calls (fg f R ar rv).trace = [Event.call f actuals] :=
  ⟨_, calls_in_range f R ar rv h⟩

/-- Witness of C4: `header` called with two integers, on the slow path. -/
theorem in_range_calls_native_once_witness :
    Fn.header.inRange (sampleFrame 2).numArgs
      ∧ ∃ actuals, calls (fg .header sampleRuntime (sampleFrame 2) uninit_null).trace
          = [Event.call .header actuals] :=
  ⟨by decide, in_range_calls_native_once .header sampleRuntime (sampleFrame 2) uninit_null
    (by decide)⟩

/-- C5: every arity signal of an entry point carries the PHP name of its own
function and the bounds its guard enforces: it is
`throw_toomany_arguments_nr(name, max, 1)` for a function of least count 0 and
`throw_wrong_arguments_nr(name, count, min, max, 1)` otherwise, where the
signal is raised exactly for the counts outside `[min, max]`. -/
theorem arity_error_carries_name_and_bounds (f : Fn) (R : Runtime) (ar : ActRec)
    (rv : TypedValue) :
    (∀ e ∈ (fg f R ar rv).trace, e.isArity = true →
        (f.minArgs = 0 ∧ e = Event.toomany f.name f.maxArgs 1)
          ∨ (f.minArgs ≠ 0 ∧ e = Event.wrong f.name ar.numArgs f.minArgs f.maxArgs 1))
      ∧ ((∃ e ∈ (fg f R ar rv).trace, e.isArity = true)
          ↔ ¬ (f.minArgs ≤ ar.numArgs ∧ ar.numArgs ≤ f.maxArgs)) := by
  refine ⟨?_, raises_iff f R ar rv⟩
  rw [fg_eq_glue]
  intro e he ha
  by_cases h : f.inRange ar.numArgs
  · rw [glue_in f R ar h] at he
    simp only [List.mem_append, List.mem_cons, List.mem_singleton, List.not_mem_nil,
      or_false] at he
    rcases he with he | he | he | he
    · have := isCast_of_mem_castsFrom _ _ _ _ _ he
      cases e <;> simp_all [Event.isCast, Event.isArity]
    all_goals subst he; simp [Event.isArity] at ha
  · rw [glue_out f R ar h] at he
    simp only [List.mem_cons, List.mem_singleton, List.not_mem_nil, or_false] at he
    rcases he with he | he | he
    · subst he
      unfold arityEvent
      split
      · left; exact ⟨‹_›, rfl⟩
      · right; exact ⟨‹_›, rfl⟩
    all_goals subst he; simp [Event.isArity] at ha

/-- C6 fails as stated: `setcookie` called with 8 arguments, one more than its
greatest count, raises no `throw_toomany_arguments_nr` at all. -/
theorem too_many_signal_absent_for_setcookie :
    (sampleFrame 8).numArgs > Fn.setcookie.maxArgs
      ∧ ∀ e ∈ (fg .setcookie sampleRuntime (sampleFrame 8) uninit_null).trace,
          e.isTooMany = false := by
  refine ⟨by decide, ?_⟩
  rw [fg_eq_glue, glue_out _ _ _ (by decide)]
  decide

/-- C6, amended: a call whose argument count exceeds the greatest count of the
function raises an arity error first: `throw_toomany_arguments_nr` when the
least count of the function is 0, `throw_wrong_arguments_nr` with the supplied
count and both bounds when it is 1 or more. -/
theorem above_max_signal (f : Fn) (R : Runtime) (ar : ActRec) (rv : TypedValue)
    (h : ar.numArgs > f.maxArgs) :
    (f.minArgs = 0 →
        (fg f R ar rv).trace.head? = some (Event.toomany f.name f.maxArgs 1))
      ∧ (f.minArgs ≠ 0 →
        (fg f R ar rv).trace.head?
          = some (Event.wrong f.name ar.numArgs f.minArgs f.maxArgs 1)) := by
  have hout : ¬ f.inRange ar.numArgs := by
    unfold Fn.inRange; omega
  rw [fg_eq_glue, glue_out f R ar hout]
  constructor <;> intro h0 <;> simp [arityEvent, h0]

/-- Witness of the amended C6: `gethostbyname` called with 2 arguments. -/
theorem above_max_signal_witness :
    (sampleFrame 2).numArgs > Fn.gethostbyname.maxArgs
      ∧ ((Fn.gethostbyname.minArgs = 0 →
            (fg .gethostbyname sampleRuntime (sampleFrame 2) uninit_null).trace.head?
              = some (Event.toomany Fn.gethostbyname.name Fn.gethostbyname.maxArgs 1))
        ∧ (Fn.gethostbyname.minArgs ≠ 0 →
            (fg .gethostbyname sampleRuntime (sampleFrame 2) uninit_null).trace.head?
              = some (Event.wrong Fn.gethostbyname.name (sampleFrame 2).numArgs
                  Fn.gethostbyname.minArgs Fn.gethostbyname.maxArgs 1))) :=
  ⟨by decide, above_max_signal .gethostbyname sampleRuntime (sampleFrame 2) uninit_null
    (by decide)⟩

/-- C7: for every bound function whose native return type is `Variant` and
every in-range call, on the fast and on the slow path alike: when the native
function leaves a result tagged `KindOfUninit` the value written to the return
slot is tagged `KindOfNull`, and otherwise the native result is written to the
return slot unchanged, tag and payload. -/
theorem variant_result_normalised (f : Fn) (R : Runtime) (ar : ActRec) (rv : TypedValue)
    (hf : f ∈ variantFns) (h : f.inRange ar.numArgs) :
    ∃ actuals, calls (fg f R ar rv).trace = [Event.call f actuals]
      ∧ ((R.fh_variant f actuals).m_type = KindOfUninit →
          ((fg f R ar rv).m_r.m_type = KindOfNull))
      ∧ ((R.fh_variant f actuals).m_type ≠ KindOfUninit →
          (fg f R ar rv).m_r = R.fh_variant f actuals) := by
  refine ⟨f.actuals R ar, calls_in_range f R ar rv h, ?_⟩
  rw [m_r_in_range f R ar rv h]
  have hret : f.ret = .Variant := by
    simp only [variantFns, List.mem_cons, List.mem_singleton, List.not_mem_nil, or_false] at hf
    rcases hf with h | h | h | h | h | h | h | h | h | h | h | h | h <;> subst h <;> rfl
  unfold Fn.result
  rw [hret]
  constructor <;> intro hu <;> simp [wrap, hu]

/-- Witness of C7: `dns_get_record` called with three integers, the native
function leaving an uninitialized result. -/
theorem variant_result_normalised_witness :
    Fn.dns_get_record ∈ variantFns ∧ Fn.dns_get_record.inRange (sampleFrame 3).numArgs
      ∧ ∃ actuals,
          calls (fg .dns_get_record sampleRuntime (sampleFrame 3) uninit_null).trace
            = [Event.call .dns_get_record actuals]
        ∧ ((sampleRuntime.fh_variant .dns_get_record actuals).m_type = KindOfUninit →
            ((fg .dns_get_record sampleRuntime (sampleFrame 3) uninit_null).m_r.m_type
              = KindOfNull))
        ∧ ((sampleRuntime.fh_variant .dns_get_record actuals).m_type ≠ KindOfUninit →
            (fg .dns_get_record sampleRuntime (sampleFrame 3) uninit_null).m_r
              = sampleRuntime.fh_variant .dns_get_record actuals) :=
  ⟨by decide, by decide,
    variant_result_normalised .dns_get_record sampleRuntime (sampleFrame 3) uninit_null
      (by decide) (by decide)⟩

/-- C8: `header`, on the fast and on the slow path alike: with 1 argument the
native function is called with replace = true and http_response_code = 0, with
2 arguments with the supplied, coerced replace and http_response_code = 0, with
3 arguments with both supplied values; the first actual is always the supplied,
coerced string. -/
theorem header_actuals (R : Runtime) (ar : ActRec) (rv : TypedValue)
    (h : Fn.header.inRange ar.numArgs) :
    (ar.numArgs = 1 ∧ calls (fg .header R ar rv).trace = [Event.call .header
        [Arg.data 0 (coerce R .String (ar.args 0)), Arg.bool true, Arg.int 0]])
      ∨ (ar.numArgs = 2 ∧ calls (fg .header R ar rv).trace = [Event.call .header
        [Arg.data 0 (coerce R .String (ar.args 0)),
         Arg.bool (toBool (coerce R .Boolean (ar.args 1)).m_data), Arg.int 0]])
      ∨ (ar.numArgs = 3 ∧ calls (fg .header R ar rv).trace = [Event.call .header
        [Arg.data 0 (coerce R .String (ar.args 0)),
         Arg.bool (toBool (coerce R .Boolean (ar.args 1)).m_data),
         Arg.int (toInt32 (coerce R .Int64 (ar.args 2)).m_data)]]) := by
  rw [calls_in_range _ R ar rv h]
  obtain ⟨c, a, r⟩ := ar
  simp only [Fn.inRange, Fn.minArgs, Fn.maxArgs] at h
  obtain ⟨h1, h2⟩ := h
  interval_cases c <;>
    simp [Fn.actuals, Fn.params, actualsFrom, coerceFrom, req, opt, ParamTy.castKind,
      Param.present, ParamTy.actual]

/-- Witness of C8: `header` called with two integers. -/
theorem header_actuals_witness :
    Fn.header.inRange (sampleFrame 2).numArgs
    ∧ (((sampleFrame 2).numArgs = 1
        ∧ calls (fg .header sampleRuntime (sampleFrame 2) uninit_null).trace
          = [Event.call .header
            [Arg.data 0 (coerce sampleRuntime .String ((sampleFrame 2).args 0)), Arg.bool true,
             Arg.int 0]])
      ∨ ((sampleFrame 2).numArgs = 2
        ∧ calls (fg .header sampleRuntime (sampleFrame 2) uninit_null).trace
          = [Event.call .header
            [Arg.data 0 (coerce sampleRuntime .String ((sampleFrame 2).args 0)),
             Arg.bool (toBool (coerce sampleRuntime .Boolean ((sampleFrame 2).args 1)).m_data),
             Arg.int 0]])
      ∨ ((sampleFrame 2).numArgs = 3
        ∧ calls (fg .header sampleRuntime (sampleFrame 2) uninit_null).trace
          = [Event.call .header
            [Arg.data 0 (coerce sampleRuntime .String ((sampleFrame 2).args 0)),
             Arg.bool (toBool (coerce sampleRuntime .Boolean ((sampleFrame 2).args 1)).m_data),
             Arg.int (toInt32 (coerce sampleRuntime .Int64 ((sampleFrame 2).args 2)).m_data)]])) :=
  ⟨by decide, header_actuals sampleRuntime (sampleFrame 2) uninit_null (by decide)⟩

/-- C9: `setcookie` and `setrawcookie` with a count from 1 to 7, on the fast
and on the slow path alike: the native function is called once with 7 actuals;
at every position below the count the actual is the supplied, coerced
argument, at every position from the count on it is the default (value, path
and domain the null string, expire 0, secure and httponly false). -/
theorem cookie_actuals (f : Fn) (R : Runtime) (ar : ActRec) (rv : TypedValue)
    (hf : f = .setcookie ∨ f = .setrawcookie) (h : 1 ≤ ar.numArgs ∧ ar.numArgs ≤ 7) :
    ∃ actuals, calls (fg f R ar rv).trace = [Event.call f actuals]
      ∧ actuals.length = 7
      ∧ ∀ i, i < 7 → actuals[i]?
          = some (if i < ar.numArgs then cookieSupplied R ar.args i else cookieDefault i) := by
  have hr : f.inRange ar.numArgs := by
    rcases hf with hf | hf <;> subst hf <;> exact h
  refine ⟨f.actuals R ar, calls_in_range f R ar rv hr, ?_, ?_⟩
  · rcases hf with hf | hf <;> subst hf <;> rfl
  · intro i hi
    obtain ⟨c, a, r⟩ := ar
    obtain ⟨h1, h2⟩ := h
    dsimp only at h1 h2
    rcases hf with hf | hf <;> subst hf <;> interval_cases c <;> interval_cases i <;>
      simp [Fn.actuals, Fn.params, cookieParams, actualsFrom, coerceFrom, req, opt,
        ParamTy.castKind, Param.present, ParamTy.actual, cookieSupplied, cookieDefault]

/-- Witness of C9: `setrawcookie` called with three integers. -/
theorem cookie_actuals_witness :
    (Fn.setrawcookie = .setcookie ∨ Fn.setrawcookie = .setrawcookie)
      ∧ (1 ≤ (sampleFrame 3).numArgs ∧ (sampleFrame 3).numArgs ≤ 7)
      ∧ ∃ actuals,
          calls (fg .setrawcookie sampleRuntime (sampleFrame 3) uninit_null).trace
            = [Event.call .setrawcookie actuals]
        ∧ actuals.length = 7
        ∧ ∀ i, i < 7 → actuals[i]?
            = some (if i < (sampleFrame 3).numArgs
                then cookieSupplied sampleRuntime (sampleFrame 3).args i
                else cookieDefault i) :=
  ⟨by decide, by decide,
    cookie_actuals .setrawcookie sampleRuntime (sampleFrame 3) uninit_null (by decide)
      (by decide)⟩

/-- C10: `dns_get_record` with a count from 1 to 4, on the fast and on the slow
path alike: an omitted type is passed as -1; an omitted authns (count at most
2) and an omitted addtl (count at most 3) are passed as the per-call locals
`defVal2` and `defVal3`, holding the uninitialized null, and not as a slot of
the caller; supplied, they are the caller's own slots 2 and 3 with their
contents untouched. -/
theorem dns_get_record_actuals (R : Runtime) (ar : ActRec) (rv : TypedValue)
    (h : 1 ≤ ar.numArgs ∧ ar.numArgs ≤ 4) :
    calls (fg .dns_get_record R ar rv).trace = [Event.call .dns_get_record
      [Arg.data 0 (coerce R .String (ar.args 0)),
       if ar.numArgs ≤ 1 then Arg.int (-1)
         else Arg.int (toInt32 (coerce R .Int64 (ar.args 1)).m_data),
       if ar.numArgs ≤ 2 then Arg.defVal 2 uninit_null else Arg.slot 2 (ar.args 2),
       if ar.numArgs ≤ 3 then Arg.defVal 3 uninit_null else Arg.slot 3 (ar.args 3)]] := by
  rw [calls_in_range .dns_get_record R ar rv h]
  obtain ⟨c, a, r⟩ := ar
  obtain ⟨h1, h2⟩ := h
  dsimp only at h1 h2
  interval_cases c <;>
    simp [Fn.actuals, Fn.params, actualsFrom, coerceFrom, req, opt, ParamTy.castKind,
      Param.present, ParamTy.actual, defVal]

/-- Witness of C10: `dns_get_record` called with three integers. -/
theorem dns_get_record_actuals_witness :
    (1 ≤ (sampleFrame 3).numArgs ∧ (sampleFrame 3).numArgs ≤ 4)
      ∧ calls (fg .dns_get_record sampleRuntime (sampleFrame 3) uninit_null).trace
        = [Event.call .dns_get_record
            [Arg.data 0 (coerce sampleRuntime .String ((sampleFrame 3).args 0)),
             if (sampleFrame 3).numArgs ≤ 1 then Arg.int (-1)
               else Arg.int (toInt32 (coerce sampleRuntime .Int64 ((sampleFrame 3).args 1)).m_data),
             if (sampleFrame 3).numArgs ≤ 2 then Arg.defVal 2 uninit_null
               else Arg.slot 2 ((sampleFrame 3).args 2),
             if (sampleFrame 3).numArgs ≤ 3 then Arg.defVal 3 uninit_null
               else Arg.slot 3 ((sampleFrame 3).args 3)]] :=
  ⟨by decide, dns_get_record_actuals sampleRuntime (sampleFrame 3) uninit_null (by decide)⟩

/-! ## The casts and the slots of an in-range run -/

/-- The casts for the parameters from position i on: slot j is cast with kind k
exactly when the parameter at j has that kind, the glue touches it and the tag
of the slot does not match. -/
theorem mem_castsFrom_iff (count : Nat) (a : Nat → TypedValue) (k : CastKind) (j : Nat) :
    ∀ (ps : List Param) (i : Nat), Event.cast k j ∈ castsFrom count a i ps ↔
      (i ≤ j ∧ ∃ p, ps[j - i]? = some p ∧ p.ty.castKind = some k
        ∧ p.present j count = true ∧ k.accepts (a j).m_type = false) := by
  intro ps
  induction ps with
  | nil => intro i; simp [castsFrom]
  | cons p ps ih =>
    intro i
    simp only [castsFrom, List.mem_append]
    rw [ih (i + 1)]
    constructor
    · rintro (⟨hle, q, hq, hk, hp, ha⟩ | hm)
      · have hji : j - i = (j - (i + 1)) + 1 := by omega
        refine ⟨by omega, q, ?_, hk, hp, ha⟩
        rw [hji]; simpa using hq
      · split at hm
        · rename_i k' hk'
          split at hm
          · rename_i hp
            split at hm
            · simp at hm
            · rename_i ha
              simp only [List.mem_singleton, Event.cast.injEq] at hm
              obtain ⟨rfl, rfl⟩ := hm
              exact ⟨le_refl _, p, by simp, hk', hp, by simpa using ha⟩
          · simp at hm
        · simp at hm
    · rintro ⟨hle, q, hq, hk, hp, ha⟩
      by_cases hij : j = i
      · subst hij
        right
        simp only [Nat.sub_self, List.getElem?_cons_zero, Option.some.injEq] at hq
        subst hq
        simp [hk, hp, ha]
      · left
        have hji : j - i = (j - (i + 1)) + 1 := by omega
        rw [hji] at hq
        exact ⟨by omega, q, by simpa using hq, hk, hp, ha⟩

theorem coerceFrom_apply (R : Runtime) (count : Nat) (j : Nat) :
    ∀ (ps : List Param) (i : Nat) (a : Nat → TypedValue),
      coerceFrom R count i ps a j =
        match (if i ≤ j then ps[j - i]? else none) with
        | some p =>
          (match p.ty.castKind with
           | some k => if p.present j count then coerce R k (a j) else a j
           | none => a j)
        | none => a j := by
  intro ps
  induction ps with
  | nil => intro i a; simp [coerceFrom]
  | cons p ps ih =>
    intro i a
    simp only [coerceFrom]
    by_cases hij : j = i
    · subst hij
      have hself : coerceFrom R count (j + 1) ps a j = a j := by
        rw [ih (j + 1) a]; simp
      simp only [le_refl, if_true, Nat.sub_self, List.getElem?_cons_zero]
      cases hk : p.ty.castKind with
      | none => simp [hself]
      | some k =>
        by_cases hp : p.present j count = true <;> simp [hp, hself]
    · have hrec := ih (i + 1) a
      have hupd : ∀ (b : Nat → TypedValue) (v : TypedValue), Function.update b i v j = b j :=
        fun b v => Function.update_noteq hij v b
      trans coerceFrom R count (i + 1) ps a j
      · cases p.ty.castKind with
        | none => rfl
        | some k => by_cases hp : p.present i count = true <;> simp [hp, hupd]
      rw [hrec]
      by_cases hle : i ≤ j
      · have hlt : i + 1 ≤ j := by omega
        have hji : j - i = (j - (i + 1)) + 1 := by omega
        simp only [hle, hlt, if_true, hji, List.getElem?_cons_succ]
      · have hlt : ¬ i + 1 ≤ j := by omega
        simp only [hle, hlt, if_false]

theorem present_iff (f : Fn) (c j : Nat) (p : Param) (h : f.inRange c)
    (hp : f.params[j]? = some p) : p.present j c = true ↔ j < c := by
  have hj : j < f.params.length := by
    by_contra hn
    rw [List.getElem?_eq_none (by omega)] at hp
    exact absurd hp (by simp)
  obtain ⟨h1, h2⟩ := h
  cases f <;> simp only [Fn.params, cookieParams, List.length_cons, List.length_nil] at hj <;>
    simp only [Fn.minArgs, Fn.maxArgs] at h1 h2 <;> interval_cases j <;>
    simp [Fn.params, cookieParams, req, opt] at hp <;> subst hp <;>
    simp [Param.present] <;> omega


theorem typedAt_eq_some (f : Fn) (j : Nat) (k : CastKind) :
    f.typedAt j = some k ↔ ∃ p, f.params[j]? = some p ∧ p.ty.castKind = some k := by
  unfold Fn.typedAt
  cases f.params[j]? <;> simp

/-- The casts of an in-range run: slot j is cast with kind k exactly when
parameter j has that kind, argument j is supplied and its tag does not
match. -/
theorem mem_casts_iff (f : Fn) (ar : ActRec) (h : f.inRange ar.numArgs) (k : CastKind)
    (j : Nat) :
    Event.cast k j ∈ f.casts ar ↔
      (f.typedAt j = some k ∧ j < ar.numArgs ∧ k.accepts (ar.args j).m_type = false) := by
  unfold Fn.casts
  rw [mem_castsFrom_iff, typedAt_eq_some]
  simp only [Nat.zero_le, true_and, Nat.sub_zero]
  constructor
  · rintro ⟨p, hp, hk, hpres, ha⟩
    exact ⟨⟨p, hp, hk⟩, (present_iff f _ j p h hp).mp hpres, ha⟩
  · rintro ⟨⟨p, hp, hk⟩, hj, ha⟩
    exact ⟨p, hp, hk, (present_iff f _ j p h hp).mpr hj, ha⟩

/-- The slots after an in-range run: slot j holds the coerced argument when
parameter j has a cast kind and argument j is supplied, and is untouched
otherwise. -/
theorem args_in_range (f : Fn) (R : Runtime) (ar : ActRec) (rv : TypedValue)
    (h : f.inRange ar.numArgs) (j : Nat) :
    (fg f R ar rv).args j =
      match f.typedAt j with
      | some k => if j < ar.numArgs then coerce R k (ar.args j) else ar.args j
      | none => ar.args j := by
  rw [fg_eq_glue, glue_in f R ar h]
  show coerceFrom R ar.numArgs 0 f.params ar.args j = _
  rw [coerceFrom_apply]
  simp only [Nat.zero_le, if_true, Nat.sub_zero, Fn.typedAt]
  cases hp : f.params[j]? with
  | none => rfl
  | some p =>
    simp only [Option.bind]
    cases hk : p.ty.castKind with
    | none => rfl
    | some k =>
      by_cases hj : j < ar.numArgs
      · simp [hj, (present_iff f _ j p h hp).mpr hj]
      · have : ¬ p.present j ar.numArgs = true := fun hpres =>
          hj ((present_iff f _ j p h hp).mp hpres)
        simp [hj, this]

theorem casts_eq_nil_iff (f : Fn) (ar : ActRec) (h : f.inRange ar.numArgs) :
    f.casts ar = [] ↔
      ∀ i k, i < ar.numArgs → f.typedAt i = some k → k.accepts (ar.args i).m_type = true := by
  constructor
  · intro hnil i k hi hk
    by_contra hacc
    have : Event.cast k i ∈ f.casts ar :=
      (mem_casts_iff f ar h k i).mpr ⟨hk, hi, by simpa using hacc⟩
    rw [hnil] at this
    exact absurd this (by simp)
  · intro hall
    rw [List.eq_nil_iff_forall_not_mem]
    intro e he
    have hc := isCast_of_mem_castsFrom _ _ _ _ e he
    cases e with
    | cast k j =>
      obtain ⟨hk, hj, ha⟩ := (mem_casts_iff f ar h k j).mp he
      rw [hall j k hj hk] at ha
      exact absurd ha (by simp)
    | _ => simp [Event.isCast] at hc

theorem slow_in_range (f : Fn) (R : Runtime) (ar : ActRec) (rv : TypedValue)
    (h : f.inRange ar.numArgs) : (fg f R ar rv).slow = !(f.casts ar).isEmpty := by
  rw [fg_eq_glue, glue_in f R ar h]

theorem coerce_of_accepts (R : Runtime) (k : CastKind) (v : TypedValue)
    (h : k.accepts v.m_type = true) : coerce R k v = v := by
  cases k <;> simp_all [coerce, CastKind.accepts]

theorem trace_in_range (f : Fn) (R : Runtime) (ar : ActRec) (rv : TypedValue)
    (h : f.inRange ar.numArgs) :
    (fg f R ar rv).trace = f.casts ar ++ [Event.call f (f.actuals R ar),
      Event.free_locals f.maxArgs, Event.store (f.result R ar)] := by
  rw [fg_eq_glue, glue_in f R ar h]

theorem mem_cast_trace_iff (f : Fn) (R : Runtime) (ar : ActRec) (rv : TypedValue)
    (h : f.inRange ar.numArgs) (k : CastKind) (j : Nat) :
    Event.cast k j ∈ (fg f R ar rv).trace ↔ Event.cast k j ∈ f.casts ar := by
  rw [trace_in_range f R ar rv h]
  simp

theorem castsOf_in_range (f : Fn) (R : Runtime) (ar : ActRec) (rv : TypedValue)
    (h : f.inRange ar.numArgs) : castsOf (fg f R ar rv).trace = f.casts ar := by
  rw [trace_in_range f R ar rv h]
  unfold castsOf
  have hc : List.filter Event.isCast (f.casts ar) = f.casts ar :=
    List.filter_eq_self.mpr (fun e he => isCast_of_mem_castsFrom _ _ _ _ e he)
  rw [List.filter_append, hc]
  simp [Event.isCast]

/-- The fast path is taken exactly when every supplied typed argument has the
expected tag. -/
theorem slow_eq_false_iff (f : Fn) (R : Runtime) (ar : ActRec) (rv : TypedValue)
    (h : f.inRange ar.numArgs) :
    (fg f R ar rv).slow = false ↔
      ∀ i k, i < ar.numArgs → f.typedAt i = some k →
        k.accepts (ar.args i).m_type = true := by
  rw [slow_in_range f R ar rv h, ← casts_eq_nil_iff f ar h]
  cases f.casts ar <;> simp

theorem toInt32_of_int32 (x : Int) (h : -2 ^ 31 ≤ x ∧ x < 2 ^ 31) : toInt32 x = x := by
  unfold toInt32
  norm_num at h ⊢
  omega

theorem gentleRuntime_fix : gentleRuntime.castsFixTarget := by
  intro k v hv
  cases k <;> simp_all [gentleRuntime, Runtime.cast, CastKind.accepts]

set_option maxHeartbeats 4000000 in
/-- A cold helper run on an in-range frame whose supplied typed arguments all
have the expected tag, with casts that fix such slots: it makes the call of the
closed form, leaves the result of the closed form in `rv` and leaves the
supplied slots as they were. -/
theorem fg1_on_matching (f : Fn) (g : Runtime → Nat → Machine → Machine) (R : Runtime)
    (ar : ActRec) (rv : TypedValue) (hg : fg1 f = some g) (hR : R.castsFixTarget)
    (h : f.inRange ar.numArgs) (hc : f.casts ar = []) :
    calls (g R ar.numArgs (Machine.enter ar rv)).trace = [Event.call f (f.actuals R ar)]
      ∧ (g R ar.numArgs (Machine.enter ar rv)).rv = f.result R ar
      ∧ (∀ i, i < ar.numArgs → (g R ar.numArgs (Machine.enter ar rv)).args i = ar.args i) := by
  have hS : ∀ v, IS_STRING_TYPE v.m_type = true → R.castString v = v :=
    fun v hv => hR .String v hv
  have hI : ∀ v, v.m_type = KindOfInt64 → R.castInt64 v = v :=
    fun v hv => hR .Int64 v (by simpa [CastKind.accepts] using hv)
  have hB : ∀ v, v.m_type = KindOfBoolean → R.castBoolean v = v :=
    fun v hv => hR .Boolean v (by simpa [CastKind.accepts] using hv)
  have hO : ∀ v, v.m_type = KindOfObject → R.castObject v = v :=
    fun v hv => hR .Object v (by simpa [CastKind.accepts] using hv)
  obtain ⟨c, a, r⟩ := ar
  cases f <;> simp only [fg1, Option.some.injEq] at hg <;> try (exact absurd hg (by simp))
  all_goals
    subst hg
    simp only [Fn.inRange, Fn.minArgs, Fn.maxArgs] at h
    obtain ⟨h1, h2⟩ := h
    dsimp only at h1 h2 ⊢
    interval_cases c
  all_goals
    simp [Fn.casts, castsFrom, Fn.params, cookieParams, req, opt, ParamTy.castKind,
      Param.present, CastKind.accepts] at hc
  all_goals
    first
    | unfold fg1_gethostbyaddr | unfold fg1_gethostbyname | unfold fg1_gethostbynamel
    | unfold fg1_getprotobyname | unfold fg1_getprotobynumber | unfold fg1_getservbyname
    | unfold fg1_getservbyport | unfold fg1_inet_ntop | unfold fg1_inet_pton
    | unfold fg1_ip2long | unfold fg1_long2ip | unfold fg1_dns_check_record
    | unfold fg1_checkdnsrr | unfold fg1_dns_get_record | unfold fg1_dns_get_mx
    | unfold fg1_getmxrr | unfold fg1_socket_get_status | unfold fg1_socket_set_blocking
    | unfold fg1_socket_set_timeout | unfold fg1_header | unfold fg1_http_response_code
    | unfold fg1_header_remove | unfold fg1_setcookie | unfold fg1_setrawcookie
    | unfold fg1_openlog | unfold fg1_syslog
  all_goals
    refine ⟨?_, ?_, fun i hi => ?_⟩
  all_goals
    try interval_cases i
  all_goals
    simp [Fn.inRange, Fn.minArgs, Fn.maxArgs, Fn.params, cookieParams, coerceFrom,
      actualsFrom, wrap, Fn.ret, req, opt, ParamTy.castKind, Param.present,
      ParamTy.actual, Fn.actuals, Fn.result, coerce, hc, hS, hI, hB, hO, calls, Event.isCall]

/-! ## The claims, continued -/

/-- C11: `http_response_code` and `header_remove`, the functions of least
count 0 with a coercible parameter: a call with 0 arguments takes the fast
path, casts nothing and calls the native function with the default (0, the
null string); a call with 1 argument passes the supplied argument, coerced to
int or to string when its tag does not match. -/
theorem min_zero_coercible_default (R : Runtime) (a : Nat → TypedValue) (r rv : TypedValue) :
    ((fg .http_response_code R ⟨0, a, r⟩ rv).slow = false
        ∧ castsOf (fg .http_response_code R ⟨0, a, r⟩ rv).trace = []
        ∧ calls (fg .http_response_code R ⟨0, a, r⟩ rv).trace
            = [Event.call .http_response_code [Arg.int 0]])
      ∧ ((fg .header_remove R ⟨0, a, r⟩ rv).slow = false
        ∧ castsOf (fg .header_remove R ⟨0, a, r⟩ rv).trace = []
        ∧ calls (fg .header_remove R ⟨0, a, r⟩ rv).trace
            = [Event.call .header_remove [Arg.null_string]])
      ∧ calls (fg .http_response_code R ⟨1, a, r⟩ rv).trace
          = [Event.call .http_response_code [Arg.int (toInt32 (coerce R .Int64 (a 0)).m_data)]]
      ∧ calls (fg .header_remove R ⟨1, a, r⟩ rv).trace
          = [Event.call .header_remove [Arg.data 0 (coerce R .String (a 0))]] := by
  have h0 : ∀ f : Fn, f = .http_response_code ∨ f = .header_remove →
      f.inRange (ActRec.mk 0 a r).numArgs := by
    rintro f (rfl | rfl) <;> simp [Fn.inRange, Fn.minArgs, Fn.maxArgs]
  have h1 : ∀ f : Fn, f = .http_response_code ∨ f = .header_remove →
      f.inRange (ActRec.mk 1 a r).numArgs := by
    rintro f (rfl | rfl) <;> simp [Fn.inRange, Fn.minArgs, Fn.maxArgs]
  rw [slow_in_range _ _ _ _ (h0 _ (Or.inl rfl)), slow_in_range _ _ _ _ (h0 _ (Or.inr rfl)),
    castsOf_in_range _ _ _ _ (h0 _ (Or.inl rfl)), castsOf_in_range _ _ _ _ (h0 _ (Or.inr rfl)),
    calls_in_range _ _ _ _ (h0 _ (Or.inl rfl)), calls_in_range _ _ _ _ (h0 _ (Or.inr rfl)),
    calls_in_range _ _ _ _ (h1 _ (Or.inl rfl)), calls_in_range _ _ _ _ (h1 _ (Or.inr rfl))]
  simp [Fn.casts, Fn.actuals, Fn.params, actualsFrom, coerceFrom, castsFrom,
    req, opt, ParamTy.castKind, Param.present, ParamTy.actual]

/-- C12: for every bound function whose native return type is `bool` and
every in-range call, on the fast and on the slow path alike, the value written
to the return slot is tagged `KindOfBoolean` with payload 1 when the native
function returned true and 0 when it returned false. -/
theorem bool_result_wrapped (f : Fn) (R : Runtime) (ar : ActRec) (rv : TypedValue)
    (hf : f ∈ boolFns) (h : f.inRange ar.numArgs) :
    ∃ actuals, calls (fg f R ar rv).trace = [Event.call f actuals]
      ∧ (R.fh_bool f actuals = true → (fg f R ar rv).m_r = ⟨1, KindOfBoolean⟩)
      ∧ (R.fh_bool f actuals = false → (fg f R ar rv).m_r = ⟨0, KindOfBoolean⟩) := by
  refine ⟨f.actuals R ar, calls_in_range f R ar rv h, ?_⟩
  rw [m_r_in_range f R ar rv h]
  have hret : f.ret = .bool := by
    simp only [boolFns, List.mem_cons, List.mem_singleton, List.not_mem_nil, or_false] at hf
    rcases hf with h | h | h | h | h | h | h | h | h | h | h | h | h <;> subst h <;> rfl
  unfold Fn.result
  rw [hret]
  constructor <;> intro hu <;> simp [wrap, hu]

/-- Witness of C12: `syslog` called with two integers. -/
theorem bool_result_wrapped_witness :
    Fn.syslog ∈ boolFns ∧ Fn.syslog.inRange (sampleFrame 2).numArgs
      ∧ ∃ actuals, calls (fg .syslog sampleRuntime (sampleFrame 2) uninit_null).trace
            = [Event.call .syslog actuals]
        ∧ (sampleRuntime.fh_bool .syslog actuals = true →
            (fg .syslog sampleRuntime (sampleFrame 2) uninit_null).m_r = ⟨1, KindOfBoolean⟩)
        ∧ (sampleRuntime.fh_bool .syslog actuals = false →
            (fg .syslog sampleRuntime (sampleFrame 2) uninit_null).m_r = ⟨0, KindOfBoolean⟩) :=
  ⟨by decide, by decide,
    bool_result_wrapped .syslog sampleRuntime (sampleFrame 2) uninit_null (by decide)
      (by decide)⟩

/-- C14: for every bound function and every in-range call, the fast path is
taken (the cold helper is not entered) if and only if every supplied argument
bound to a `String`, `int`, `long`, `bool` or `Object` parameter already has
the expected tag, either string kind counting for `String`; the choice is the
same for any two frames of the same count whose supplied typed arguments have
the same tags, so omitted arguments and arguments bound to by-reference or
`Variant` parameters do not influence it; and on the fast path no cast is
applied and no slot changes. For a function without a cold helper the fast
path is the only one. -/
theorem fast_path_iff_tags_match (f : Fn) (R : Runtime) (ar : ActRec) (rv : TypedValue)
    (h : f.inRange ar.numArgs) :
    ((fg f R ar rv).slow = false ↔
        ∀ i k, i < ar.numArgs → f.typedAt i = some k →
          k.accepts (ar.args i).m_type = true)
      ∧ (∀ (ar' : ActRec) (rv' : TypedValue), ar'.numArgs = ar.numArgs →
          (∀ i k, i < ar.numArgs → f.typedAt i = some k →
            (ar'.args i).m_type = (ar.args i).m_type) →
          (fg f R ar' rv').slow = (fg f R ar rv).slow)
      ∧ ((fg f R ar rv).slow = false →
          castsOf (fg f R ar rv).trace = [] ∧ (fg f R ar rv).args = ar.args) := by
  refine ⟨slow_eq_false_iff f R ar rv h, ?_, ?_⟩
  · intro ar' rv' hn htags
    have h' : f.inRange ar'.numArgs := by rw [hn]; exact h
    have e : ((fg f R ar' rv').slow = false ↔ (fg f R ar rv).slow = false) := by
      rw [slow_eq_false_iff f R ar rv h, slow_eq_false_iff f R ar' rv' h', hn]
      constructor
      · intro H i k hi hk; rw [← htags i k hi hk]; exact H i k hi hk
      · intro H i k hi hk; rw [htags i k hi hk]; exact H i k hi hk
    cases h1 : (fg f R ar' rv').slow <;> cases h2 : (fg f R ar rv).slow <;> simp_all
  · intro hs
    have hall := (slow_eq_false_iff f R ar rv h).mp hs
    have hnil := (casts_eq_nil_iff f ar h).mpr hall
    refine ⟨by rw [castsOf_in_range f R ar rv h, hnil], ?_⟩
    funext j
    rw [args_in_range f R ar rv h j]
    cases hk : f.typedAt j with
    | none => rfl
    | some k =>
      by_cases hj : j < ar.numArgs
      · simp only [hj, if_true]
        exact coerce_of_accepts R k _ (hall j k hj hk)
      · simp [hj]

/-- Witness of C14: `header` called with two integers. -/
theorem fast_path_iff_tags_match_witness :
    Fn.header.inRange (sampleFrame 2).numArgs
      ∧ (((fg .header sampleRuntime (sampleFrame 2) uninit_null).slow = false ↔
          ∀ i k, i < (sampleFrame 2).numArgs → Fn.header.typedAt i = some k →
            k.accepts ((sampleFrame 2).args i).m_type = true)
        ∧ (∀ (ar' : ActRec) (rv' : TypedValue), ar'.numArgs = (sampleFrame 2).numArgs →
            (∀ i k, i < (sampleFrame 2).numArgs → Fn.header.typedAt i = some k →
              (ar'.args i).m_type = ((sampleFrame 2).args i).m_type) →
            (fg .header sampleRuntime ar' rv').slow
              = (fg .header sampleRuntime (sampleFrame 2) uninit_null).slow)
        ∧ ((fg .header sampleRuntime (sampleFrame 2) uninit_null).slow = false →
            castsOf (fg .header sampleRuntime (sampleFrame 2) uninit_null).trace = []
              ∧ (fg .header sampleRuntime (sampleFrame 2) uninit_null).args
                  = (sampleFrame 2).args)) :=
  ⟨by decide,
    fast_path_iff_tags_match .header sampleRuntime (sampleFrame 2) uninit_null (by decide)⟩

/-- C15: the split changes nothing that can be observed: for every bound
function with a cold helper `fg1_X` and every in-range frame whose supplied
typed arguments all have the expected tag, if every in-place cast is the
identity on a slot that already has its target tag, then `fg_X` takes the fast
path, and `fg1_X` run on the same frame makes the same native calls with the
same actuals, leaves in `rv` the value `fg_X` writes to the return slot, and
leaves every supplied slot as `fg_X` does. -/
theorem cold_helper_agrees_with_fast_path (f : Fn) (g : Runtime → Nat → Machine → Machine)
    (R : Runtime) (ar : ActRec) (rv : TypedValue) (hg : fg1 f = some g)
    (hR : R.castsFixTarget) (h : f.inRange ar.numArgs)
    (hm : ∀ i k, i < ar.numArgs → f.typedAt i = some k →
      k.accepts (ar.args i).m_type = true) :
    (fg f R ar rv).slow = false
      ∧ calls (g R ar.numArgs (Machine.enter ar rv)).trace = calls (fg f R ar rv).trace
      ∧ (g R ar.numArgs (Machine.enter ar rv)).rv = (fg f R ar rv).m_r
      ∧ (∀ i, i < ar.numArgs →
          (g R ar.numArgs (Machine.enter ar rv)).args i = (fg f R ar rv).args i) := by
  have hs := (slow_eq_false_iff f R ar rv h).mpr hm
  have hnil := (casts_eq_nil_iff f ar h).mpr hm
  obtain ⟨hc, hrv, hargs⟩ := fg1_on_matching f g R ar rv hg hR h hnil
  refine ⟨hs, ?_, ?_, ?_⟩
  · rw [hc, calls_in_range f R ar rv h]
  · rw [hrv, m_r_in_range f R ar rv h]
  · intro i hi
    rw [hargs i hi, args_in_range f R ar rv h i]
    cases hk : f.typedAt i with
    | none => rfl
    | some k =>
      simp only [hi, if_true]
      exact (coerce_of_accepts R k _ (hm i k hi hk)).symm

/-- Witness of C15: `header` called with one string. -/
theorem cold_helper_agrees_with_fast_path_witness :
    fg1 .header = some fg1_header ∧ gentleRuntime.castsFixTarget
      ∧ Fn.header.inRange (stringFrame 1).numArgs
      ∧ (∀ i k, i < (stringFrame 1).numArgs → Fn.header.typedAt i = some k →
          k.accepts ((stringFrame 1).args i).m_type = true)
      ∧ ((fg .header gentleRuntime (stringFrame 1) uninit_null).slow = false
        ∧ calls (fg1_header gentleRuntime (stringFrame 1).numArgs
              (Machine.enter (stringFrame 1) uninit_null)).trace
            = calls (fg .header gentleRuntime (stringFrame 1) uninit_null).trace
        ∧ (fg1_header gentleRuntime (stringFrame 1).numArgs
              (Machine.enter (stringFrame 1) uninit_null)).rv
            = (fg .header gentleRuntime (stringFrame 1) uninit_null).m_r
        ∧ (∀ i, i < (stringFrame 1).numArgs →
            (fg1_header gentleRuntime (stringFrame 1).numArgs
                (Machine.enter (stringFrame 1) uninit_null)).args i
              = (fg .header gentleRuntime (stringFrame 1) uninit_null).args i)) :=
  have hm : ∀ i k, i < (stringFrame 1).numArgs → Fn.header.typedAt i = some k →
      k.accepts ((stringFrame 1).args i).m_type = true := by
    intro i k hi hk
    have hi0 : i = 0 := by
      simp only [stringFrame] at hi
      omega
    subst hi0
    simp [Fn.typedAt, Fn.params, req, ParamTy.castKind] at hk
    subst hk
    rfl
  ⟨rfl, gentleRuntime_fix, by decide, hm,
    cold_helper_agrees_with_fast_path .header fg1_header gentleRuntime (stringFrame 1)
      uninit_null rfl gentleRuntime_fix (by decide) hm⟩

/-- C16: the kind of the arity signal is fixed by the least count of the
function: the eight functions of least count 0 raise
`throw_toomany_arguments_nr`, and nothing else, on every out-of-range count;
every other function has least count 1 or more and raises
`throw_wrong_arguments_nr`, and nothing else, on every out-of-range count,
below the least as well as above the greatest. -/
theorem arity_kind_by_min (f : Fn) (R : Runtime) (ar : ActRec) (rv : TypedValue)
    (h : ¬ f.inRange ar.numArgs) :
    (f ∈ minZeroFns ↔ f.minArgs = 0)
      ∧ (f ∈ minZeroFns →
          signals (fg f R ar rv).trace = [Event.toomany f.name f.maxArgs 1])
      ∧ (f ∉ minZeroFns →
          signals (fg f R ar rv).trace
            = [Event.wrong f.name ar.numArgs f.minArgs f.maxArgs 1]) := by
  have hm : f ∈ minZeroFns ↔ f.minArgs = 0 := by cases f <;> decide
  refine ⟨hm, ?_, ?_⟩ <;> intro hf
  · rw [fg_eq_glue, glue_out f R ar h]
    simp [signals, arityEvent, hm.mp hf, Event.isArity]
  · rw [fg_eq_glue, glue_out f R ar h]
    have : ¬ f.minArgs = 0 := fun h0 => hf (hm.mpr h0)
    simp [signals, arityEvent, this, Event.isArity]

/-- Witness of C16: `openlog` called with 2 arguments, below its least count. -/
theorem arity_kind_by_min_witness :
    ¬ Fn.openlog.inRange (sampleFrame 2).numArgs
      ∧ ((Fn.openlog ∈ minZeroFns ↔ Fn.openlog.minArgs = 0)
        ∧ (Fn.openlog ∈ minZeroFns →
            signals (fg .openlog sampleRuntime (sampleFrame 2) uninit_null).trace
              = [Event.toomany Fn.openlog.name Fn.openlog.maxArgs 1])
        ∧ (Fn.openlog ∉ minZeroFns →
            signals (fg .openlog sampleRuntime (sampleFrame 2) uninit_null).trace
              = [Event.wrong Fn.openlog.name (sampleFrame 2).numArgs Fn.openlog.minArgs
                  Fn.openlog.maxArgs 1])) :=
  ⟨by decide, arity_kind_by_min .openlog sampleRuntime (sampleFrame 2) uninit_null (by decide)⟩

/-- C17: for `gethostbyname` and `long2ip` (native return type `String`) and
`headers_list` (`Array`) and every in-range call: the value written to the
return slot is tagged `KindOfString` (resp. `KindOfArray`) with the payload of
the native function when that payload is not 0, and is tagged `KindOfNull`
when the payload is 0; it is never tagged `KindOfUninit`. -/
theorem value_result_wrapped (f : Fn) (t : DataType) (R : Runtime) (ar : ActRec)
    (rv : TypedValue) (hf : valueTag f = some t) (h : f.inRange ar.numArgs) :
    ∃ actuals, calls (fg f R ar rv).trace = [Event.call f actuals]
      ∧ (R.fh_value f actuals ≠ 0 → (fg f R ar rv).m_r = ⟨R.fh_value f actuals, t⟩)
      ∧ (R.fh_value f actuals = 0 → (fg f R ar rv).m_r.m_type = KindOfNull)
      ∧ (fg f R ar rv).m_r.m_type ≠ KindOfUninit := by
  refine ⟨f.actuals R ar, calls_in_range f R ar rv h, ?_⟩
  rw [m_r_in_range f R ar rv h]
  unfold Fn.result
  cases f <;> simp only [valueTag, Option.some.injEq] at hf <;> try (exact absurd hf (by simp))
  all_goals
    subst hf
    simp only [Fn.ret, wrap]
    refine ⟨?_, ?_, ?_⟩
    · intro hu; simp [hu]
    · intro hu; simp [hu]
    · split <;> simp

/-- Witness of C17: `long2ip` called with one integer, the native function
handing back a null pointer. -/
theorem value_result_wrapped_witness :
    valueTag .long2ip = some KindOfString ∧ Fn.long2ip.inRange (sampleFrame 1).numArgs
      ∧ ∃ actuals, calls (fg .long2ip sampleRuntime (sampleFrame 1) uninit_null).trace
            = [Event.call .long2ip actuals]
        ∧ (sampleRuntime.fh_value .long2ip actuals ≠ 0 →
            (fg .long2ip sampleRuntime (sampleFrame 1) uninit_null).m_r
              = ⟨sampleRuntime.fh_value .long2ip actuals, KindOfString⟩)
        ∧ (sampleRuntime.fh_value .long2ip actuals = 0 →
            (fg .long2ip sampleRuntime (sampleFrame 1) uninit_null).m_r.m_type = KindOfNull)
        ∧ (fg .long2ip sampleRuntime (sampleFrame 1) uninit_null).m_r.m_type ≠ KindOfUninit :=
  ⟨rfl, by decide,
    value_result_wrapped .long2ip KindOfString sampleRuntime (sampleFrame 1) uninit_null rfl
      (by decide)⟩

/-- C18, as stated, fails on the slow path: `header` called with two integers
coerces slots 1 and 0 before the native call and leaves slot 0 a string, while
the arity-error call with the same slots and four arguments coerces nothing and
leaves slot 0 as it was; the two calls differ in more than whether the native
function ran and an error was raised. -/
theorem header_slow_call_also_coerces :
    Fn.header.inRange (sampleFrame 2).numArgs ∧ ¬ Fn.header.inRange (sampleFrame 4).numArgs
    ∧ (sampleFrame 2).args = (sampleFrame 4).args
    ∧ castsOf (fg .header sampleRuntime (sampleFrame 2) uninit_null).trace
        = [Event.cast .Boolean 1, Event.cast .String 0]
    ∧ (fg .header sampleRuntime (sampleFrame 2) uninit_null).args 0 = ⟨5, KindOfString⟩
    ∧ castsOf (fg .header sampleRuntime (sampleFrame 4) uninit_null).trace = []
    ∧ (fg .header sampleRuntime (sampleFrame 4) uninit_null).args 0 = ⟨5, KindOfInt64⟩ := by
  rw [fg_eq_glue, fg_eq_glue]
  refine ⟨by decide, by decide, rfl, by decide, by decide, by decide, by decide⟩

/-- C18, amended: for `header`, `header_remove` and `define_syslog_variables`
(native return type `void`) an in-range call and an arity-error call both write
the null tagged value to the return slot. The in-range run is its coercions, the
native call, the release and the store; it coerces exactly the supplied
mismatching arguments, in place. The arity-error run is the signal, the same
release and the same store, and leaves every slot as it was. On the fast path
the in-range run has no coercion and changes no slot, so the two runs differ only
in the native call against the signal; on the slow path the in-range run has
coerced at least one argument as well. -/
theorem void_result_null (f : Fn) (R : Runtime) (ar ar' : ActRec) (rv rv' : TypedValue)
    (hf : f ∈ voidFns) (h : f.inRange ar.numArgs) (h' : ¬ f.inRange ar'.numArgs) :
    (fg f R ar rv).m_r = ⟨0, KindOfNull⟩
    ∧ (fg f R ar' rv').m_r = ⟨0, KindOfNull⟩
    ∧ (fg f R ar rv).trace
        = castsOf (fg f R ar rv).trace
            ++ [Event.call f (f.actuals R ar), Event.free_locals f.maxArgs,
                Event.store ⟨0, KindOfNull⟩]
    ∧ (∀ k i, Event.cast k i ∈ castsOf (fg f R ar rv).trace ↔
        f.typedAt i = some k ∧ i < ar.numArgs ∧ k.accepts (ar.args i).m_type = false)
    ∧ (∀ i, (fg f R ar rv).args i =
        match f.typedAt i with
        | some k => if i < ar.numArgs then coerce R k (ar.args i) else ar.args i
        | none => ar.args i)
    ∧ (fg f R ar' rv').trace
        = [arityEvent f ar'.numArgs, Event.free_locals f.maxArgs, Event.store ⟨0, KindOfNull⟩]
    ∧ (arityEvent f ar'.numArgs).isArity = true
    ∧ (fg f R ar' rv').args = ar'.args
    ∧ ((fg f R ar rv).slow = false →
        (fg f R ar rv).trace
            = [Event.call f (f.actuals R ar), Event.free_locals f.maxArgs,
                Event.store ⟨0, KindOfNull⟩]
          ∧ ∀ i, (fg f R ar rv).args i = ar.args i)
    ∧ ((fg f R ar rv).slow = true → castsOf (fg f R ar rv).trace ≠ []) := by
  have hret : f.ret = .void := by
    simp only [voidFns, List.mem_cons, List.mem_singleton, List.not_mem_nil, or_false] at hf
    rcases hf with h | h | h <;> subst h <;> rfl
  have hres : f.result R ar = ⟨0, KindOfNull⟩ := by
    unfold Fn.result; rw [hret]; rfl
  have hout := fg_out_of_range f R ar' rv' h'
  refine ⟨?_, ?_, ?_, ?_, args_in_range f R ar rv h, ?_, isArity_arityEvent _ _, ?_, ?_, ?_⟩
  · rw [m_r_in_range f R ar rv h, hres]
  · rw [hout]; rfl
  · rw [castsOf_in_range f R ar rv h, trace_in_range f R ar rv h, hres]
  · intro k i
    rw [castsOf_in_range f R ar rv h]
    exact mem_casts_iff f ar h k i
  · rw [hout]; rfl
  · rw [hout]
  · intro hs
    have hnil : f.casts ar = [] := by
      rw [slow_in_range f R ar rv h] at hs
      simpa using hs
    refine ⟨by rw [trace_in_range f R ar rv h, hnil, hres]; rfl, ?_⟩
    intro i
    rw [args_in_range f R ar rv h i]
    cases hk : f.typedAt i with
    | none => rfl
    | some k =>
      by_cases hi : i < ar.numArgs
      · simp only [hi, if_true]
        exact coerce_of_accepts R k _ ((casts_eq_nil_iff f ar h).mp hnil i k hi hk)
      · simp [hi]
  · intro hs
    rw [castsOf_in_range f R ar rv h]
    rw [slow_in_range f R ar rv h] at hs
    intro hnil
    rw [hnil] at hs
    simp at hs

/-- Witness of C18: `header` called with 2 arguments and with 4. -/
theorem void_result_null_witness :
    Fn.header ∈ voidFns ∧ Fn.header.inRange (sampleFrame 2).numArgs
    ∧ ¬ Fn.header.inRange (sampleFrame 4).numArgs
    ∧ ((fg .header sampleRuntime (sampleFrame 2) uninit_null).m_r = ⟨0, KindOfNull⟩
      ∧ (fg .header sampleRuntime (sampleFrame 4) uninit_null).m_r = ⟨0, KindOfNull⟩
      ∧ (fg .header sampleRuntime (sampleFrame 2) uninit_null).trace
          = castsOf (fg .header sampleRuntime (sampleFrame 2) uninit_null).trace
              ++ [Event.call .header (Fn.header.actuals sampleRuntime (sampleFrame 2)),
                  Event.free_locals Fn.header.maxArgs, Event.store ⟨0, KindOfNull⟩]
      ∧ (∀ k i, Event.cast k i ∈
            castsOf (fg .header sampleRuntime (sampleFrame 2) uninit_null).trace ↔
          Fn.header.typedAt i = some k ∧ i < (sampleFrame 2).numArgs
            ∧ k.accepts ((sampleFrame 2).args i).m_type = false)
      ∧ (∀ i, (fg .header sampleRuntime (sampleFrame 2) uninit_null).args i =
          match Fn.header.typedAt i with
          | some k =>
            if i < (sampleFrame 2).numArgs then coerce sampleRuntime k ((sampleFrame 2).args i)
            else (sampleFrame 2).args i
          | none => (sampleFrame 2).args i)
      ∧ (fg .header sampleRuntime (sampleFrame 4) uninit_null).trace
          = [arityEvent .header (sampleFrame 4).numArgs, Event.free_locals Fn.header.maxArgs,
              Event.store ⟨0, KindOfNull⟩]
      ∧ (arityEvent .header (sampleFrame 4).numArgs).isArity = true
      ∧ (fg .header sampleRuntime (sampleFrame 4) uninit_null).args = (sampleFrame 4).args
      ∧ ((fg .header sampleRuntime (sampleFrame 2) uninit_null).slow = false →
          (fg .header sampleRuntime (sampleFrame 2) uninit_null).trace
              = [Event.call .header (Fn.header.actuals sampleRuntime (sampleFrame 2)),
                  Event.free_locals Fn.header.maxArgs, Event.store ⟨0, KindOfNull⟩]
            ∧ ∀ i, (fg .header sampleRuntime (sampleFrame 2) uninit_null).args i
                = (sampleFrame 2).args i)
      ∧ ((fg .header sampleRuntime (sampleFrame 2) uninit_null).slow = true →
          castsOf (fg .header sampleRuntime (sampleFrame 2) uninit_null).trace ≠ [])) :=
  ⟨by decide, by decide, by decide,
    void_result_null .header sampleRuntime (sampleFrame 2) (sampleFrame 4) uninit_null
      uninit_null (by decide) (by decide) (by decide)⟩

/-- C19: `get_http_request_size` called with 0 arguments writes to the return
slot a value tagged `KindOfInt64` whose payload is the `int` result of the
native function sign-extended to 64 bits: the result itself when it is a
32-bit signed integer, negative results included. -/
theorem request_size_sign_extended (R : Runtime) (ar : ActRec) (rv : TypedValue)
    (h : ar.numArgs = 0) :
    (fg .get_http_request_size R ar rv).m_r.m_type = KindOfInt64
      ∧ (fg .get_http_request_size R ar rv).m_r.m_data
          = toInt32 (R.fh_int .get_http_request_size [])
      ∧ (-2 ^ 31 ≤ R.fh_int .get_http_request_size []
            ∧ R.fh_int .get_http_request_size [] < 2 ^ 31 →
          (fg .get_http_request_size R ar rv).m_r.m_data
            = R.fh_int .get_http_request_size [])
      ∧ calls (fg .get_http_request_size R ar rv).trace
          = [Event.call .get_http_request_size []] := by
  have hr : Fn.get_http_request_size.inRange ar.numArgs := by rw [h]; decide
  rw [m_r_in_range _ R ar rv hr, calls_in_range _ R ar rv hr]
  refine ⟨rfl, rfl, ?_, rfl⟩
  intro hb
  exact toInt32_of_int32 _ hb

/-- Witness of C19: the native function returning -1. -/
theorem request_size_sign_extended_witness :
    (sampleFrame 0).numArgs = 0
      ∧ ((fg .get_http_request_size sampleRuntime (sampleFrame 0) uninit_null).m_r.m_type
          = KindOfInt64
        ∧ (fg .get_http_request_size sampleRuntime (sampleFrame 0) uninit_null).m_r.m_data
            = toInt32 (sampleRuntime.fh_int .get_http_request_size [])
        ∧ (-2 ^ 31 ≤ sampleRuntime.fh_int .get_http_request_size []
              ∧ sampleRuntime.fh_int .get_http_request_size [] < 2 ^ 31 →
            (fg .get_http_request_size sampleRuntime (sampleFrame 0) uninit_null).m_r.m_data
              = sampleRuntime.fh_int .get_http_request_size [])
        ∧ calls (fg .get_http_request_size sampleRuntime (sampleFrame 0) uninit_null).trace
            = [Event.call .get_http_request_size []]) :=
  ⟨rfl, request_size_sign_extended sampleRuntime (sampleFrame 0) uninit_null rfl⟩

/-- C20: for every bound function and every call, on the fast path, the slow
path and the arity-error path alike: the run ends with the release of the
locals, with the greatest count of the function as the number of locals
whatever the supplied count, followed by the store of the result into the
return slot; nothing before the release is a release or a store, so the locals
are released exactly once, after the native call when there is one; and the
entry point returns the return slot of the activation record. -/
theorem locals_released_once (f : Fn) (R : Runtime) (ar : ActRec) (rv : TypedValue) :
    ∃ pre, (fg f R ar rv).trace
        = pre ++ [Event.free_locals f.maxArgs, Event.store (fg f R ar rv).m_r]
      ∧ (∀ e ∈ pre, e.isFree = false ∧ e.isStore = false)
      ∧ (calls (fg f R ar rv).trace = calls pre)
      ∧ (fg f R ar rv).returned = some Ptr.m_r := by
  rw [fg_eq_glue]
  by_cases h : f.inRange ar.numArgs
  · rw [glue_in f R ar h]
    refine ⟨f.casts ar ++ [Event.call f (f.actuals R ar)], by simp, ?_, ?_, rfl⟩
    · intro e he
      simp only [List.mem_append, List.mem_singleton] at he
      rcases he with he | he
      · have := isCast_of_mem_castsFrom _ _ _ _ _ he
        cases e <;> simp_all [Event.isCast, Event.isFree, Event.isStore]
      · subst he; exact ⟨rfl, rfl⟩
    · simp [calls, List.filter_append, Event.isCall]
  · rw [glue_out f R ar h]
    refine ⟨[arityEvent f ar.numArgs], rfl, ?_, ?_, rfl⟩
    · intro e he
      simp only [List.mem_singleton] at he
      subst he
      unfold arityEvent; split <;> exact ⟨rfl, rfl⟩
    · have hc : (arityEvent f ar.numArgs).isCall = false := by
        unfold arityEvent; split <;> rfl
      simp [calls, List.filter, hc, Event.isCall]

/-! ## Positions, widths and the slots that are not supplied -/

theorem length_actualsFrom (count : Nat) (a : Nat → TypedValue) :
    ∀ (ps : List Param) (i : Nat), (actualsFrom count a i ps).length = ps.length := by
  intro ps
  induction ps with
  | nil => intro i; rfl
  | cons p ps ih => intro i; simp [actualsFrom, ih]

/-- The actual at position n of the call: made from slot n for a required or
supplied parameter, the default otherwise. -/
theorem actualsFrom_getElem (count : Nat) (a : Nat → TypedValue) :
    ∀ (ps : List Param) (i n : Nat) (p : Param), ps[n]? = some p →
      (actualsFrom count a i ps)[n]? = some
        (match p.dflt with
         | none => p.ty.actual (i + n) (a (i + n))
         | some d => if count > i + n then p.ty.actual (i + n) (a (i + n)) else d) := by
  intro ps
  induction ps with
  | nil => intro i n p h; simp at h
  | cons q ps ih =>
    intro i n p h
    cases n with
    | zero =>
      simp only [List.getElem?_cons_zero, Option.some.injEq] at h
      subst h
      simp only [actualsFrom, List.getElem?_cons_zero, Nat.add_zero]
    | succ n =>
      simp only [List.getElem?_cons_succ] at h
      simp only [actualsFrom, List.getElem?_cons_succ]
      rw [ih (i + 1) n p h]
      have e : i + 1 + n = i + (n + 1) := by omega
      rw [e]

theorem castsFrom_congr (count : Nat) (a a' : Nat → TypedValue) :
    ∀ (ps : List Param) (i : Nat),
      (∀ j p, i ≤ j → ps[j - i]? = some p → p.present j count = true → a j = a' j) →
      castsFrom count a i ps = castsFrom count a' i ps := by
  intro ps
  induction ps with
  | nil => intro i _; rfl
  | cons p ps ih =>
    intro i hag
    simp only [castsFrom]
    have htail : castsFrom count a (i + 1) ps = castsFrom count a' (i + 1) ps := by
      apply ih
      intro j q hj hq hp
      have hji : j - i = (j - (i + 1)) + 1 := by omega
      exact hag j q (by omega) (by rw [hji]; simpa using hq) hp
    rw [htail]
    congr 1
    cases hk : p.ty.castKind with
    | none => rfl
    | some k =>
      by_cases hp : p.present i count = true
      · have := hag i p (le_refl _) (by simp) hp
        simp only [hp, if_true, this]
      · simp only [hp]
        rfl

theorem actualsFrom_congr (count : Nat) (a a' : Nat → TypedValue) :
    ∀ (ps : List Param) (i : Nat),
      (∀ j p, i ≤ j → ps[j - i]? = some p → p.present j count = true → a j = a' j) →
      actualsFrom count a i ps = actualsFrom count a' i ps := by
  intro ps
  induction ps with
  | nil => intro i _; rfl
  | cons p ps ih =>
    intro i hag
    simp only [actualsFrom]
    have htail : actualsFrom count a (i + 1) ps = actualsFrom count a' (i + 1) ps := by
      apply ih
      intro j q hj hq hp
      have hji : j - i = (j - (i + 1)) + 1 := by omega
      exact hag j q (by omega) (by rw [hji]; simpa using hq) hp
    rw [htail]
    congr 1
    cases hd : p.dflt with
    | none =>
      have := hag i p (le_refl _) (by simp) (by simp [Param.present, hd])
      simp only [this]
    | some d =>
      by_cases hc : count > i
      · have := hag i p (le_refl _) (by simp) (by simp [Param.present, hc])
        simp only [hc, if_true, this]
      · simp only [hc, if_false]

/-- The casts for the parameters from position i on hit slots from i on, in
strictly descending order. -/
theorem castsFrom_descending (count : Nat) (a : Nat → TypedValue) :
    ∀ (ps : List Param) (i : Nat),
      (∀ e ∈ castsFrom count a i ps, i ≤ e.castIndex)
        ∧ ((castsFrom count a i ps).map Event.castIndex).Pairwise (· > ·) := by
  intro ps
  induction ps with
  | nil => intro i; simp [castsFrom]
  | cons p ps ih =>
    intro i
    obtain ⟨hge, hpw⟩ := ih (i + 1)
    have hlast : ∀ e ∈ (match p.ty.castKind with
        | some k =>
          if p.present i count then
            if k.accepts (a i).m_type then [] else [Event.cast k i]
          else []
        | none => ([] : List Event)), e.castIndex = i := by
      intro e he
      split at he
      · split at he
        · split at he
          · simp at he
          · simp only [List.mem_singleton] at he; subst he; rfl
        · simp at he
      · simp at he
    simp only [castsFrom]
    constructor
    · intro e he
      rw [List.mem_append] at he
      rcases he with he | he
      · have := hge e he; omega
      · rw [hlast e he]
    · rw [List.map_append, List.pairwise_append]
      refine ⟨hpw, ?_, ?_⟩
      · cases p.ty.castKind with
        | none => simp
        | some k =>
          by_cases hp : p.present i count = true
          · by_cases ha : k.accepts (a i).m_type = true <;> simp [hp, ha]
          · simp [hp]
      · intro x hx y hy
        rw [List.mem_map] at hx hy
        obtain ⟨e, he, rfl⟩ := hx
        obtain ⟨e', he', rfl⟩ := hy
        have h1 := hge e he
        have h2 := hlast e' he'
        omega

theorem maxArgs_eq_length (f : Fn) : f.maxArgs = f.params.length := by
  cases f <;> rfl

theorem params_getElem_of_lt (f : Fn) (c i : Nat) (h : f.inRange c) (hi : i < c) :
    ∃ p, f.params[i]? = some p := by
  have : i < f.params.length := by
    rw [← maxArgs_eq_length]; exact Nat.lt_of_lt_of_le hi h.2
  exact ⟨f.params[i], List.getElem?_eq_getElem this⟩

theorem length_actuals (f : Fn) (R : Runtime) (ar : ActRec) :
    (f.actuals R ar).length = f.params.length :=
  length_actualsFrom _ _ _ _

/-- The actual of a supplied argument is made from its own slot, as it stands
when the native function is called. -/
theorem actual_supplied (f : Fn) (R : Runtime) (ar : ActRec) (rv : TypedValue)
    (h : f.inRange ar.numArgs) (i : Nat) (p : Param) (hp : f.params[i]? = some p)
    (hi : i < ar.numArgs) :
    (f.actuals R ar)[i]? = some (p.ty.actual i ((fg f R ar rv).args i)) := by
  unfold Fn.actuals
  rw [actualsFrom_getElem _ _ _ 0 i p hp, fg_eq_glue, glue_in f R ar h]
  simp only [Nat.zero_add]
  cases p.dflt with
  | none => rfl
  | some d => simp [hi]

/-- The actual of an omitted argument is the default of its parameter. -/
theorem actual_omitted (f : Fn) (R : Runtime) (ar : ActRec)
    (h : f.inRange ar.numArgs) (i : Nat) (p : Param) (hp : f.params[i]? = some p)
    (hi : ar.numArgs ≤ i) :
    ∃ d, p.dflt = some d ∧ (f.actuals R ar)[i]? = some d := by
  have hnp : ¬ p.present i ar.numArgs = true := fun hpres =>
    absurd ((present_iff f _ i p h hp).mp hpres) (by omega)
  unfold Fn.actuals
  rw [actualsFrom_getElem _ _ _ 0 i p hp]
  simp only [Nat.zero_add]
  cases hd : p.dflt with
  | none => exact absurd (by simp [Param.present, hd]) hnp
  | some d =>
    refine ⟨d, rfl, ?_⟩
    have : ¬ ar.numArgs > i := by omega
    simp [this]

theorem castsOf_out_of_range (f : Fn) (R : Runtime) (ar : ActRec) (rv : TypedValue)
    (h : ¬ f.inRange ar.numArgs) : castsOf (fg f R ar rv).trace = [] := by
  rw [fg_eq_glue, glue_out f R ar h]
  have hc : (arityEvent f ar.numArgs).isCast = false := by
    unfold arityEvent; split <;> rfl
  rw [castsOf, List.filter, hc]
  rfl

theorem casts_congr (f : Fn) (ar ar' : ActRec) (h : f.inRange ar.numArgs)
    (hn : ar'.numArgs = ar.numArgs) (hag : ∀ j, j < ar.numArgs → ar'.args j = ar.args j) :
    f.casts ar' = f.casts ar := by
  unfold Fn.casts
  rw [hn]
  apply castsFrom_congr
  intro j p _ hp hpres
  simp only [Nat.sub_zero] at hp
  exact hag j ((present_iff f _ j p h hp).mp hpres)

theorem coerced_congr (f : Fn) (R : Runtime) (ar ar' : ActRec)
    (hn : ar'.numArgs = ar.numArgs) (hag : ∀ j, j < ar.numArgs → ar'.args j = ar.args j)
    (j : Nat) (hj : j < ar.numArgs) :
    coerceFrom R ar'.numArgs 0 f.params ar'.args j
      = coerceFrom R ar.numArgs 0 f.params ar.args j := by
  rw [coerceFrom_apply, coerceFrom_apply, hn, hag j hj]

theorem actuals_congr (f : Fn) (R : Runtime) (ar ar' : ActRec) (h : f.inRange ar.numArgs)
    (hn : ar'.numArgs = ar.numArgs) (hag : ∀ j, j < ar.numArgs → ar'.args j = ar.args j) :
    f.actuals R ar' = f.actuals R ar := by
  unfold Fn.actuals
  rw [hn]
  apply actualsFrom_congr
  intro j p _ hp hpres
  simp only [Nat.sub_zero] at hp
  have hj := (present_iff f _ j p h hp).mp hpres
  have := coerced_congr f R ar ar' hn hag j hj
  rw [hn] at this
  exact this

theorem toInt32_eq_low32signed (x : Int) : toInt32 x = low32signed x := by
  unfold toInt32 low32signed
  norm_num
  split <;> omega

theorem defaults_point_nowhere (f : Fn) :
    f.params.all (fun p => match p.dflt with
      | some d => d.slotIndex.isNone
      | none => true) = true := by
  cases f <;> rfl

theorem slotIndex_actual (ty : ParamTy) (i j : Nat) (v : TypedValue)
    (h : (ty.actual i v).slotIndex = some j) : j = i := by
  cases ty <;> simp [ParamTy.actual, Arg.slotIndex] at h <;> omega

theorem slotIndex_lt (f : Fn) (R : Runtime) (ar : ActRec) (h : f.inRange ar.numArgs)
    (a : Arg) (ha : a ∈ f.actuals R ar) (j : Nat) (hj : a.slotIndex = some j) :
    j < ar.numArgs := by
  obtain ⟨n, hn, rfl⟩ := List.mem_iff_getElem.mp ha
  have hn' : n < f.params.length := by rw [← length_actuals f R ar]; exact hn
  have hp : f.params[n]? = some f.params[n] := List.getElem?_eq_getElem hn'
  by_cases hc : n < ar.numArgs
  · have hact := actual_supplied f R ar uninit_null h n _ hp hc
    rw [List.getElem?_eq_getElem hn] at hact
    injection hact with hact
    rw [hact] at hj
    have := slotIndex_actual _ _ _ _ hj
    omega
  · obtain ⟨d, hd, hact⟩ := actual_omitted f R ar h n _ hp (by omega)
    rw [List.getElem?_eq_getElem hn] at hact
    injection hact with hact
    rw [hact] at hj
    have hall := defaults_point_nowhere f
    rw [List.all_eq_true] at hall
    have := hall _ (List.getElem_mem hn')
    rw [hd] at this
    simp [hj] at this

theorem calls_out_of_range (f : Fn) (R : Runtime) (ar : ActRec) (rv : TypedValue)
    (h : ¬ f.inRange ar.numArgs) : calls (fg f R ar rv).trace = [] := by
  rw [fg_eq_glue, glue_out f R ar h]
  have hc : (arityEvent f ar.numArgs).isCall = false := by
    unfold arityEvent; split <;> rfl
  rw [calls, List.filter, hc]
  rfl

theorem no_cast_out_of_range (f : Fn) (R : Runtime) (ar : ActRec) (rv : TypedValue)
    (h : ¬ f.inRange ar.numArgs) (k : CastKind) (i : Nat) :
    Event.cast k i ∉ (fg f R ar rv).trace := by
  intro hm
  have : Event.cast k i ∈ castsOf (fg f R ar rv).trace :=
    List.mem_filter.mpr ⟨hm, rfl⟩
  rw [castsOf_out_of_range f R ar rv h] at this
  exact absurd this (List.not_mem_nil _)

theorem typedAt_of_param (f : Fn) (i : Nat) (p : Param) (hp : f.params[i]? = some p) :
    f.typedAt i = p.ty.castKind := by
  simp [Fn.typedAt, hp]

theorem refParams_spec (f : Fn) (i : Nat) (hf : (f, i) ∈ refParams) :
    ∃ p, f.params[i]? = some p ∧ p.ty.castKind = none
      ∧ ∀ v, p.ty.actual i v = Arg.slot i v := by
  simp only [refParams, List.mem_cons, Prod.mk.injEq, List.mem_singleton, List.not_mem_nil,
    or_false] at hf
  rcases hf with h | h | h | h | h | h | h | h | h <;>
    (obtain ⟨hf1, hf2⟩ := h
     subst hf1 hf2
     exact ⟨_, rfl, rfl, fun _ => rfl⟩)

theorem intParams_spec (f : Fn) (i : Nat) (hf : (f, i) ∈ intParams) :
    ∃ p, f.params[i]? = some p ∧ p.ty = .int := by
  simp only [intParams, List.mem_cons, Prod.mk.injEq, List.mem_singleton, List.not_mem_nil,
    or_false] at hf
  rcases hf with h | h | h | h | h | h | h | h | h | h | h | h <;>
    (obtain ⟨hf1, hf2⟩ := h
     subst hf1 hf2
     exact ⟨_, rfl, rfl⟩)

theorem longParams_spec (f : Fn) (i : Nat) (hf : (f, i) ∈ longParams) :
    ∃ p, f.params[i]? = some p ∧ p.ty = .long := by
  simp only [longParams, List.mem_cons, Prod.mk.injEq, List.mem_singleton, List.not_mem_nil,
    or_false] at hf
  rcases hf with h | h <;>
    (obtain ⟨hf1, hf2⟩ := h
     subst hf1 hf2
     exact ⟨_, rfl, rfl⟩)

theorem helper_iff_typed (f : Fn) : (fg1 f).isSome = true ↔ ∃ i k, f.typedAt i = some k := by
  constructor
  · intro hs
    cases f <;> first
      | exact ⟨0, _, rfl⟩
      | exact absurd hs (by simp [fg1])
  · rintro ⟨i, k, hk⟩
    cases f <;> first
      | rfl
      | (exfalso
         rcases i with _ | _ | _ | i <;> simp [Fn.typedAt, Fn.params, opt, req,
           ParamTy.castKind] at hk)

theorem intParams_iff (f : Fn) (i : Nat) :
    (f, i) ∈ intParams ↔ ∃ p, f.params[i]? = some p ∧ p.ty = .int := by
  cases f <;> rcases i with _ | _ | _ | _ | _ | _ | _ | i <;>
    simp [intParams, Fn.params, cookieParams, req, opt]

theorem longParams_iff (f : Fn) (i : Nat) :
    (f, i) ∈ longParams ↔ ∃ p, f.params[i]? = some p ∧ p.ty = .long := by
  cases f <;> rcases i with _ | _ | _ | _ | _ | _ | _ | i <;>
    simp [longParams, Fn.params, cookieParams, req, opt]

/-! ## The accesses of a run -/

theorem accessesBelow_nil (n : Nat) : accessesBelow n [] := by
  intro a ha; cases ha

theorem accessesBelow_append (n : Nat) (l l' : List Access) :
    accessesBelow n (l ++ l') ↔ accessesBelow n l ∧ accessesBelow n l' := by
  simp only [accessesBelow, List.mem_append]
  constructor
  · intro h; exact ⟨fun a ha => h a (Or.inl ha), fun a ha => h a (Or.inr ha)⟩
  · rintro ⟨h1, h2⟩ a (ha | ha)
    · exact h1 a ha
    · exact h2 a ha

theorem accessesBelow_singleton (n : Nat) (a : Access) :
    accessesBelow n [a] ↔ a.index < n := by
  simp [accessesBelow]

@[simp] theorem logged_m_enter (ar : ActRec) (rv : TypedValue) :
    (Logged.enter ar rv).m = Machine.enter ar rv := rfl
@[simp] theorem logged_log_enter (ar : ActRec) (rv : TypedValue) :
    (Logged.enter ar rv).log = [] := rfl
@[simp] theorem logged_m_step (g : Machine → Machine) (p : Logged) : (p.step g).m = g p.m := rfl
@[simp] theorem logged_log_step (g : Machine → Machine) (p : Logged) :
    (p.step g).log = p.log := rfl
@[simp] theorem logged_m_note (l : List Access) (p : Logged) : (p.note l).m = p.m := rfl
@[simp] theorem logged_log_note (l : List Access) (p : Logged) :
    (p.note l).log = p.log ++ l := rfl
@[simp] theorem logged_m_call (c : List Arg → Machine → Machine) (as : List Actual)
    (p : Logged) : (p.call c as).m = c (as.map Actual.arg) p.m := rfl
@[simp] theorem logged_log_call (c : List Arg → Machine → Machine) (as : List Actual)
    (p : Logged) : (p.call c as).log = p.log ++ (as.map Actual.reads).foldr (· ++ ·) [] := rfl

@[simp] theorem logged_m_castString (R : Runtime) (i : Nat) (p : Logged) :
    (Logged.tvCastToStringInPlace R i p).m = tvCastToStringInPlace R i p.m := rfl
@[simp] theorem logged_m_castInt64 (R : Runtime) (i : Nat) (p : Logged) :
    (Logged.tvCastToInt64InPlace R i p).m = tvCastToInt64InPlace R i p.m := rfl
@[simp] theorem logged_m_castBoolean (R : Runtime) (i : Nat) (p : Logged) :
    (Logged.tvCastToBooleanInPlace R i p).m = tvCastToBooleanInPlace R i p.m := rfl
@[simp] theorem logged_m_castObject (R : Runtime) (i : Nat) (p : Logged) :
    (Logged.tvCastToObjectInPlace R i p).m = tvCastToObjectInPlace R i p.m := rfl
@[simp] theorem logged_log_castString (R : Runtime) (i : Nat) (p : Logged) :
    (Logged.tvCastToStringInPlace R i p).log = p.log ++ [Access.cast i] := rfl
@[simp] theorem logged_log_castInt64 (R : Runtime) (i : Nat) (p : Logged) :
    (Logged.tvCastToInt64InPlace R i p).log = p.log ++ [Access.cast i] := rfl
@[simp] theorem logged_log_castBoolean (R : Runtime) (i : Nat) (p : Logged) :
    (Logged.tvCastToBooleanInPlace R i p).log = p.log ++ [Access.cast i] := rfl
@[simp] theorem logged_log_castObject (R : Runtime) (i : Nat) (p : Logged) :
    (Logged.tvCastToObjectInPlace R i p).log = p.log ++ [Access.cast i] := rfl

@[simp] theorem logged_m_unless_string (R : Runtime) (i : Nat) (p : Logged) :
    (Logged.unless_string R i p).m = unless_string R i p.m := by
  unfold Logged.unless_string unless_string
  dsimp only [logged_m_note]
  split <;> rfl
@[simp] theorem logged_m_unless_int64 (R : Runtime) (i : Nat) (p : Logged) :
    (Logged.unless_int64 R i p).m = unless_int64 R i p.m := by
  unfold Logged.unless_int64 unless_int64
  dsimp only [logged_m_note]
  split <;> rfl
@[simp] theorem logged_m_unless_boolean (R : Runtime) (i : Nat) (p : Logged) :
    (Logged.unless_boolean R i p).m = unless_boolean R i p.m := by
  unfold Logged.unless_boolean unless_boolean
  dsimp only [logged_m_note]
  split <;> rfl
@[simp] theorem logged_m_unless_object (R : Runtime) (i : Nat) (p : Logged) :
    (Logged.unless_object R i p).m = unless_object R i p.m := by
  unfold Logged.unless_object unless_object
  dsimp only [logged_m_note]
  split <;> rfl

/-- The accesses of a conditional cast of slot i: the tag of slot i is read, then
the slot is cast when the tag does not match. -/
theorem logged_log_unless_string (R : Runtime) (i : Nat) (p : Logged) :
    (Logged.unless_string R i p).log
      = p.log ++ (Access.tag i ::
          if IS_STRING_TYPE (p.m.args i).m_type then [] else [Access.cast i]) := by
  unfold Logged.unless_string
  dsimp only [logged_m_note]
  split <;> simp_all
theorem logged_log_unless_int64 (R : Runtime) (i : Nat) (p : Logged) :
    (Logged.unless_int64 R i p).log
      = p.log ++ (Access.tag i ::
          if (p.m.args i).m_type = KindOfInt64 then [] else [Access.cast i]) := by
  unfold Logged.unless_int64
  dsimp only [logged_m_note]
  split <;> simp_all
theorem logged_log_unless_boolean (R : Runtime) (i : Nat) (p : Logged) :
    (Logged.unless_boolean R i p).log
      = p.log ++ (Access.tag i ::
          if (p.m.args i).m_type = KindOfBoolean then [] else [Access.cast i]) := by
  unfold Logged.unless_boolean
  dsimp only [logged_m_note]
  split <;> simp_all
theorem logged_log_unless_object (R : Runtime) (i : Nat) (p : Logged) :
    (Logged.unless_object R i p).log
      = p.log ++ (Access.tag i ::
          if (p.m.args i).m_type = KindOfObject then [] else [Access.cast i]) := by
  unfold Logged.unless_object
  dsimp only [logged_m_note]
  split <;> simp_all

theorem accessesBelow_tag_cast (n i : Nat) (c : Prop) [Decidable c] :
    accessesBelow n (Access.tag i :: if c then [] else [Access.cast i]) ↔ i < n := by
  unfold accessesBelow
  split <;> simp [Access.index]

@[simp] theorem below_unless_string (n : Nat) (R : Runtime) (i : Nat) (p : Logged) :
    accessesBelow n (Logged.unless_string R i p).log ↔ accessesBelow n p.log ∧ i < n := by
  rw [logged_log_unless_string, accessesBelow_append, accessesBelow_tag_cast]
@[simp] theorem below_unless_int64 (n : Nat) (R : Runtime) (i : Nat) (p : Logged) :
    accessesBelow n (Logged.unless_int64 R i p).log ↔ accessesBelow n p.log ∧ i < n := by
  rw [logged_log_unless_int64, accessesBelow_append, accessesBelow_tag_cast]
@[simp] theorem below_unless_boolean (n : Nat) (R : Runtime) (i : Nat) (p : Logged) :
    accessesBelow n (Logged.unless_boolean R i p).log ↔ accessesBelow n p.log ∧ i < n := by
  rw [logged_log_unless_boolean, accessesBelow_append, accessesBelow_tag_cast]
@[simp] theorem below_unless_object (n : Nat) (R : Runtime) (i : Nat) (p : Logged) :
    accessesBelow n (Logged.unless_object R i p).log ↔ accessesBelow n p.log ∧ i < n := by
  rw [logged_log_unless_object, accessesBelow_append, accessesBelow_tag_cast]

@[simp] theorem holds_count_le (c n : Nat) : (count_le c n).holds = decide (c ≤ n) := rfl
@[simp] theorem reads_count_le (c n : Nat) : (count_le c n).reads = [] := rfl
@[simp] theorem holds_is_string (p : Logged) (i : Nat) :
    (p.is_string i).holds = IS_STRING_TYPE (p.m.args i).m_type := rfl
@[simp] theorem reads_is_string (p : Logged) (i : Nat) :
    (p.is_string i).reads = [Access.tag i] := rfl
@[simp] theorem holds_is_kind (p : Logged) (i : Nat) (t : DataType) :
    (p.is_kind i t).holds = decide ((p.m.args i).m_type = t) := rfl
@[simp] theorem reads_is_kind (p : Logged) (i : Nat) (t : DataType) :
    (p.is_kind i t).reads = [Access.tag i] := rfl
@[simp] theorem holds_or_else (a b : Test) : (a.or_else b).holds = (a.holds || b.holds) := by
  unfold Test.or_else; split <;> simp_all
@[simp] theorem holds_and_then (a b : Test) :
    (a.and_then b).holds = (a.holds && b.holds) := by
  unfold Test.and_then; split <;> simp_all

/-- The reads of `a || b` stay below n when those of a do, and those of b do
whenever a does not hold. -/
@[simp] theorem below_or_else (n : Nat) (a b : Test) :
    accessesBelow n (a.or_else b).reads ↔
      accessesBelow n a.reads ∧ (a.holds = false → accessesBelow n b.reads) := by
  unfold Test.or_else
  split
  · simp_all
  · simp_all [accessesBelow_append]

/-- The reads of `a && b` stay below n when those of a do, and those of b do
whenever a holds. -/
@[simp] theorem below_and_then (n : Nat) (a b : Test) :
    accessesBelow n (a.and_then b).reads ↔
      accessesBelow n a.reads ∧ (a.holds = true → accessesBelow n b.reads) := by
  unfold Test.and_then
  split
  · simp_all [accessesBelow_append]
  · simp_all

@[simp] theorem arg_quiet (a : Arg) : (quiet a).arg = a := rfl
@[simp] theorem reads_quiet (a : Arg) : (quiet a).reads = [] := rfl
@[simp] theorem arg_data (p : Logged) (i : Nat) : (p.data i).arg = p.m.data i := rfl
@[simp] theorem arg_slot (p : Logged) (i : Nat) : (p.slot i).arg = p.m.slot i := rfl
@[simp] theorem arg_int (p : Logged) (i : Nat) : (p.int i).arg = p.m.int i := rfl
@[simp] theorem arg_long (p : Logged) (i : Nat) : (p.long i).arg = p.m.long i := rfl
@[simp] theorem arg_bool (p : Logged) (i : Nat) : (p.bool i).arg = p.m.bool i := rfl
@[simp] theorem reads_data (p : Logged) (i : Nat) : (p.data i).reads = [Access.pass i] := rfl
@[simp] theorem reads_slot (p : Logged) (i : Nat) : (p.slot i).reads = [Access.pass i] := rfl
@[simp] theorem reads_int (p : Logged) (i : Nat) : (p.int i).reads = [Access.payload i] := rfl
@[simp] theorem reads_long (p : Logged) (i : Nat) :
    (p.long i).reads = [Access.payload i] := rfl
@[simp] theorem reads_bool (p : Logged) (i : Nat) :
    (p.bool i).reads = [Access.payload i] := rfl

theorem accessesBelow_cons (n : Nat) (a : Access) (l : List Access) :
    accessesBelow n (a :: l) ↔ a.index < n ∧ accessesBelow n l := by
  simp [accessesBelow]

theorem logged_m_ite (c : Prop) [Decidable c] (a b : Logged) :
    (if c then a else b).m = if c then a.m else b.m := by
  split <;> rfl

theorem below_ite (n : Nat) (c : Prop) [Decidable c] (a b : Logged) :
    accessesBelow n (if c then a else b).log ↔
      (c → accessesBelow n a.log) ∧ (¬ c → accessesBelow n b.log) := by
  split <;> simp_all

theorem logged_fg1_gethostbyaddr_m (R : Runtime) (count : Nat) (p : Logged) :
    (Logged.fg1_gethostbyaddr R count p).m = fg1_gethostbyaddr R count p.m := by
  unfold Logged.fg1_gethostbyaddr fg1_gethostbyaddr
  dsimp only
  simp only [logged_m_call, logged_m_step, logged_m_note, logged_m_enter,
    logged_m_unless_string, logged_m_unless_int64, logged_m_unless_boolean,
    logged_m_unless_object, logged_m_castString, logged_m_castInt64, logged_m_castBoolean,
    logged_m_castObject, List.map, arg_data, arg_quiet, arg_long, arg_bool, arg_int, arg_slot,
    apply_ite Actual.arg]

theorem logged_fg1_gethostbyname_m (R : Runtime) (count : Nat) (p : Logged) :
    (Logged.fg1_gethostbyname R count p).m = fg1_gethostbyname R count p.m := by
  unfold Logged.fg1_gethostbyname fg1_gethostbyname
  dsimp only
  simp only [logged_m_call, logged_m_step, logged_m_note, logged_m_enter,
    logged_m_unless_string, logged_m_unless_int64, logged_m_unless_boolean,
    logged_m_unless_object, logged_m_castString, logged_m_castInt64, logged_m_castBoolean,
    logged_m_castObject, List.map, arg_data, arg_quiet, arg_long, arg_bool, arg_int, arg_slot,
    apply_ite Actual.arg]

theorem logged_fg1_gethostbynamel_m (R : Runtime) (count : Nat) (p : Logged) :
    (Logged.fg1_gethostbynamel R count p).m = fg1_gethostbynamel R count p.m := by
  unfold Logged.fg1_gethostbynamel fg1_gethostbynamel
  dsimp only
  simp only [logged_m_call, logged_m_step, logged_m_note, logged_m_enter,
    logged_m_unless_string, logged_m_unless_int64, logged_m_unless_boolean,
    logged_m_unless_object, logged_m_castString, logged_m_castInt64, logged_m_castBoolean,
    logged_m_castObject, List.map, arg_data, arg_quiet, arg_long, arg_bool, arg_int, arg_slot,
    apply_ite Actual.arg]

theorem logged_fg1_getprotobyname_m (R : Runtime) (count : Nat) (p : Logged) :
    (Logged.fg1_getprotobyname R count p).m = fg1_getprotobyname R count p.m := by
  unfold Logged.fg1_getprotobyname fg1_getprotobyname
  dsimp only
  simp only [logged_m_call, logged_m_step, logged_m_note, logged_m_enter,
    logged_m_unless_string, logged_m_unless_int64, logged_m_unless_boolean,
    logged_m_unless_object, logged_m_castString, logged_m_castInt64, logged_m_castBoolean,
    logged_m_castObject, List.map, arg_data, arg_quiet, arg_long, arg_bool, arg_int, arg_slot,
    apply_ite Actual.arg]

theorem logged_fg1_getprotobynumber_m (R : Runtime) (count : Nat) (p : Logged) :
    (Logged.fg1_getprotobynumber R count p).m = fg1_getprotobynumber R count p.m := by
  unfold Logged.fg1_getprotobynumber fg1_getprotobynumber
  dsimp only
  simp only [logged_m_call, logged_m_step, logged_m_note, logged_m_enter,
    logged_m_unless_string, logged_m_unless_int64, logged_m_unless_boolean,
    logged_m_unless_object, logged_m_castString, logged_m_castInt64, logged_m_castBoolean,
    logged_m_castObject, List.map, arg_data, arg_quiet, arg_long, arg_bool, arg_int, arg_slot,
    apply_ite Actual.arg]

theorem logged_fg1_getservbyname_m (R : Runtime) (count : Nat) (p : Logged) :
    (Logged.fg1_getservbyname R count p).m = fg1_getservbyname R count p.m := by
  unfold Logged.fg1_getservbyname fg1_getservbyname
  dsimp only
  simp only [logged_m_call, logged_m_step, logged_m_note, logged_m_enter,
    logged_m_unless_string, logged_m_unless_int64, logged_m_unless_boolean,
    logged_m_unless_object, logged_m_castString, logged_m_castInt64, logged_m_castBoolean,
    logged_m_castObject, List.map, arg_data, arg_quiet, arg_long, arg_bool, arg_int, arg_slot,
    apply_ite Actual.arg]

theorem logged_fg1_getservbyport_m (R : Runtime) (count : Nat) (p : Logged) :
    (Logged.fg1_getservbyport R count p).m = fg1_getservbyport R count p.m := by
  unfold Logged.fg1_getservbyport fg1_getservbyport
  dsimp only
  simp only [logged_m_call, logged_m_step, logged_m_note, logged_m_enter,
    logged_m_unless_string, logged_m_unless_int64, logged_m_unless_boolean,
    logged_m_unless_object, logged_m_castString, logged_m_castInt64, logged_m_castBoolean,
    logged_m_castObject, List.map, arg_data, arg_quiet, arg_long, arg_bool, arg_int, arg_slot,
    apply_ite Actual.arg]

theorem logged_fg1_inet_ntop_m (R : Runtime) (count : Nat) (p : Logged) :
    (Logged.fg1_inet_ntop R count p).m = fg1_inet_ntop R count p.m := by
  unfold Logged.fg1_inet_ntop fg1_inet_ntop
  dsimp only
  simp only [logged_m_call, logged_m_step, logged_m_note, logged_m_enter,
    logged_m_unless_string, logged_m_unless_int64, logged_m_unless_boolean,
    logged_m_unless_object, logged_m_castString, logged_m_castInt64, logged_m_castBoolean,
    logged_m_castObject, List.map, arg_data, arg_quiet, arg_long, arg_bool, arg_int, arg_slot,
    apply_ite Actual.arg]

theorem logged_fg1_inet_pton_m (R : Runtime) (count : Nat) (p : Logged) :
    (Logged.fg1_inet_pton R count p).m = fg1_inet_pton R count p.m := by
  unfold Logged.fg1_inet_pton fg1_inet_pton
  dsimp only
  simp only [logged_m_call, logged_m_step, logged_m_note, logged_m_enter,
    logged_m_unless_string, logged_m_unless_int64, logged_m_unless_boolean,
    logged_m_unless_object, logged_m_castString, logged_m_castInt64, logged_m_castBoolean,
    logged_m_castObject, List.map, arg_data, arg_quiet, arg_long, arg_bool, arg_int, arg_slot,
    apply_ite Actual.arg]

theorem logged_fg1_ip2long_m (R : Runtime) (count : Nat) (p : Logged) :
    (Logged.fg1_ip2long R count p).m = fg1_ip2long R count p.m := by
  unfold Logged.fg1_ip2long fg1_ip2long
  dsimp only
  simp only [logged_m_call, logged_m_step, logged_m_note, logged_m_enter,
    logged_m_unless_string, logged_m_unless_int64, logged_m_unless_boolean,
    logged_m_unless_object, logged_m_castString, logged_m_castInt64, logged_m_castBoolean,
    logged_m_castObject, List.map, arg_data, arg_quiet, arg_long, arg_bool, arg_int, arg_slot,
    apply_ite Actual.arg]

theorem logged_fg1_long2ip_m (R : Runtime) (count : Nat) (p : Logged) :
    (Logged.fg1_long2ip R count p).m = fg1_long2ip R count p.m := by
  unfold Logged.fg1_long2ip fg1_long2ip
  dsimp only
  simp only [logged_m_call, logged_m_step, logged_m_note, logged_m_enter,
    logged_m_unless_string, logged_m_unless_int64, logged_m_unless_boolean,
    logged_m_unless_object, logged_m_castString, logged_m_castInt64, logged_m_castBoolean,
    logged_m_castObject, List.map, arg_data, arg_quiet, arg_long, arg_bool, arg_int, arg_slot,
    apply_ite Actual.arg]

theorem logged_fg1_dns_check_record_m (R : Runtime) (count : Nat) (p : Logged) :
    (Logged.fg1_dns_check_record R count p).m = fg1_dns_check_record R count p.m := by
  unfold Logged.fg1_dns_check_record fg1_dns_check_record
  dsimp only
  split <;> simp only [logged_m_call, logged_m_step, logged_m_note, logged_m_enter,
    logged_m_unless_string, logged_m_unless_int64, logged_m_unless_boolean,
    logged_m_unless_object, logged_m_castString, logged_m_castInt64, logged_m_castBoolean,
    logged_m_castObject, List.map, arg_data, arg_quiet, arg_long, arg_bool, arg_int, arg_slot,
    apply_ite Actual.arg]

theorem logged_fg1_checkdnsrr_m (R : Runtime) (count : Nat) (p : Logged) :
    (Logged.fg1_checkdnsrr R count p).m = fg1_checkdnsrr R count p.m := by
  unfold Logged.fg1_checkdnsrr fg1_checkdnsrr
  dsimp only
  split <;> simp only [logged_m_call, logged_m_step, logged_m_note, logged_m_enter,
    logged_m_unless_string, logged_m_unless_int64, logged_m_unless_boolean,
    logged_m_unless_object, logged_m_castString, logged_m_castInt64, logged_m_castBoolean,
    logged_m_castObject, List.map, arg_data, arg_quiet, arg_long, arg_bool, arg_int, arg_slot,
    apply_ite Actual.arg]

theorem logged_fg1_dns_get_record_m (R : Runtime) (count : Nat) (p : Logged) :
    (Logged.fg1_dns_get_record R count p).m = fg1_dns_get_record R count p.m := by
  unfold Logged.fg1_dns_get_record fg1_dns_get_record
  dsimp only
  split <;> simp only [logged_m_call, logged_m_step, logged_m_note, logged_m_enter,
    logged_m_unless_string, logged_m_unless_int64, logged_m_unless_boolean,
    logged_m_unless_object, logged_m_castString, logged_m_castInt64, logged_m_castBoolean,
    logged_m_castObject, List.map, arg_data, arg_quiet, arg_long, arg_bool, arg_int, arg_slot,
    apply_ite Actual.arg]

theorem logged_fg1_dns_get_mx_m (R : Runtime) (count : Nat) (p : Logged) :
    (Logged.fg1_dns_get_mx R count p).m = fg1_dns_get_mx R count p.m := by
  unfold Logged.fg1_dns_get_mx fg1_dns_get_mx
  dsimp only
  simp only [logged_m_call, logged_m_step, logged_m_note, logged_m_enter,
    logged_m_unless_string, logged_m_unless_int64, logged_m_unless_boolean,
    logged_m_unless_object, logged_m_castString, logged_m_castInt64, logged_m_castBoolean,
    logged_m_castObject, List.map, arg_data, arg_quiet, arg_long, arg_bool, arg_int, arg_slot,
    apply_ite Actual.arg]

theorem logged_fg1_getmxrr_m (R : Runtime) (count : Nat) (p : Logged) :
    (Logged.fg1_getmxrr R count p).m = fg1_getmxrr R count p.m := by
  unfold Logged.fg1_getmxrr fg1_getmxrr
  dsimp only
  simp only [logged_m_call, logged_m_step, logged_m_note, logged_m_enter,
    logged_m_unless_string, logged_m_unless_int64, logged_m_unless_boolean,
    logged_m_unless_object, logged_m_castString, logged_m_castInt64, logged_m_castBoolean,
    logged_m_castObject, List.map, arg_data, arg_quiet, arg_long, arg_bool, arg_int, arg_slot,
    apply_ite Actual.arg]

theorem logged_fg1_socket_get_status_m (R : Runtime) (count : Nat) (p : Logged) :
    (Logged.fg1_socket_get_status R count p).m = fg1_socket_get_status R count p.m := by
  unfold Logged.fg1_socket_get_status fg1_socket_get_status
  dsimp only
  simp only [logged_m_call, logged_m_step, logged_m_note, logged_m_enter,
    logged_m_unless_string, logged_m_unless_int64, logged_m_unless_boolean,
    logged_m_unless_object, logged_m_castString, logged_m_castInt64, logged_m_castBoolean,
    logged_m_castObject, List.map, arg_data, arg_quiet, arg_long, arg_bool, arg_int, arg_slot,
    apply_ite Actual.arg]

theorem logged_fg1_socket_set_blocking_m (R : Runtime) (count : Nat) (p : Logged) :
    (Logged.fg1_socket_set_blocking R count p).m = fg1_socket_set_blocking R count p.m := by
  unfold Logged.fg1_socket_set_blocking fg1_socket_set_blocking
  dsimp only
  simp only [logged_m_call, logged_m_step, logged_m_note, logged_m_enter,
    logged_m_unless_string, logged_m_unless_int64, logged_m_unless_boolean,
    logged_m_unless_object, logged_m_castString, logged_m_castInt64, logged_m_castBoolean,
    logged_m_castObject, List.map, arg_data, arg_quiet, arg_long, arg_bool, arg_int, arg_slot,
    apply_ite Actual.arg]

theorem logged_fg1_socket_set_timeout_m (R : Runtime) (count : Nat) (p : Logged) :
    (Logged.fg1_socket_set_timeout R count p).m = fg1_socket_set_timeout R count p.m := by
  unfold Logged.fg1_socket_set_timeout fg1_socket_set_timeout
  dsimp only
  split <;> simp only [logged_m_call, logged_m_step, logged_m_note, logged_m_enter,
    logged_m_unless_string, logged_m_unless_int64, logged_m_unless_boolean,
    logged_m_unless_object, logged_m_castString, logged_m_castInt64, logged_m_castBoolean,
    logged_m_castObject, List.map, arg_data, arg_quiet, arg_long, arg_bool, arg_int, arg_slot,
    apply_ite Actual.arg]

theorem logged_fg1_header_m (R : Runtime) (count : Nat) (p : Logged) :
    (Logged.fg1_header R count p).m = fg1_header R count p.m := by
  unfold Logged.fg1_header fg1_header
  dsimp only
  split <;> simp only [logged_m_call, logged_m_step, logged_m_note, logged_m_enter,
    logged_m_unless_string, logged_m_unless_int64, logged_m_unless_boolean,
    logged_m_unless_object, logged_m_castString, logged_m_castInt64, logged_m_castBoolean,
    logged_m_castObject, List.map, arg_data, arg_quiet, arg_long, arg_bool, arg_int, arg_slot,
    apply_ite Actual.arg]

theorem logged_fg1_http_response_code_m (R : Runtime) (count : Nat) (p : Logged) :
    (Logged.fg1_http_response_code R count p).m = fg1_http_response_code R count p.m := by
  unfold Logged.fg1_http_response_code fg1_http_response_code
  dsimp only
  simp only [logged_m_call, logged_m_step, logged_m_note, logged_m_enter,
    logged_m_unless_string, logged_m_unless_int64, logged_m_unless_boolean,
    logged_m_unless_object, logged_m_castString, logged_m_castInt64, logged_m_castBoolean,
    logged_m_castObject, List.map, arg_data, arg_quiet, arg_long, arg_bool, arg_int, arg_slot,
    apply_ite Actual.arg]

theorem logged_fg1_header_remove_m (R : Runtime) (count : Nat) (p : Logged) :
    (Logged.fg1_header_remove R count p).m = fg1_header_remove R count p.m := by
  unfold Logged.fg1_header_remove fg1_header_remove
  dsimp only
  simp only [logged_m_call, logged_m_step, logged_m_note, logged_m_enter,
    logged_m_unless_string, logged_m_unless_int64, logged_m_unless_boolean,
    logged_m_unless_object, logged_m_castString, logged_m_castInt64, logged_m_castBoolean,
    logged_m_castObject, List.map, arg_data, arg_quiet, arg_long, arg_bool, arg_int, arg_slot,
    apply_ite Actual.arg]

theorem logged_fg1_setcookie_m (R : Runtime) (count : Nat) (p : Logged) :
    (Logged.fg1_setcookie R count p).m = fg1_setcookie R count p.m := by
  unfold Logged.fg1_setcookie fg1_setcookie
  dsimp only
  split <;> simp only [logged_m_call, logged_m_step, logged_m_note, logged_m_enter,
    logged_m_unless_string, logged_m_unless_int64, logged_m_unless_boolean,
    logged_m_unless_object, logged_m_castString, logged_m_castInt64, logged_m_castBoolean,
    logged_m_castObject, List.map, arg_data, arg_quiet, arg_long, arg_bool, arg_int, arg_slot,
    apply_ite Actual.arg]

theorem logged_fg1_setrawcookie_m (R : Runtime) (count : Nat) (p : Logged) :
    (Logged.fg1_setrawcookie R count p).m = fg1_setrawcookie R count p.m := by
  unfold Logged.fg1_setrawcookie fg1_setrawcookie
  dsimp only
  split <;> simp only [logged_m_call, logged_m_step, logged_m_note, logged_m_enter,
    logged_m_unless_string, logged_m_unless_int64, logged_m_unless_boolean,
    logged_m_unless_object, logged_m_castString, logged_m_castInt64, logged_m_castBoolean,
    logged_m_castObject, List.map, arg_data, arg_quiet, arg_long, arg_bool, arg_int, arg_slot,
    apply_ite Actual.arg]

theorem logged_fg1_openlog_m (R : Runtime) (count : Nat) (p : Logged) :
    (Logged.fg1_openlog R count p).m = fg1_openlog R count p.m := by
  unfold Logged.fg1_openlog fg1_openlog
  dsimp only
  simp only [logged_m_call, logged_m_step, logged_m_note, logged_m_enter,
    logged_m_unless_string, logged_m_unless_int64, logged_m_unless_boolean,
    logged_m_unless_object, logged_m_castString, logged_m_castInt64, logged_m_castBoolean,
    logged_m_castObject, List.map, arg_data, arg_quiet, arg_long, arg_bool, arg_int, arg_slot,
    apply_ite Actual.arg]

theorem logged_fg1_syslog_m (R : Runtime) (count : Nat) (p : Logged) :
    (Logged.fg1_syslog R count p).m = fg1_syslog R count p.m := by
  unfold Logged.fg1_syslog fg1_syslog
  dsimp only
  simp only [logged_m_call, logged_m_step, logged_m_note, logged_m_enter,
    logged_m_unless_string, logged_m_unless_int64, logged_m_unless_boolean,
    logged_m_unless_object, logged_m_castString, logged_m_castInt64, logged_m_castBoolean,
    logged_m_castObject, List.map, arg_data, arg_quiet, arg_long, arg_bool, arg_int, arg_slot,
    apply_ite Actual.arg]

/-- The run with its accesses is the run: forgetting the accesses gives the
state of `fg`. -/
theorem logged_fg_m (f : Fn) (R : Runtime) (ar : ActRec) (rv : TypedValue) :
    (Logged.fg f R ar rv).m = fg f R ar rv := by
  cases f <;> unfold Logged.fg fg <;> dsimp only
  all_goals
    first
    | unfold Logged.fg_gethostname fg_gethostname
    | unfold Logged.fg_gethostbyaddr fg_gethostbyaddr
    | unfold Logged.fg_gethostbyname fg_gethostbyname
    | unfold Logged.fg_gethostbynamel fg_gethostbynamel
    | unfold Logged.fg_getprotobyname fg_getprotobyname
    | unfold Logged.fg_getprotobynumber fg_getprotobynumber
    | unfold Logged.fg_getservbyname fg_getservbyname
    | unfold Logged.fg_getservbyport fg_getservbyport
    | unfold Logged.fg_inet_ntop fg_inet_ntop
    | unfold Logged.fg_inet_pton fg_inet_pton
    | unfold Logged.fg_ip2long fg_ip2long
    | unfold Logged.fg_long2ip fg_long2ip
    | unfold Logged.fg_dns_check_record fg_dns_check_record
    | unfold Logged.fg_checkdnsrr fg_checkdnsrr
    | unfold Logged.fg_dns_get_record fg_dns_get_record
    | unfold Logged.fg_dns_get_mx fg_dns_get_mx
    | unfold Logged.fg_getmxrr fg_getmxrr
    | unfold Logged.fg_socket_get_status fg_socket_get_status
    | unfold Logged.fg_socket_set_blocking fg_socket_set_blocking
    | unfold Logged.fg_socket_set_timeout fg_socket_set_timeout
    | unfold Logged.fg_header fg_header
    | unfold Logged.fg_http_response_code fg_http_response_code
    | unfold Logged.fg_headers_list fg_headers_list
    | unfold Logged.fg_get_http_request_size fg_get_http_request_size
    | unfold Logged.fg_headers_sent fg_headers_sent
    | unfold Logged.fg_header_register_callback fg_header_register_callback
    | unfold Logged.fg_header_remove fg_header_remove
    | unfold Logged.fg_setcookie fg_setcookie
    | unfold Logged.fg_setrawcookie fg_setrawcookie
    | unfold Logged.fg_define_syslog_variables fg_define_syslog_variables
    | unfold Logged.fg_openlog fg_openlog
    | unfold Logged.fg_closelog fg_closelog
    | unfold Logged.fg_syslog fg_syslog
  all_goals
    dsimp only
    simp only [logged_m_ite, logged_fg1_gethostbyaddr_m, logged_fg1_gethostbyname_m, logged_fg1_gethostbynamel_m, logged_fg1_getprotobyname_m, logged_fg1_getprotobynumber_m, logged_fg1_getservbyname_m, logged_fg1_getservbyport_m, logged_fg1_inet_ntop_m, logged_fg1_inet_pton_m, logged_fg1_ip2long_m, logged_fg1_long2ip_m, logged_fg1_dns_check_record_m, logged_fg1_checkdnsrr_m, logged_fg1_dns_get_record_m, logged_fg1_dns_get_mx_m, logged_fg1_getmxrr_m, logged_fg1_socket_get_status_m, logged_fg1_socket_set_blocking_m, logged_fg1_socket_set_timeout_m, logged_fg1_header_m, logged_fg1_http_response_code_m, logged_fg1_header_remove_m, logged_fg1_setcookie_m, logged_fg1_setrawcookie_m, logged_fg1_openlog_m, logged_fg1_syslog_m,
      logged_m_call, logged_m_step, logged_m_note, logged_m_enter,
      logged_m_unless_string, logged_m_unless_int64, logged_m_unless_boolean,
      logged_m_unless_object, logged_m_castString, logged_m_castInt64, logged_m_castBoolean,
      logged_m_castObject, List.map, arg_data, arg_quiet, arg_long, arg_bool, arg_int, arg_slot,
      apply_ite Actual.arg,
      holds_and_then, holds_or_else, holds_count_le, holds_is_string, holds_is_kind,
      Bool.and_eq_true, Bool.or_eq_true, decide_eq_true_eq, and_assoc]

/-- Outside the declared range no argument slot is accessed. -/
theorem logged_out_of_range (f : Fn) (R : Runtime) (ar : ActRec) (rv : TypedValue)
    (h : ¬ f.inRange ar.numArgs) : (Logged.fg f R ar rv).log = [] := by
  cases f <;> simp only [Fn.inRange, Fn.minArgs, Fn.maxArgs] at h <;> unfold Logged.fg <;>
    dsimp only
  all_goals
    first
    | unfold Logged.fg_gethostname
    | unfold Logged.fg_gethostbyaddr
    | unfold Logged.fg_gethostbyname
    | unfold Logged.fg_gethostbynamel
    | unfold Logged.fg_getprotobyname
    | unfold Logged.fg_getprotobynumber
    | unfold Logged.fg_getservbyname
    | unfold Logged.fg_getservbyport
    | unfold Logged.fg_inet_ntop
    | unfold Logged.fg_inet_pton
    | unfold Logged.fg_ip2long
    | unfold Logged.fg_long2ip
    | unfold Logged.fg_dns_check_record
    | unfold Logged.fg_checkdnsrr
    | unfold Logged.fg_dns_get_record
    | unfold Logged.fg_dns_get_mx
    | unfold Logged.fg_getmxrr
    | unfold Logged.fg_socket_get_status
    | unfold Logged.fg_socket_set_blocking
    | unfold Logged.fg_socket_set_timeout
    | unfold Logged.fg_header
    | unfold Logged.fg_http_response_code
    | unfold Logged.fg_headers_list
    | unfold Logged.fg_get_http_request_size
    | unfold Logged.fg_headers_sent
    | unfold Logged.fg_header_register_callback
    | unfold Logged.fg_header_remove
    | unfold Logged.fg_setcookie
    | unfold Logged.fg_setrawcookie
    | unfold Logged.fg_define_syslog_variables
    | unfold Logged.fg_openlog
    | unfold Logged.fg_closelog
    | unfold Logged.fg_syslog
  all_goals
    dsimp only
    split
    · exfalso; omega
    · rfl

set_option maxHeartbeats 4000000 in
/-- Inside the declared range every access goes to a slot below the count. -/
theorem logged_in_range (f : Fn) (R : Runtime) (ar : ActRec) (rv : TypedValue)
    (h : f.inRange ar.numArgs) : accessesBelow ar.numArgs (Logged.fg f R ar rv).log := by
  obtain ⟨c, a, r⟩ := ar
  cases f <;> simp only [Fn.inRange, Fn.minArgs, Fn.maxArgs] at h <;> obtain ⟨h1, h2⟩ := h <;>
    interval_cases c <;> unfold Logged.fg <;> dsimp only
  all_goals
    first
    | unfold Logged.fg_gethostname
    | unfold Logged.fg_gethostbyaddr Logged.fg1_gethostbyaddr
    | unfold Logged.fg_gethostbyname Logged.fg1_gethostbyname
    | unfold Logged.fg_gethostbynamel Logged.fg1_gethostbynamel
    | unfold Logged.fg_getprotobyname Logged.fg1_getprotobyname
    | unfold Logged.fg_getprotobynumber Logged.fg1_getprotobynumber
    | unfold Logged.fg_getservbyname Logged.fg1_getservbyname
    | unfold Logged.fg_getservbyport Logged.fg1_getservbyport
    | unfold Logged.fg_inet_ntop Logged.fg1_inet_ntop
    | unfold Logged.fg_inet_pton Logged.fg1_inet_pton
    | unfold Logged.fg_ip2long Logged.fg1_ip2long
    | unfold Logged.fg_long2ip Logged.fg1_long2ip
    | unfold Logged.fg_dns_check_record Logged.fg1_dns_check_record
    | unfold Logged.fg_checkdnsrr Logged.fg1_checkdnsrr
    | unfold Logged.fg_dns_get_record Logged.fg1_dns_get_record
    | unfold Logged.fg_dns_get_mx Logged.fg1_dns_get_mx
    | unfold Logged.fg_getmxrr Logged.fg1_getmxrr
    | unfold Logged.fg_socket_get_status Logged.fg1_socket_get_status
    | unfold Logged.fg_socket_set_blocking Logged.fg1_socket_set_blocking
    | unfold Logged.fg_socket_set_timeout Logged.fg1_socket_set_timeout
    | unfold Logged.fg_header Logged.fg1_header
    | unfold Logged.fg_http_response_code Logged.fg1_http_response_code
    | unfold Logged.fg_headers_list
    | unfold Logged.fg_get_http_request_size
    | unfold Logged.fg_headers_sent
    | unfold Logged.fg_header_register_callback
    | unfold Logged.fg_header_remove Logged.fg1_header_remove
    | unfold Logged.fg_setcookie Logged.fg1_setcookie
    | unfold Logged.fg_setrawcookie Logged.fg1_setrawcookie
    | unfold Logged.fg_define_syslog_variables
    | unfold Logged.fg_openlog Logged.fg1_openlog
    | unfold Logged.fg_closelog
    | unfold Logged.fg_syslog Logged.fg1_syslog
  all_goals
    simp [below_ite, accessesBelow_append, accessesBelow_cons, accessesBelow_nil,
      Access.index, -holds_and_then, -holds_or_else]
  all_goals simp

theorem castSlots_append (l l' : List Access) :
    castSlots (l ++ l') = castSlots l ++ castSlots l' := by
  induction l with
  | nil => rfl
  | cons a l ih => cases a <;> simp [castSlots, ih]

theorem castSlots_or_else (a b : Test) :
    castSlots (a.or_else b).reads
      = if a.holds then castSlots a.reads else castSlots a.reads ++ castSlots b.reads := by
  unfold Test.or_else; split <;> simp_all [castSlots_append]

theorem castSlots_and_then (a b : Test) :
    castSlots (a.and_then b).reads
      = if a.holds then castSlots a.reads ++ castSlots b.reads else castSlots a.reads := by
  unfold Test.and_then; split <;> simp_all [castSlots_append]

theorem castSlots_actual_ite (c : Prop) [Decidable c] (a b : Actual)
    (ha : castSlots a.reads = []) (hb : castSlots b.reads = []) :
    castSlots (if c then a else b).reads = [] := by
  split <;> assumption

theorem logged_log_ite (c : Prop) [Decidable c] (a b : Logged) :
    (if c then a else b).log = if c then a.log else b.log := by
  split <;> rfl

set_option maxHeartbeats 4000000 in
/-- Inside the declared range the casts recorded among the accesses are the casts
of the closed form, in order. -/
theorem logged_casts_in_range (f : Fn) (R : Runtime) (ar : ActRec) (rv : TypedValue)
    (h : f.inRange ar.numArgs) :
    castSlots (Logged.fg f R ar rv).log = (f.casts ar).map Event.castIndex := by
  obtain ⟨c, a, r⟩ := ar
  cases f <;> simp only [Fn.inRange, Fn.minArgs, Fn.maxArgs] at h <;> obtain ⟨h1, h2⟩ := h <;>
    interval_cases c <;> unfold Logged.fg <;> dsimp only
  all_goals
    first
    | unfold Logged.fg_gethostname
    | unfold Logged.fg_gethostbyaddr Logged.fg1_gethostbyaddr
    | unfold Logged.fg_gethostbyname Logged.fg1_gethostbyname
    | unfold Logged.fg_gethostbynamel Logged.fg1_gethostbynamel
    | unfold Logged.fg_getprotobyname Logged.fg1_getprotobyname
    | unfold Logged.fg_getprotobynumber Logged.fg1_getprotobynumber
    | unfold Logged.fg_getservbyname Logged.fg1_getservbyname
    | unfold Logged.fg_getservbyport Logged.fg1_getservbyport
    | unfold Logged.fg_inet_ntop Logged.fg1_inet_ntop
    | unfold Logged.fg_inet_pton Logged.fg1_inet_pton
    | unfold Logged.fg_ip2long Logged.fg1_ip2long
    | unfold Logged.fg_long2ip Logged.fg1_long2ip
    | unfold Logged.fg_dns_check_record Logged.fg1_dns_check_record
    | unfold Logged.fg_checkdnsrr Logged.fg1_checkdnsrr
    | unfold Logged.fg_dns_get_record Logged.fg1_dns_get_record
    | unfold Logged.fg_dns_get_mx Logged.fg1_dns_get_mx
    | unfold Logged.fg_getmxrr Logged.fg1_getmxrr
    | unfold Logged.fg_socket_get_status Logged.fg1_socket_get_status
    | unfold Logged.fg_socket_set_blocking Logged.fg1_socket_set_blocking
    | unfold Logged.fg_socket_set_timeout Logged.fg1_socket_set_timeout
    | unfold Logged.fg_header Logged.fg1_header
    | unfold Logged.fg_http_response_code Logged.fg1_http_response_code
    | unfold Logged.fg_headers_list
    | unfold Logged.fg_get_http_request_size
    | unfold Logged.fg_headers_sent
    | unfold Logged.fg_header_register_callback
    | unfold Logged.fg_header_remove Logged.fg1_header_remove
    | unfold Logged.fg_setcookie Logged.fg1_setcookie
    | unfold Logged.fg_setrawcookie Logged.fg1_setrawcookie
    | unfold Logged.fg_define_syslog_variables
    | unfold Logged.fg_openlog Logged.fg1_openlog
    | unfold Logged.fg_closelog
    | unfold Logged.fg_syslog Logged.fg1_syslog
  all_goals
    simp [logged_log_ite, castSlots_append, castSlots, castSlots_or_else, castSlots_and_then,
      logged_log_unless_string, logged_log_unless_int64, logged_log_unless_boolean,
      logged_log_unless_object, apply_ite castSlots,
      Fn.casts, castsFrom, Fn.params, cookieParams, req, opt, ParamTy.castKind, Param.present,
      CastKind.accepts, Event.castIndex, apply_ite (List.map Event.castIndex)]
  all_goals tauto

theorem passSlots_append (l l' : List Access) :
    passSlots (l ++ l') = passSlots l ++ passSlots l' := by
  induction l with
  | nil => rfl
  | cons a l ih => cases a <;> simp [passSlots, ih]

theorem passSlots_or_else (a b : Test) :
    passSlots (a.or_else b).reads
      = if a.holds then passSlots a.reads else passSlots a.reads ++ passSlots b.reads := by
  unfold Test.or_else; split <;> simp_all [passSlots_append]

theorem passSlots_and_then (a b : Test) :
    passSlots (a.and_then b).reads
      = if a.holds then passSlots a.reads ++ passSlots b.reads else passSlots a.reads := by
  unfold Test.and_then; split <;> simp_all [passSlots_append]

set_option maxHeartbeats 4000000 in
/-- Inside the declared range the pointers recorded among the accesses are the
slots among the actuals, in order. -/
theorem logged_passes_in_range (f : Fn) (R : Runtime) (ar : ActRec) (rv : TypedValue)
    (h : f.inRange ar.numArgs) :
    passSlots (Logged.fg f R ar rv).log = (f.actuals R ar).filterMap Arg.slotIndex := by
  obtain ⟨c, a, r⟩ := ar
  cases f <;> simp only [Fn.inRange, Fn.minArgs, Fn.maxArgs] at h <;> obtain ⟨h1, h2⟩ := h <;>
    interval_cases c <;> unfold Logged.fg <;> dsimp only
  all_goals
    first
    | unfold Logged.fg_gethostname
    | unfold Logged.fg_gethostbyaddr Logged.fg1_gethostbyaddr
    | unfold Logged.fg_gethostbyname Logged.fg1_gethostbyname
    | unfold Logged.fg_gethostbynamel Logged.fg1_gethostbynamel
    | unfold Logged.fg_getprotobyname Logged.fg1_getprotobyname
    | unfold Logged.fg_getprotobynumber Logged.fg1_getprotobynumber
    | unfold Logged.fg_getservbyname Logged.fg1_getservbyname
    | unfold Logged.fg_getservbyport Logged.fg1_getservbyport
    | unfold Logged.fg_inet_ntop Logged.fg1_inet_ntop
    | unfold Logged.fg_inet_pton Logged.fg1_inet_pton
    | unfold Logged.fg_ip2long Logged.fg1_ip2long
    | unfold Logged.fg_long2ip Logged.fg1_long2ip
    | unfold Logged.fg_dns_check_record Logged.fg1_dns_check_record
    | unfold Logged.fg_checkdnsrr Logged.fg1_checkdnsrr
    | unfold Logged.fg_dns_get_record Logged.fg1_dns_get_record
    | unfold Logged.fg_dns_get_mx Logged.fg1_dns_get_mx
    | unfold Logged.fg_getmxrr Logged.fg1_getmxrr
    | unfold Logged.fg_socket_get_status Logged.fg1_socket_get_status
    | unfold Logged.fg_socket_set_blocking Logged.fg1_socket_set_blocking
    | unfold Logged.fg_socket_set_timeout Logged.fg1_socket_set_timeout
    | unfold Logged.fg_header Logged.fg1_header
    | unfold Logged.fg_http_response_code Logged.fg1_http_response_code
    | unfold Logged.fg_headers_list
    | unfold Logged.fg_get_http_request_size
    | unfold Logged.fg_headers_sent
    | unfold Logged.fg_header_register_callback
    | unfold Logged.fg_header_remove Logged.fg1_header_remove
    | unfold Logged.fg_setcookie Logged.fg1_setcookie
    | unfold Logged.fg_setrawcookie Logged.fg1_setrawcookie
    | unfold Logged.fg_define_syslog_variables
    | unfold Logged.fg_openlog Logged.fg1_openlog
    | unfold Logged.fg_closelog
    | unfold Logged.fg_syslog Logged.fg1_syslog
  all_goals
    simp [logged_log_ite, passSlots_append, passSlots, passSlots_or_else, passSlots_and_then,
      logged_log_unless_string, logged_log_unless_int64, logged_log_unless_boolean,
      logged_log_unless_object, apply_ite passSlots,
      Fn.actuals, actualsFrom, coerceFrom, Fn.params, cookieParams, req, opt, ParamTy.castKind,
      Param.present, ParamTy.actual, Arg.slotIndex, defVal]

/-! ## The claims, concluded -/

/-- C21, as stated, fails on `headers_sent`: no run of it, whatever the runtime and
the arguments, coerces an argument or enters a cold helper. -/
theorem headers_sent_has_no_coercing_path :
    ¬ ∃ (R : Runtime) (ar : ActRec) (rv : TypedValue),
        Fn.headers_sent.inRange ar.numArgs
          ∧ (castsOf (fg .headers_sent R ar rv).trace ≠ []
              ∨ (fg .headers_sent R ar rv).slow = true) := by
  rintro ⟨R, ar, rv, h, hc⟩
  have hnil : Fn.headers_sent.casts ar = [] := by
    simp [Fn.casts, castsFrom, Fn.params, opt, ParamTy.castKind]
  rcases hc with hc | hc
  · rw [castsOf_in_range _ R ar rv h] at hc
    exact hc hnil
  · rw [slow_in_range _ R ar rv h, hnil] at hc
    simp at hc

/-- C21, amended: every function has a fast path; it has a coercing path, some
in-range run that coerces an argument before the native call, exactly when it
has a cold helper, which is exactly when one of its parameters is a string, an
integer, a boolean or an object; the seven functions without such a parameter
never coerce and never leave the fast path. -/
theorem coercing_path_iff_helper (f : Fn) :
    (∃ (R : Runtime) (ar : ActRec) (rv : TypedValue),
        f.inRange ar.numArgs ∧ (fg f R ar rv).slow = false)
    ∧ ((fg1 f).isSome = true ↔
        ∃ (R : Runtime) (ar : ActRec) (rv : TypedValue),
          f.inRange ar.numArgs ∧ castsOf (fg f R ar rv).trace ≠ [])
    ∧ ((fg1 f).isSome = true ↔ ∃ i k, f.typedAt i = some k)
    ∧ ((fg1 f).isSome = false ↔
        f ∈ [Fn.gethostname, .headers_list, .get_http_request_size, .headers_sent,
          .header_register_callback, .define_syslog_variables, .closelog])
    ∧ ((fg1 f).isSome = false → ∀ (R : Runtime) (ar : ActRec) (rv : TypedValue),
        castsOf (fg f R ar rv).trace = [] ∧ (fg f R ar rv).slow = false) := by
  have hrange : f.inRange f.maxArgs := by cases f <;> decide
  have key : ∀ (R : Runtime) (ar : ActRec) (rv : TypedValue),
      castsOf (fg f R ar rv).trace ≠ [] → ∃ i k, f.typedAt i = some k := by
    intro R ar rv hne
    by_cases h : f.inRange ar.numArgs
    · rw [castsOf_in_range f R ar rv h] at hne
      obtain ⟨e, he⟩ := List.exists_mem_of_ne_nil _ hne
      have hc := isCast_of_mem_castsFrom _ _ _ _ _ he
      cases e <;> simp [Event.isCast] at hc
      exact ⟨_, _, ((mem_casts_iff f ar h _ _).mp he).1⟩
    · exact absurd (castsOf_out_of_range f R ar rv h) hne
  refine ⟨?_, ⟨?_, ?_⟩, helper_iff_typed f, ?_, ?_⟩
  · refine ⟨sampleRuntime, ⟨f.maxArgs, fun j =>
      match f.typedAt j with
      | some .String => ⟨0, KindOfString⟩
      | some .Int64 => ⟨0, KindOfInt64⟩
      | some .Boolean => ⟨0, KindOfBoolean⟩
      | some .Object => ⟨0, KindOfObject⟩
      | none => ⟨0, KindOfNull⟩, uninit_null⟩, uninit_null, hrange, ?_⟩
    rw [slow_eq_false_iff _ _ _ _ hrange]
    intro i k _ hk
    simp only [hk]
    cases k <;> rfl
  · intro hs
    obtain ⟨i, k, hk⟩ := (helper_iff_typed f).mp hs
    refine ⟨sampleRuntime, ⟨f.maxArgs, fun _ => ⟨0, KindOfNull⟩, uninit_null⟩, uninit_null,
      hrange, ?_⟩
    rw [castsOf_in_range _ _ _ _ hrange]
    intro hnil
    obtain ⟨p, hp, _⟩ := (typedAt_eq_some f i k).mp hk
    have hi : i < f.maxArgs := by
      rw [maxArgs_eq_length]
      exact (List.getElem?_eq_some_iff.mp hp).1
    have := (casts_eq_nil_iff f _ hrange).mp hnil i k hi hk
    cases k <;> simp [CastKind.accepts, IS_STRING_TYPE] at this
  · rintro ⟨R, ar, rv, _, hne⟩
    exact (helper_iff_typed f).mpr (key R ar rv hne)
  · cases f <;> simp [fg1]
  · intro hs R ar rv
    have hno : ¬ ∃ i k, f.typedAt i = some k := by
      rw [← helper_iff_typed, hs]; simp
    have hnil : castsOf (fg f R ar rv).trace = [] := by
      by_contra hne
      exact hno (key R ar rv hne)
    refine ⟨hnil, ?_⟩
    by_cases h : f.inRange ar.numArgs
    · rw [castsOf_in_range f R ar rv h] at hnil
      rw [slow_in_range f R ar rv h, hnil]; rfl
    · rw [fg_out_of_range f R ar rv h]

/-- C22: positional order is preserved. On every in-range run, fast or slow, the
native function is called once with one actual per declared parameter, and for
every i below the supplied count the i-th actual is made from slot i of the
caller as it stands at the call, which is the i-th supplied argument, coerced
when its parameter is coercible. So `getservbyport` receives port from argument
0 and protocol from argument 1, and `syslog` priority from argument 0 and
message from argument 1. -/
theorem arguments_keep_position (f : Fn) (R : Runtime) (ar : ActRec) (rv : TypedValue)
    (h : f.inRange ar.numArgs) :
    (∃ actuals, calls (fg f R ar rv).trace = [Event.call f actuals]
      ∧ actuals.length = f.params.length
      ∧ ∀ i, i < ar.numArgs → ∃ p, f.params[i]? = some p
          ∧ actuals[i]? = some (p.ty.actual i ((fg f R ar rv).args i))
          ∧ (fg f R ar rv).args i =
              (match p.ty.castKind with
               | some k => coerce R k (ar.args i)
               | none => ar.args i))
    ∧ (∀ (a : Nat → TypedValue) (r rv' : TypedValue),
        calls (fg .getservbyport R ⟨2, a, r⟩ rv').trace = [Event.call .getservbyport
          [Arg.int (toInt32 (coerce R .Int64 (a 0)).m_data),
           Arg.data 1 (coerce R .String (a 1))]])
    ∧ (∀ (a : Nat → TypedValue) (r rv' : TypedValue),
        calls (fg .syslog R ⟨2, a, r⟩ rv').trace = [Event.call .syslog
          [Arg.int (toInt32 (coerce R .Int64 (a 0)).m_data),
           Arg.data 1 (coerce R .String (a 1))]]) := by
  refine ⟨⟨f.actuals R ar, calls_in_range f R ar rv h, length_actuals f R ar, ?_⟩, ?_, ?_⟩
  · intro i hi
    obtain ⟨p, hp⟩ := params_getElem_of_lt f _ i h hi
    refine ⟨p, hp, actual_supplied f R ar rv h i p hp hi, ?_⟩
    rw [args_in_range f R ar rv h i, typedAt_of_param f i p hp]
    cases p.ty.castKind <;> simp [hi]
  · intro a r rv'
    rw [calls_in_range .getservbyport R ⟨2, a, r⟩ rv' (show Fn.getservbyport.inRange 2 by decide)]
    simp [Fn.actuals, Fn.params, actualsFrom, coerceFrom, req, ParamTy.castKind,
      Param.present, ParamTy.actual]
  · intro a r rv'
    rw [calls_in_range .syslog R ⟨2, a, r⟩ rv' (show Fn.syslog.inRange 2 by decide)]
    simp [Fn.actuals, Fn.params, actualsFrom, coerceFrom, req, ParamTy.castKind,
      Param.present, ParamTy.actual]

/-- Witness of C22: `getservbyport` called with two integers. -/
theorem arguments_keep_position_witness :
    Fn.getservbyport.inRange (sampleFrame 2).numArgs
    ∧ ((∃ actuals,
        calls (fg .getservbyport sampleRuntime (sampleFrame 2) uninit_null).trace
          = [Event.call .getservbyport actuals]
        ∧ actuals.length = Fn.getservbyport.params.length
        ∧ ∀ i, i < (sampleFrame 2).numArgs → ∃ p, Fn.getservbyport.params[i]? = some p
            ∧ actuals[i]? = some (p.ty.actual i
                ((fg .getservbyport sampleRuntime (sampleFrame 2) uninit_null).args i))
            ∧ (fg .getservbyport sampleRuntime (sampleFrame 2) uninit_null).args i =
                (match p.ty.castKind with
                 | some k => coerce sampleRuntime k ((sampleFrame 2).args i)
                 | none => (sampleFrame 2).args i))
      ∧ (∀ (a : Nat → TypedValue) (r rv' : TypedValue),
          calls (fg .getservbyport sampleRuntime ⟨2, a, r⟩ rv').trace
            = [Event.call .getservbyport
                [Arg.int (toInt32 (coerce sampleRuntime .Int64 (a 0)).m_data),
                 Arg.data 1 (coerce sampleRuntime .String (a 1))]])
      ∧ (∀ (a : Nat → TypedValue) (r rv' : TypedValue),
          calls (fg .syslog sampleRuntime ⟨2, a, r⟩ rv').trace
            = [Event.call .syslog
                [Arg.int (toInt32 (coerce sampleRuntime .Int64 (a 0)).m_data),
                 Arg.data 1 (coerce sampleRuntime .String (a 1))]])) :=
  ⟨by decide,
    arguments_keep_position .getservbyport sampleRuntime (sampleFrame 2) uninit_null
      (by decide)⟩

/-- C23: integer arguments are narrowed to the width of the native parameter.
For every parameter declared `int` the native function receives the payload of
the supplied, coerced argument reduced modulo 2^32 and read as a signed 32-bit
integer; the `long` expire of `setcookie` and `setrawcookie` receives the
payload unchanged; an argument already tagged integer is not altered by the
coercion, so `long2ip` given 2^32 + 1 passes 1. The parameters listed are exactly
those declared `int` and `long`. -/
theorem int_arguments_narrowed (f : Fn) (i : Nat) (R : Runtime) (ar : ActRec)
    (rv : TypedValue) (h : f.inRange ar.numArgs) (hi : i < ar.numArgs) :
    ((f, i) ∈ intParams → ∃ actuals, calls (fg f R ar rv).trace = [Event.call f actuals]
        ∧ actuals[i]? = some (Arg.int (low32signed (coerce R .Int64 (ar.args i)).m_data)))
    ∧ ((f, i) ∈ longParams → ∃ actuals, calls (fg f R ar rv).trace = [Event.call f actuals]
        ∧ actuals[i]? = some (Arg.long (coerce R .Int64 (ar.args i)).m_data))
    ∧ ((ar.args i).m_type = KindOfInt64 → coerce R .Int64 (ar.args i) = ar.args i)
    ∧ (∀ (a : Nat → TypedValue) (r rv' : TypedValue), a 0 = ⟨2 ^ 32 + 1, KindOfInt64⟩ →
        calls (fg .long2ip R ⟨1, a, r⟩ rv').trace = [Event.call .long2ip [Arg.int 1]])
    ∧ (∀ (g : Fn) (j : Nat),
        ((g, j) ∈ intParams ↔ ∃ p, g.params[j]? = some p ∧ p.ty = .int)
        ∧ ((g, j) ∈ longParams ↔ ∃ p, g.params[j]? = some p ∧ p.ty = .long)) := by
  refine ⟨?_, ?_, ?_, ?_, fun g j => ⟨intParams_iff g j, longParams_iff g j⟩⟩
  · intro hf
    obtain ⟨p, hp, hty⟩ := intParams_spec f i hf
    refine ⟨f.actuals R ar, calls_in_range f R ar rv h, ?_⟩
    rw [actual_supplied f R ar rv h i p hp hi, args_in_range f R ar rv h i,
      typedAt_of_param f i p hp, hty]
    simp [ParamTy.castKind, ParamTy.actual, hi, toInt32_eq_low32signed]
  · intro hf
    obtain ⟨p, hp, hty⟩ := longParams_spec f i hf
    refine ⟨f.actuals R ar, calls_in_range f R ar rv h, ?_⟩
    rw [actual_supplied f R ar rv h i p hp hi, args_in_range f R ar rv h i,
      typedAt_of_param f i p hp, hty]
    simp [ParamTy.castKind, ParamTy.actual, hi]
  · intro ht
    simp [coerce, ht]
  · intro a r rv' ha
    rw [calls_in_range .long2ip R ⟨1, a, r⟩ rv' (show Fn.long2ip.inRange 1 by decide)]
    simp [Fn.actuals, Fn.params, actualsFrom, coerceFrom, req, ParamTy.castKind,
      Param.present, ParamTy.actual, coerce, ha, toInt32]

/-- Witness of C23: `long2ip` called with the integer 2^32 + 1. -/
theorem int_arguments_narrowed_witness :
    Fn.long2ip.inRange (wideFrame 1).numArgs ∧ 0 < (wideFrame 1).numArgs
    ∧ (((Fn.long2ip, 0) ∈ intParams → ∃ actuals,
          calls (fg .long2ip sampleRuntime (wideFrame 1) uninit_null).trace
            = [Event.call .long2ip actuals]
          ∧ actuals[0]? = some (Arg.int
              (low32signed (coerce sampleRuntime .Int64 ((wideFrame 1).args 0)).m_data)))
      ∧ ((Fn.long2ip, 0) ∈ longParams → ∃ actuals,
          calls (fg .long2ip sampleRuntime (wideFrame 1) uninit_null).trace
            = [Event.call .long2ip actuals]
          ∧ actuals[0]? = some (Arg.long
              (coerce sampleRuntime .Int64 ((wideFrame 1).args 0)).m_data))
      ∧ (((wideFrame 1).args 0).m_type = KindOfInt64 →
          coerce sampleRuntime .Int64 ((wideFrame 1).args 0) = (wideFrame 1).args 0)
      ∧ (∀ (a : Nat → TypedValue) (r rv' : TypedValue), a 0 = ⟨2 ^ 32 + 1, KindOfInt64⟩ →
          calls (fg .long2ip sampleRuntime ⟨1, a, r⟩ rv').trace
            = [Event.call .long2ip [Arg.int 1]])
      ∧ (∀ (g : Fn) (j : Nat),
          ((g, j) ∈ intParams ↔ ∃ p, g.params[j]? = some p ∧ p.ty = .int)
          ∧ ((g, j) ∈ longParams ↔ ∃ p, g.params[j]? = some p ∧ p.ty = .long))) :=
  ⟨by decide, by decide,
    int_arguments_narrowed .long2ip 0 sampleRuntime (wideFrame 1) uninit_null (by decide)
      (by decide)⟩

/-- C24: the glue never touches a slot that was not supplied. In the run with
its accesses recorded in program order (the tags read by the conditions, with
`&&` and `||` evaluating their right operand only when needed, the casts, the
payloads read and the pointers handed to the native function), which is the run
of `fg`, every access goes to a slot below the count, and on an arity error
there is no access at all; `http_response_code` called without arguments
accesses nothing. The casts recorded are the casts of the trace and the pointers
recorded are the slots among the actuals. Moreover every coercion of the trace is
applied to a slot below the count, every actual that points into the frame points
to a slot below the count, the slots from the count upwards are left as they
were, and the whole run (trace, result, path, and the supplied slots) is the same
for any two frames that agree on the count and on the slots below it. A cold
helper is only entered with an in-range count and a mismatching supplied
argument, and on an arity error the run does not depend on any slot and leaves
them all unchanged. -/
theorem unsupplied_slots_untouched (f : Fn) (R : Runtime) (ar : ActRec) (rv : TypedValue) :
    (Logged.fg f R ar rv).m = fg f R ar rv
    ∧ (∀ x ∈ (Logged.fg f R ar rv).log, x.index < ar.numArgs)
    ∧ (¬ f.inRange ar.numArgs → (Logged.fg f R ar rv).log = [])
    ∧ castSlots (Logged.fg f R ar rv).log
        = (castsOf (fg f R ar rv).trace).map Event.castIndex
    ∧ (∀ actuals, Event.call f actuals ∈ (fg f R ar rv).trace →
        passSlots (Logged.fg f R ar rv).log = actuals.filterMap Arg.slotIndex)
    ∧ (∀ (a : Nat → TypedValue) (r rv' : TypedValue),
        (Logged.fg .http_response_code R ⟨0, a, r⟩ rv').log = [])
    ∧ (Logged.fg .dns_get_record sampleRuntime (sampleFrame 2) uninit_null).log
        = [Access.tag 1, Access.tag 0, Access.tag 1, Access.tag 0, Access.cast 0,
            Access.pass 0, Access.payload 1]
    ∧ (∀ k i, Event.cast k i ∈ (fg f R ar rv).trace → i < ar.numArgs)
    ∧ (∀ g actuals a j, Event.call g actuals ∈ (fg f R ar rv).trace → a ∈ actuals →
        a.slotIndex = some j → j < ar.numArgs)
    ∧ (∀ j, ar.numArgs ≤ j → (fg f R ar rv).args j = ar.args j)
    ∧ (∀ (ar' : ActRec) (rv' : TypedValue), ar'.numArgs = ar.numArgs →
        (∀ j, j < ar.numArgs → ar'.args j = ar.args j) →
        (fg f R ar' rv').trace = (fg f R ar rv).trace
          ∧ (fg f R ar' rv').m_r = (fg f R ar rv).m_r
          ∧ (fg f R ar' rv').slow = (fg f R ar rv).slow
          ∧ ∀ j, j < ar.numArgs → (fg f R ar' rv').args j = (fg f R ar rv).args j)
    ∧ ((fg f R ar rv).slow = true → f.inRange ar.numArgs
        ∧ ∃ k i, i < ar.numArgs ∧ f.typedAt i = some k
            ∧ k.accepts (ar.args i).m_type = false)
    ∧ (¬ f.inRange ar.numArgs → (fg f R ar rv).args = ar.args
        ∧ ∀ (ar' : ActRec) (rv' : TypedValue), ar'.numArgs = ar.numArgs →
            (fg f R ar' rv').trace = (fg f R ar rv).trace
              ∧ (fg f R ar' rv').m_r = (fg f R ar rv).m_r
              ∧ (fg f R ar' rv').slow = (fg f R ar rv).slow) := by
  refine ⟨logged_fg_m f R ar rv, ?_, logged_out_of_range f R ar rv, ?_, ?_, fun _ _ _ => rfl,
    by decide, ?_⟩
  · by_cases h : f.inRange ar.numArgs
    · exact logged_in_range f R ar rv h
    · rw [logged_out_of_range f R ar rv h]
      intro x hx
      exact absurd hx (List.not_mem_nil _)
  · by_cases h : f.inRange ar.numArgs
    · rw [logged_casts_in_range f R ar rv h, castsOf_in_range f R ar rv h]
    · rw [logged_out_of_range f R ar rv h, castsOf_out_of_range f R ar rv h]
      rfl
  · intro actuals hm
    have hc : Event.call f actuals ∈ calls (fg f R ar rv).trace :=
      List.mem_filter.mpr ⟨hm, rfl⟩
    by_cases h : f.inRange ar.numArgs
    · rw [calls_in_range f R ar rv h] at hc
      simp only [List.mem_singleton, Event.call.injEq, true_and] at hc
      rw [hc, logged_passes_in_range f R ar rv h]
    · rw [calls_out_of_range f R ar rv h] at hc
      exact absurd hc (List.not_mem_nil _)
  · by_cases h : f.inRange ar.numArgs
    · refine ⟨?_, ?_, ?_, ?_, ?_, fun hn => absurd h hn⟩
      · intro k i hm
        exact ((mem_casts_iff f ar h k i).mp ((mem_cast_trace_iff f R ar rv h k i).mp hm)).2.1
      · intro g actuals a j hm ha hj
        have hc : Event.call g actuals ∈ calls (fg f R ar rv).trace :=
          List.mem_filter.mpr ⟨hm, rfl⟩
        rw [calls_in_range f R ar rv h] at hc
        simp only [List.mem_singleton, Event.call.injEq] at hc
        rw [hc.2] at ha
        exact slotIndex_lt f R ar h a ha j hj
      · intro j hj
        rw [args_in_range f R ar rv h j]
        have : ¬ j < ar.numArgs := by omega
        cases f.typedAt j <;> simp [this]
      · intro ar' rv' hn hag
        have h' : f.inRange ar'.numArgs := by rw [hn]; exact h
        have hc := casts_congr f ar ar' h hn hag
        have ha := actuals_congr f R ar ar' h hn hag
        have hr : f.result R ar' = f.result R ar := by unfold Fn.result; rw [ha]
        refine ⟨?_, ?_, ?_, ?_⟩
        · rw [trace_in_range f R ar' rv' h', trace_in_range f R ar rv h, hc, ha, hr]
        · rw [m_r_in_range f R ar' rv' h', m_r_in_range f R ar rv h, hr]
        · rw [slow_in_range f R ar' rv' h', slow_in_range f R ar rv h, hc]
        · intro j hj
          rw [fg_eq_glue, fg_eq_glue, glue_in f R ar' h', glue_in f R ar h]
          exact coerced_congr f R ar ar' hn hag j hj
      · intro hs
        refine ⟨h, ?_⟩
        by_contra hno
        have : (fg f R ar rv).slow = false := by
          rw [slow_eq_false_iff f R ar rv h]
          intro i k hi hk
          by_contra hacc
          exact hno ⟨k, i, hi, hk, by simpa using hacc⟩
        rw [this] at hs
        exact absurd hs (by decide)
    · have e := fg_out_of_range f R ar rv h
      refine ⟨?_, ?_, ?_, ?_, ?_, ?_⟩
      · intro k i hm
        exact absurd hm (no_cast_out_of_range f R ar rv h k i)
      · intro g actuals a j hm
        have hc : Event.call g actuals ∈ calls (fg f R ar rv).trace :=
          List.mem_filter.mpr ⟨hm, rfl⟩
        rw [calls_out_of_range f R ar rv h] at hc
        exact absurd hc (List.not_mem_nil _)
      · intro j _
        rw [e]
      · intro ar' rv' hn hag
        have h' : ¬ f.inRange ar'.numArgs := by rw [hn]; exact h
        rw [fg_out_of_range f R ar' rv' h', e, hn]
        exact ⟨rfl, rfl, rfl, hag⟩
      · intro hs
        rw [e] at hs
        exact absurd hs (by simp)
      · intro _
        refine ⟨by rw [e], ?_⟩
        intro ar' rv' hn
        have h' : ¬ f.inRange ar'.numArgs := by rw [hn]; exact h
        rw [fg_out_of_range f R ar' rv' h', e, hn]
        exact ⟨rfl, rfl, rfl⟩

/-- C25: on every in-range run, and so on the slow path of every function with
several parameters, the trace is a run of coercions followed by the native call,
the release of the locals and the store of the result; the coercions come in
strictly descending slot index, each supplied mismatching argument is coerced
exactly once, nothing else is coerced, and all coercions precede the call. -/
theorem coercions_descend_before_call (f : Fn) (R : Runtime) (ar : ActRec)
    (rv : TypedValue) (h : f.inRange ar.numArgs) :
    ∃ cs actuals tv,
      (fg f R ar rv).trace
          = cs ++ [Event.call f actuals, Event.free_locals f.maxArgs, Event.store tv]
      ∧ (∀ e ∈ cs, e.isCast = true)
      ∧ (cs.map Event.castIndex).Pairwise (· > ·)
      ∧ (∀ k i, f.typedAt i = some k → i < ar.numArgs →
          k.accepts (ar.args i).m_type = false → cs.count (Event.cast k i) = 1)
      ∧ (∀ k i, Event.cast k i ∈ cs →
          f.typedAt i = some k ∧ i < ar.numArgs ∧ k.accepts (ar.args i).m_type = false) := by
  refine ⟨f.casts ar, f.actuals R ar, f.result R ar, trace_in_range f R ar rv h,
    fun e he => isCast_of_mem_castsFrom _ _ _ _ _ he,
    (castsFrom_descending ar.numArgs ar.args f.params 0).2, ?_, fun k i hm => (mem_casts_iff f ar h k i).mp hm⟩
  intro k i hk hi hacc
  have hm : Event.cast k i ∈ f.casts ar := (mem_casts_iff f ar h k i).mpr ⟨hk, hi, hacc⟩
  have hnd : (f.casts ar).Nodup := by
    have hp := (castsFrom_descending ar.numArgs ar.args f.params 0).2
    have : ((f.casts ar).map Event.castIndex).Nodup := hp.imp (fun hgt => Nat.ne_of_gt hgt)
    exact List.Nodup.of_map _ this
  exact List.count_eq_one_of_mem hnd hm

/-- Witness of C25: `setcookie` called with seven integers. -/
theorem coercions_descend_before_call_witness :
    Fn.setcookie.inRange (sampleFrame 7).numArgs
    ∧ ∃ cs actuals tv,
      (fg .setcookie sampleRuntime (sampleFrame 7) uninit_null).trace
          = cs ++ [Event.call .setcookie actuals, Event.free_locals Fn.setcookie.maxArgs,
              Event.store tv]
      ∧ (∀ e ∈ cs, e.isCast = true)
      ∧ (cs.map Event.castIndex).Pairwise (· > ·)
      ∧ (∀ k i, Fn.setcookie.typedAt i = some k → i < (sampleFrame 7).numArgs →
          k.accepts ((sampleFrame 7).args i).m_type = false → cs.count (Event.cast k i) = 1)
      ∧ (∀ k i, Event.cast k i ∈ cs →
          Fn.setcookie.typedAt i = some k ∧ i < (sampleFrame 7).numArgs
            ∧ k.accepts ((sampleFrame 7).args i).m_type = false) :=
  ⟨by decide,
    coercions_descend_before_call .setcookie sampleRuntime (sampleFrame 7) uninit_null
      (by decide)⟩

/-- C26: only mismatching arguments are coerced. On every in-range run, a supplied
argument of a coercible parameter that already has the expected tag is not
coerced, its slot keeps tag and payload, and the native function receives the
actual made from the argument as the caller supplied it, whatever happens to the
other arguments of the call; every coercion in the trace is of an argument whose
tag does not match. -/
theorem matching_argument_passed_unchanged (f : Fn) (R : Runtime) (ar : ActRec)
    (rv : TypedValue) (i : Nat) (k : CastKind) (h : f.inRange ar.numArgs)
    (hi : i < ar.numArgs) (hk : f.typedAt i = some k)
    (hacc : k.accepts (ar.args i).m_type = true) :
    (∀ k', Event.cast k' i ∉ (fg f R ar rv).trace)
    ∧ (fg f R ar rv).args i = ar.args i
    ∧ (∃ p actuals, f.params[i]? = some p
        ∧ calls (fg f R ar rv).trace = [Event.call f actuals]
        ∧ actuals[i]? = some (p.ty.actual i (ar.args i)))
    ∧ (∀ k' j, Event.cast k' j ∈ (fg f R ar rv).trace →
        k'.accepts (ar.args j).m_type = false) := by
  have hargs : (fg f R ar rv).args i = ar.args i := by
    rw [args_in_range f R ar rv h i, hk]
    simp [hi, coerce_of_accepts R k _ hacc]
  refine ⟨?_, hargs, ?_, ?_⟩
  · intro k' hm
    have hc := (mem_casts_iff f ar h k' i).mp ((mem_cast_trace_iff f R ar rv h k' i).mp hm)
    have hkk : k' = k := by
      have := hc.1
      rw [hk] at this
      exact (Option.some.inj this).symm
    rw [hkk, hacc] at hc
    exact absurd hc.2.2 (by decide)
  · obtain ⟨p, hp⟩ := params_getElem_of_lt f _ i h hi
    refine ⟨p, f.actuals R ar, hp, calls_in_range f R ar rv h, ?_⟩
    rw [actual_supplied f R ar rv h i p hp hi, hargs]
  · intro k' j hm
    exact ((mem_casts_iff f ar h k' j).mp ((mem_cast_trace_iff f R ar rv h k' j).mp hm)).2.2

/-- Witness of C26: `getservbyport` called with two integers, the port matching and
the protocol coerced. -/
theorem matching_argument_passed_unchanged_witness :
    Fn.getservbyport.inRange (sampleFrame 2).numArgs ∧ 0 < (sampleFrame 2).numArgs
    ∧ Fn.getservbyport.typedAt 0 = some .Int64
    ∧ CastKind.Int64.accepts ((sampleFrame 2).args 0).m_type = true
    ∧ ((∀ k', Event.cast k' 0 ∉
          (fg .getservbyport sampleRuntime (sampleFrame 2) uninit_null).trace)
      ∧ (fg .getservbyport sampleRuntime (sampleFrame 2) uninit_null).args 0
          = (sampleFrame 2).args 0
      ∧ (∃ p actuals, Fn.getservbyport.params[0]? = some p
          ∧ calls (fg .getservbyport sampleRuntime (sampleFrame 2) uninit_null).trace
              = [Event.call .getservbyport actuals]
          ∧ actuals[0]? = some (p.ty.actual 0 ((sampleFrame 2).args 0)))
      ∧ (∀ k' j, Event.cast k' j ∈
          (fg .getservbyport sampleRuntime (sampleFrame 2) uninit_null).trace →
          k'.accepts ((sampleFrame 2).args j).m_type = false)) :=
  ⟨by decide, by decide, by decide, by decide,
    matching_argument_passed_unchanged .getservbyport sampleRuntime (sampleFrame 2)
      uninit_null 0 .Int64 (by decide) (by decide) (by decide) (by decide)⟩

/-- C27: arguments bound to by-reference or `Variant` parameters are never
coerced. For each such parameter, on every in-range run that supplies it, no
coercion is applied to its slot, the slot keeps tag and payload, and the native
function receives the slot of the caller itself; `headers_sent` and
`header_register_callback` coerce nothing and stay on the fast path on every
input. -/
theorem reference_arguments_not_coerced (f : Fn) (i : Nat) (R : Runtime) (ar : ActRec)
    (rv : TypedValue) (hf : (f, i) ∈ refParams) (h : f.inRange ar.numArgs)
    (hi : i < ar.numArgs) :
    (∀ k, Event.cast k i ∉ (fg f R ar rv).trace)
    ∧ (fg f R ar rv).args i = ar.args i
    ∧ (∃ actuals, calls (fg f R ar rv).trace = [Event.call f actuals]
        ∧ actuals[i]? = some (Arg.slot i (ar.args i)))
    ∧ (f = .headers_sent ∨ f = .header_register_callback →
        ∀ (ar' : ActRec) (rv' : TypedValue),
          castsOf (fg f R ar' rv').trace = [] ∧ (fg f R ar' rv').slow = false) := by
  obtain ⟨p, hp, hck, hact⟩ := refParams_spec f i hf
  have hty : f.typedAt i = none := by rw [typedAt_of_param f i p hp, hck]
  have hargs : (fg f R ar rv).args i = ar.args i := by
    rw [args_in_range f R ar rv h i, hty]
  refine ⟨?_, hargs, ⟨f.actuals R ar, calls_in_range f R ar rv h, ?_⟩, ?_⟩
  · intro k hm
    have hc := (mem_casts_iff f ar h k i).mp ((mem_cast_trace_iff f R ar rv h k i).mp hm)
    rw [hty] at hc
    exact absurd hc.1 (by simp)
  · rw [actual_supplied f R ar rv h i p hp hi, hargs, hact]
  · intro hff ar' rv'
    have hnil : f.casts ar' = [] := by
      rcases hff with rfl | rfl <;>
        simp [Fn.casts, castsFrom, Fn.params, opt, req, ParamTy.castKind]
    by_cases h' : f.inRange ar'.numArgs
    · rw [castsOf_in_range f R ar' rv' h', slow_in_range f R ar' rv' h', hnil]
      exact ⟨rfl, rfl⟩
    · rw [castsOf_out_of_range f R ar' rv' h', fg_out_of_range f R ar' rv' h']
      exact ⟨rfl, rfl⟩

/-- Witness of C27: `dns_get_mx` called with two integers, the second bound to
mxhosts. -/
theorem reference_arguments_not_coerced_witness :
    (Fn.dns_get_mx, 1) ∈ refParams ∧ Fn.dns_get_mx.inRange (sampleFrame 2).numArgs
    ∧ 1 < (sampleFrame 2).numArgs
    ∧ ((∀ k, Event.cast k 1 ∉ (fg .dns_get_mx sampleRuntime (sampleFrame 2) uninit_null).trace)
      ∧ (fg .dns_get_mx sampleRuntime (sampleFrame 2) uninit_null).args 1
          = (sampleFrame 2).args 1
      ∧ (∃ actuals, calls (fg .dns_get_mx sampleRuntime (sampleFrame 2) uninit_null).trace
            = [Event.call .dns_get_mx actuals]
          ∧ actuals[1]? = some (Arg.slot 1 ((sampleFrame 2).args 1)))
      ∧ (Fn.dns_get_mx = .headers_sent ∨ Fn.dns_get_mx = .header_register_callback →
          ∀ (ar' : ActRec) (rv' : TypedValue),
            castsOf (fg .dns_get_mx sampleRuntime ar' rv').trace = []
              ∧ (fg .dns_get_mx sampleRuntime ar' rv').slow = false)) :=
  ⟨by decide, by decide, by decide,
    reference_arguments_not_coerced .dns_get_mx 1 sampleRuntime (sampleFrame 2) uninit_null
      (by decide) (by decide) (by decide)⟩

/-- C28: the alias pairs marshal identically. For each pair, the two functions
have the same bounds, parameters with defaults and return wrapping; on every
activation record they make the same arity decision, take the same path, apply
the same coercions and leave the same slots; in range their traces differ only
in the native function called and in what that function returned, both wrapped
the same way from the same actuals; out of range they differ only in the name
carried by the arity error and both return null. -/
theorem alias_pairs_marshal_identically (g f : Fn) (R : Runtime) (ar : ActRec)
    (rv : TypedValue) (hp : (g, f) ∈ aliasPairs) :
    g.minArgs = f.minArgs ∧ g.maxArgs = f.maxArgs ∧ g.params = f.params ∧ g.ret = f.ret
    ∧ (g.inRange ar.numArgs ↔ f.inRange ar.numArgs)
    ∧ (fg g R ar rv).slow = (fg f R ar rv).slow
    ∧ (fg g R ar rv).args = (fg f R ar rv).args
    ∧ castsOf (fg g R ar rv).trace = castsOf (fg f R ar rv).trace
    ∧ (f.inRange ar.numArgs → ∃ cs actuals,
        (fg g R ar rv).trace = cs ++ [Event.call g actuals, Event.free_locals f.maxArgs,
            Event.store (wrap R g actuals f.ret)]
        ∧ (fg f R ar rv).trace = cs ++ [Event.call f actuals, Event.free_locals f.maxArgs,
            Event.store (wrap R f actuals f.ret)]
        ∧ (fg g R ar rv).m_r = wrap R g actuals f.ret
        ∧ (fg f R ar rv).m_r = wrap R f actuals f.ret)
    ∧ (¬ f.inRange ar.numArgs → ∃ e,
        (fg f R ar rv).trace = [e, Event.free_locals f.maxArgs, Event.store null_tv]
        ∧ (fg g R ar rv).trace
            = [e.rename f g, Event.free_locals f.maxArgs, Event.store null_tv]
        ∧ e.isArity = true ∧ e.rename f g ≠ e
        ∧ (fg g R ar rv).m_r = null_tv ∧ (fg f R ar rv).m_r = null_tv) := by
  have hpar : g.params = f.params ∧ g.ret = f.ret ∧ g.minArgs = f.minArgs
      ∧ g.maxArgs = f.maxArgs := by
    simp only [aliasPairs, List.mem_cons, Prod.mk.injEq, List.mem_singleton,
      List.not_mem_nil, or_false] at hp
    rcases hp with h | h | h <;>
      (obtain ⟨hg, hf⟩ := h
       subst hg hf
       exact ⟨rfl, rfl, rfl, rfl⟩)
  obtain ⟨hps, hret, hmin, hmax⟩ := hpar
  have hin : g.inRange ar.numArgs ↔ f.inRange ar.numArgs := by
    unfold Fn.inRange; rw [hmin, hmax]
  have hcasts : g.casts ar = f.casts ar := by unfold Fn.casts; rw [hps]
  have hacts : g.actuals R ar = f.actuals R ar := by unfold Fn.actuals; rw [hps]
  refine ⟨hmin, hmax, hps, hret, hin, ?_⟩
  by_cases h : f.inRange ar.numArgs
  · have hg := hin.mpr h
    refine ⟨?_, ?_, ?_, ?_, fun hn => absurd h hn⟩
    · rw [slow_in_range g R ar rv hg, slow_in_range f R ar rv h, hcasts]
    · rw [fg_eq_glue, fg_eq_glue, glue_in g R ar hg, glue_in f R ar h, hps]
    · rw [castsOf_in_range g R ar rv hg, castsOf_in_range f R ar rv h, hcasts]
    · intro _
      refine ⟨f.casts ar, f.actuals R ar, ?_, trace_in_range f R ar rv h, ?_,
        m_r_in_range f R ar rv h⟩
      · rw [trace_in_range g R ar rv hg, hcasts, hmax]
        unfold Fn.result
        rw [hacts, hret]
      · rw [m_r_in_range g R ar rv hg]
        unfold Fn.result
        rw [hacts, hret]
  · have hg : ¬ g.inRange ar.numArgs := fun hh => h (hin.mp hh)
    refine ⟨?_, ?_, ?_, fun hh => absurd hh h, ?_⟩
    · rw [fg_out_of_range g R ar rv hg, fg_out_of_range f R ar rv h]
    · rw [fg_out_of_range g R ar rv hg, fg_out_of_range f R ar rv h]
    · rw [castsOf_out_of_range g R ar rv hg, castsOf_out_of_range f R ar rv h]
    · intro _
      refine ⟨arityEvent f ar.numArgs, by rw [fg_out_of_range f R ar rv h], ?_,
        isArity_arityEvent f _, ?_, by rw [fg_out_of_range g R ar rv hg],
        by rw [fg_out_of_range f R ar rv h]⟩
      · rw [fg_out_of_range g R ar rv hg, hmax]
        simp only [aliasPairs, List.mem_cons, Prod.mk.injEq, List.mem_singleton,
          List.not_mem_nil, or_false] at hp
        rcases hp with h | h | h <;>
          (obtain ⟨hg, hf⟩ := h
           subst hg hf
           simp [arityEvent, Event.rename, Fn.minArgs, Fn.maxArgs, Fn.name])
      · simp only [aliasPairs, List.mem_cons, Prod.mk.injEq, List.mem_singleton,
          List.not_mem_nil, or_false] at hp
        rcases hp with h | h | h <;>
          (obtain ⟨hg, hf⟩ := h
           subst hg hf
           simp [arityEvent, Event.rename, Fn.minArgs, Fn.maxArgs, Fn.name])

/-- Witness of C28: `checkdnsrr` and `dns_check_record` called with one integer. -/
theorem alias_pairs_marshal_identically_witness :
    (Fn.checkdnsrr, Fn.dns_check_record) ∈ aliasPairs
    ∧ (Fn.checkdnsrr.minArgs = Fn.dns_check_record.minArgs
      ∧ Fn.checkdnsrr.maxArgs = Fn.dns_check_record.maxArgs
      ∧ Fn.checkdnsrr.params = Fn.dns_check_record.params
      ∧ Fn.checkdnsrr.ret = Fn.dns_check_record.ret
      ∧ (Fn.checkdnsrr.inRange (sampleFrame 1).numArgs
          ↔ Fn.dns_check_record.inRange (sampleFrame 1).numArgs)
      ∧ (fg .checkdnsrr sampleRuntime (sampleFrame 1) uninit_null).slow
          = (fg .dns_check_record sampleRuntime (sampleFrame 1) uninit_null).slow
      ∧ (fg .checkdnsrr sampleRuntime (sampleFrame 1) uninit_null).args
          = (fg .dns_check_record sampleRuntime (sampleFrame 1) uninit_null).args
      ∧ castsOf (fg .checkdnsrr sampleRuntime (sampleFrame 1) uninit_null).trace
          = castsOf (fg .dns_check_record sampleRuntime (sampleFrame 1) uninit_null).trace
      ∧ (Fn.dns_check_record.inRange (sampleFrame 1).numArgs → ∃ cs actuals,
          (fg .checkdnsrr sampleRuntime (sampleFrame 1) uninit_null).trace
            = cs ++ [Event.call .checkdnsrr actuals,
                Event.free_locals Fn.dns_check_record.maxArgs,
                Event.store (wrap sampleRuntime .checkdnsrr actuals Fn.dns_check_record.ret)]
          ∧ (fg .dns_check_record sampleRuntime (sampleFrame 1) uninit_null).trace
            = cs ++ [Event.call .dns_check_record actuals,
                Event.free_locals Fn.dns_check_record.maxArgs,
                Event.store
                  (wrap sampleRuntime .dns_check_record actuals Fn.dns_check_record.ret)]
          ∧ (fg .checkdnsrr sampleRuntime (sampleFrame 1) uninit_null).m_r
              = wrap sampleRuntime .checkdnsrr actuals Fn.dns_check_record.ret
          ∧ (fg .dns_check_record sampleRuntime (sampleFrame 1) uninit_null).m_r
              = wrap sampleRuntime .dns_check_record actuals Fn.dns_check_record.ret)
      ∧ (¬ Fn.dns_check_record.inRange (sampleFrame 1).numArgs → ∃ e,
          (fg .dns_check_record sampleRuntime (sampleFrame 1) uninit_null).trace
            = [e, Event.free_locals Fn.dns_check_record.maxArgs, Event.store null_tv]
          ∧ (fg .checkdnsrr sampleRuntime (sampleFrame 1) uninit_null).trace
              = [e.rename .dns_check_record .checkdnsrr,
                  Event.free_locals Fn.dns_check_record.maxArgs, Event.store null_tv]
          ∧ e.isArity = true ∧ e.rename .dns_check_record .checkdnsrr ≠ e
          ∧ (fg .checkdnsrr sampleRuntime (sampleFrame 1) uninit_null).m_r = null_tv
          ∧ (fg .dns_check_record sampleRuntime (sampleFrame 1) uninit_null).m_r = null_tv)) :=
  ⟨by decide,
    alias_pairs_marshal_identically .checkdnsrr .dns_check_record sampleRuntime
      (sampleFrame 1) uninit_null (by decide)⟩

end HPHP
